import Mathlib

/-!
# WILC wireless driver control core (`wilc_netdev.c`)

A shallow embedding of the lifecycle controller (`wilc_wlan_initialize`,
`wilc_wlan_deinitialize` and their helpers), of the transmit admission path
(`wilc_mac_xmit`, `wilc_tx_complete`), of the drain loop of the transmit
worker (`wilc_txq_task`), of the interface-level entry points
(`wilc_mac_open`, `wilc_mac_close`), of the interrupt handlers, of the
address-acquisition power gate (`handle_pwrsave_for_IP`,
`store_power_save_current_state`, `clear_during_ip`) and of the recovery
cycle of the watchdog (`debug_thread`), and of the receive path that holds
back EAPOL frames (`wilc_frmw_to_host`, `eap_buff_timeout`).

Conventions of the embedding.

* The device (`struct wilc`), the file-scope globals (`debug_running`,
  `recovery_on`, `wait_for_recovery`) and the resources the kernel holds on
  behalf of the driver (registered interrupt line, running kernel threads)
  are fields of one record `Wilc`; every function of the source becomes a
  function on that record.
* Calls into the kernel or into other files of the driver are recorded, in
  program order, in the field `trace`; what such a call returns is read from
  an environment record (`InitEnv`, `XmitEnv`, `Drain`, `OpenEnv`), so that any outcome
  of any external step can be injected.
* `int` values are `Int`; the statistics counters are modelled unbounded
  (nothing proved here depends on their wrap-around), and the backoff
  weight never leaves a range of a few units.
* The receive path works on `struct wilc_priv` and on the function-static
  counter of `eap_buff_timeout` only; it has its own state record `RxState`
  and its own recorded calls `RxAction`.
* `init_irq` / `deinit_irq` follow the branch of the source compiled for
  kernels newer than 3.13 (GPIO descriptors).
-/

namespace WilcNetdev

/-! ## Constants -/

/-- Value of `EIO` (errno-base.h). -/
def EIO : Int := 5

/-- Value of `ETIME` (errno.h). -/
def ETIME : Int := 62

/-- Value of `ENOBUFS` (errno.h). -/
def ENOBUFS : Int := 105

/-- Value of `ENODEV` (errno-base.h). -/
def ENODEV : Int := 19

/-- Value of `EINVAL` (errno-base.h). -/
def EINVAL : Int := 22

/-- Value of `NETDEV_TX_OK` (netdevice.h). -/
def NETDEV_TX_OK : Int := 0

/-- Source line 25. -/
def WILC_IP_TIMEOUT_MS : Nat := 15000

/-- Modelled from the spec: the number of interfaces of a device, defined in
a header that is not part of the sources.  The specification fixes the count
at 2, and the source addresses exactly `vif[0]` and `vif[1]`. -/
def WILC_NUM_CONCURRENT_IFC : Nat := 2

/-- Source line 574. -/
def TX_BACKOFF_WEIGHT_INCR_STEP : Int := 1

/-- Source line 575. -/
def TX_BACKOFF_WEIGHT_DECR_STEP : Int := 1

/-- Source line 576. -/
def TX_BACKOFF_WEIGHT_MAX : Int := 0

/-- Source line 577. -/
def TX_BACKOFF_WEIGHT_MIN : Int := 0

/-- Source line 578. -/
def TX_BCKOFF_WGHT_MS : Int := 1

/-! ## Data model -/

/-- Transport type of the device (`wl->io_type`). -/
inductive IoType where
  | WILC_HIF_SDIO
  | WILC_HIF_SPI
  | WILC_HIF_SDIO_GPIO_IRQ
  deriving DecidableEq

/-- Chip variant (`wilc->chip`); `unknown` stands for every value that is
neither `WILC_1000` nor `WILC_3000`. -/
inductive Chip where
  | WILC_1000
  | WILC_3000
  | unknown
  deriving DecidableEq

/-- A `struct task_struct *` as stored in `txq_thread` / `debug_thread`:
`NULL`, a live task, or an `ERR_PTR`; `err k` encodes `ERR_PTR(-(k+1))`, so
that `PTR_ERR` of an error pointer is always negative, as `IS_ERR`
guarantees. -/
inductive TaskPtr where
  | null
  | task
  | err (k : Fin 4095)
  deriving DecidableEq

/-- The macro `IS_ERR` on a task pointer. -/
def TaskPtr.IS_ERR : TaskPtr → Bool
  | .err _ => true
  | _ => false

/-- The macro `PTR_ERR` on a task pointer (used only on error pointers). -/
def TaskPtr.PTR_ERR : TaskPtr → Int
  | .err k => -((k.val : Int) + 1)
  | _ => 0

/-- C truth value of a task pointer (`if (wl->txq_thread)`). -/
def TaskPtr.nonNull : TaskPtr → Bool
  | .null => false
  | _ => true

/-- What `kthread_run` returns: a new task, or `ERR_PTR(-(k+1))`. -/
inductive KthreadRun where
  | started
  | failed (k : Fin 4095)
  deriving DecidableEq

/-- The pointer returned by `kthread_run`. -/
def KthreadRun.ptr : KthreadRun → TaskPtr
  | .started => .task
  | .failed k => .err k

/-- Value of `wl->mac_status`: `WILC_MAC_STATUS_INIT` or a status reported
by the firmware. -/
inductive MacStatus where
  | WILC_MAC_STATUS_INIT
  | reported (status : Int)
  deriving DecidableEq

/-- The configuration attributes pushed by `wilc_init_fw_config`. -/
inductive WID where
  | WID_SET_OPERATION_MODE
  | WID_BSS_TYPE
  | WID_CURRENT_TX_RATE
  | WID_11G_OPERATING_MODE
  | WID_PREAMBLE
  | WID_11N_PROT_MECH
  | WID_SCAN_TYPE
  | WID_SITE_SURVEY
  | WID_RTS_THRESHOLD
  | WID_FRAG_THRESHOLD
  | WID_BCAST_SSID
  | WID_QOS_ENABLE
  | WID_POWER_MANAGEMENT
  | WID_11I_MODE
  | WID_AUTH_TYPE
  | WID_LISTEN_INTERVAL
  | WID_DTIM_PERIOD
  | WID_ACK_POLICY
  | WID_USER_CONTROL_ON_TX_POWER
  | WID_TX_POWER_LEVEL_11A
  | WID_TX_POWER_LEVEL_11B
  | WID_BEACON_INTERVAL
  | WID_REKEY_POLICY
  | WID_REKEY_PERIOD
  | WID_REKEY_PACKET_COUNT
  | WID_SHORT_SLOT_ALLOWED
  | WID_11N_ERP_PROT_TYPE
  | WID_11N_ENABLE
  | WID_11N_OPERATING_MODE
  | WID_11N_TXOP_PROT_DISABLE
  | WID_11N_OBSS_NONHT_DETECTION
  | WID_11N_HT_PROT_TYPE
  | WID_11N_RIFS_PROT_ENABLE
  | WID_11N_CURRENT_TX_MCS
  | WID_11N_IMMEDIATE_BA_ENABLED
  deriving DecidableEq

/-- Result of the two `memcmp` tests that `wilc_mac_open` makes on
`ndev->name`: the first 5 bytes equal `IFC_0`; else the first 4 bytes equal
`IFC_1`; else neither. -/
inductive IfcName where
  | IFC_0
  | IFC_1
  | other
  deriving DecidableEq

/-- Value of `vif->ifc_id`; `unset` stands for the value before the first
successful open. -/
inductive IfcId where
  | unset
  | WILC_WLAN_IFC
  | WILC_P2P_IFC
  deriving DecidableEq

/-- Value of `hif_drv->hif_state`; `other` stands for every state that is
neither idle nor connected. -/
inductive HostIfState where
  | HOST_IF_IDLE
  | HOST_IF_CONNECTED
  | other
  deriving DecidableEq

/-- The part of `struct host_if_drv` that the recovery cycle reads and
writes. -/
structure HostIfDrv where
  /-- Field `hif_state`. -/
  hif_state : HostIfState
  /-- Whether `usr_scan_req.scan_result` is a non-NULL callback. -/
  scan_result : Bool
  /-- Whether `conn_info.conn_result` is a non-NULL callback. -/
  conn_result : Bool
  /-- The six bytes of `assoc_bssid`. -/
  assoc_bssid : List Nat
  /-- Whether `conn_info.req_ies` is a non-NULL buffer. -/
  req_ies : Bool
  /-- Field `conn_info.req_ies_len`. -/
  req_ies_len : Nat
  deriving DecidableEq

/-- The `state` argument of `handle_pwrsave_for_IP`; `other` stands for
every value that is none of the four named ones. -/
inductive IpState where
  | IP_STATE_OBTAINING
  | IP_STATE_OBTAINED
  | IP_STATE_GO_ASSIGNING
  | IP_STATE_DEFAULT
  | other
  deriving DecidableEq

/-- Values of `irqreturn_t`. -/
inductive IrqReturn where
  | IRQ_NONE
  | IRQ_HANDLED
  | IRQ_WAKE_THREAD
  deriving DecidableEq

/-- Completion callbacks that can be handed to `txq_add_net_pkt`. -/
inductive TxCompleteFn where
  | wilc_tx_complete
  | other
  deriving DecidableEq

/-- The `struct tx_complete_data` allocated by `wilc_mac_xmit`: its own
address, the packet buffer it refers to, the packet size and the interface. -/
structure TxCompleteData where
  addr : Nat
  skb : Nat
  size : Nat
  vif : Fin 2
  deriving DecidableEq

/-- Calls that leave this file from the functions that open and close an
interface, from the interrupt handlers, from the address-acquisition power
gate and from the recovery cycle. -/
inductive IfcAction where
  | wilc_bt_power_up
  | wilc_init_host_int (ifc : Fin 2)
  | wilc_deinit_host_int (ifc : Fin 2)
  | wilc_set_wfi_drv_handler (ifc : Fin 2)
  | wilc_set_operation_mode (ifc : Fin 2)
  | wilc_get_mac_address (ifc : Fin 2)
  | wilc_mgmt_frame_register (ifc : Fin 2) (reg : Fin 2)
  | wilc_handle_isr
  | wilc_set_power_mgmt (ifc : Fin 2) (enabled : Bool) (timeout : Nat)
  | mod_timer_during_ip (ifc : Fin 2) (ms : Nat)
  | del_timer_during_ip (ifc : Fin 2)
  | wilc_powersave_state_changes (ifc : Fin 2)
  | msleep (ms : Nat)
  | print_couldnt_restart (i : Nat)
  | del_timer_scan
  | handle_scan_done_aborted
  | conn_result_disconn_notif
  | kfree_req_ies
  deriving DecidableEq

/-- Calls that leave this file, in the order they are made: the calls of
the lifecycle controller and of the transmit path, and (`ifc`) the calls of
the interface-level functions. -/
inductive Action where
  | wilc_wlan_init
  | gpiod_get
  | gpio_to_desc
  | gpiod_direction_input
  | gpiod_to_irq
  | gpiod_put
  | request_threaded_irq (irq : Int)
  | request_irq (irq : Int)
  | enable_irq_wake (irq : Int)
  | free_irq (irq : Int)
  | disable_irq (irq : Int)
  | disable_irq_nosync (irq : Int)
  | mutex_lock_hif_cs
  | mutex_unlock_hif_cs
  | hif_enable_interrupt
  | hif_disable_interrupt
  | kthread_run_txq
  | kthread_run_debug
  | kthread_stop_txq
  | kthread_stop_debug
  | wait_txq_thread_started
  | wait_debug_thread_started
  | complete_txq_event
  | complete_debug_thread_started
  | request_firmware
  | release_firmware
  | wilc_wlan_firmware_download
  | wilc_wlan_start
  | wait_sync_event
  | wilc_wlan_stop
  | wilc_wlan_cleanup
  | cfg_get_firmware_version
  | cfg_set (wid : WID)
  | dev_kfree_skb (skb : Nat)
  | kfree (addr : Nat)
  | txq_add_net_pkt (priv : TxCompleteData) (fn : TxCompleteFn)
  | netif_stop_queue (ifc : Fin 2)
  | netif_wake_queue (ifc : Fin 2)
  | wilc_wlan_handle_txq
  | schedule_timeout (ms : Int)
  | ifc (a : IfcAction)
  deriving DecidableEq

/-- Call `wilc_bt_power_up(wl, DEV_WIFI)`. -/
@[match_pattern] def Action.wilc_bt_power_up : Action := .ifc .wilc_bt_power_up

/-- Call `wilc_init_host_int` on interface `ifc`. -/
@[match_pattern] def Action.wilc_init_host_int (ifc : Fin 2) : Action :=
  .ifc (.wilc_init_host_int ifc)

/-- Call `wilc_deinit_host_int` on interface `ifc`. -/
@[match_pattern] def Action.wilc_deinit_host_int (ifc : Fin 2) : Action :=
  .ifc (.wilc_deinit_host_int ifc)

/-- Call `wilc_set_wfi_drv_handler` on interface `ifc`. -/
@[match_pattern] def Action.wilc_set_wfi_drv_handler (ifc : Fin 2) : Action :=
  .ifc (.wilc_set_wfi_drv_handler ifc)

/-- Call `wilc_set_operation_mode` on interface `ifc`. -/
@[match_pattern] def Action.wilc_set_operation_mode (ifc : Fin 2) : Action :=
  .ifc (.wilc_set_operation_mode ifc)

/-- Call `wilc_get_mac_address` on interface `ifc`. -/
@[match_pattern] def Action.wilc_get_mac_address (ifc : Fin 2) : Action :=
  .ifc (.wilc_get_mac_address ifc)

/-- Call `wilc_mgmt_frame_register` on interface `ifc` for `frame_reg[reg]`. -/
@[match_pattern] def Action.wilc_mgmt_frame_register (ifc : Fin 2) (reg : Fin 2) : Action :=
  .ifc (.wilc_mgmt_frame_register ifc reg)

/-- Call `wilc_handle_isr`, the transport interrupt routine. -/
@[match_pattern] def Action.wilc_handle_isr : Action := .ifc .wilc_handle_isr

/-- Call `wilc_set_power_mgmt(vif, enabled, timeout)`. -/
@[match_pattern] def Action.wilc_set_power_mgmt (ifc : Fin 2) (enabled : Bool)
    (timeout : Nat) : Action :=
  .ifc (.wilc_set_power_mgmt ifc enabled timeout)

/-- Call `mod_timer` on `during_ip_timer` of interface `ifc`, `ms`
milliseconds ahead. -/
@[match_pattern] def Action.mod_timer_during_ip (ifc : Fin 2) (ms : Nat) : Action :=
  .ifc (.mod_timer_during_ip ifc ms)

/-- Call `del_timer` on `during_ip_timer` of interface `ifc`. -/
@[match_pattern] def Action.del_timer_during_ip (ifc : Fin 2) : Action :=
  .ifc (.del_timer_during_ip ifc)

/-- Call `wilc_powersave_state_changes` on interface `ifc`. -/
@[match_pattern] def Action.wilc_powersave_state_changes (ifc : Fin 2) : Action :=
  .ifc (.wilc_powersave_state_changes ifc)

/-- Call `msleep(ms)`. -/
@[match_pattern] def Action.msleep (ms : Nat) : Action := .ifc (.msleep ms)

/-- Warning "Couldn't restart ifc `i`" of the recovery cycle. -/
@[match_pattern] def Action.print_couldnt_restart (i : Nat) : Action :=
  .ifc (.print_couldnt_restart i)

/-- Call `del_timer(&hif_drv->scan_timer)`. -/
@[match_pattern] def Action.del_timer_scan : Action := .ifc .del_timer_scan

/-- Call `handle_scan_done(vif, SCAN_EVENT_ABORTED)`. -/
@[match_pattern] def Action.handle_scan_done_aborted : Action := .ifc .handle_scan_done_aborted

/-- Call `conn_info->conn_result(EVENT_DISCONN_NOTIF, 0, conn_info->arg)`:
the disconnection event delivered upward. -/
@[match_pattern] def Action.conn_result_disconn_notif : Action :=
  .ifc .conn_result_disconn_notif

/-- Call `kfree(conn_info->req_ies)`. -/
@[match_pattern] def Action.kfree_req_ies : Action := .ifc .kfree_req_ies

/-- One logical interface (`struct wilc_vif` with its `net_device`):
the opened flag, the stopped state of the upper-layer send queue
(`netif_queue_stopped`), the transmit counters, the name of the device, the
interface id, and the state of the address-acquisition power gate
(`obtaining_ip`, `pwrsave_current_state`, and `during_ip_timer`: `none`
when the timer is not pending, `some ms` when it is armed `ms` milliseconds
ahead). -/
structure Vif where
  mac_opened : Bool
  queue_stopped : Bool
  tx_packets : Nat
  tx_bytes : Nat
  name : IfcName
  ifc_id : IfcId
  obtaining_ip : Bool
  pwrsave_current_state : Bool
  during_ip_timer : Option Nat
  deriving DecidableEq

/-- The device, the globals of the file and the kernel resources held. -/
structure Wilc where
  /-- Field `wl->initialized`. -/
  initialized : Bool
  /-- Field `wl->close`. -/
  close : Int
  /-- Field `wl->mac_status`. -/
  mac_status : MacStatus
  /-- Field `wl->io_type`. -/
  io_type : IoType
  /-- Field `wilc->chip`. -/
  chip : Chip
  /-- Whether `wl->hif_func->disable_interrupt` is a non-NULL pointer. -/
  hif_disable_interrupt : Bool
  /-- Field `wl->dev_irq_num`. -/
  dev_irq_num : Int
  /-- Whether `wl->gpio_irq` is a non-NULL descriptor. -/
  gpio_irq : Bool
  /-- Field `wl->txq_thread`. -/
  txq_thread : TaskPtr
  /-- Field `wl->debug_thread`. -/
  debug_thread : TaskPtr
  /-- Whether `wilc->firmware` is non-NULL (an image is held). -/
  firmware : Bool
  /-- Field `wl->open_ifcs`. -/
  open_ifcs : Int
  /-- Interface `wl->vif[0]`. -/
  vif0 : Vif
  /-- Interface `wl->vif[1]`. -/
  vif1 : Vif
  /-- Global `debug_running`. -/
  debug_running : Int
  /-- Global `recovery_on`. -/
  recovery_on : Int
  /-- Global `wait_for_recovery`. -/
  wait_for_recovery : Int
  /-- Kernel resource: the interrupt line is registered (`request_irq` or
  `request_threaded_irq` succeeded and `free_irq` was not called since). -/
  irq_registered : Bool
  /-- Kernel resource: the transmit worker task exists (`kthread_run`
  succeeded and `kthread_stop` was not called since). -/
  txq_task_running : Bool
  /-- Kernel resource: the debug (recovery watchdog) task exists. -/
  debug_task_running : Bool
  /-- External calls made so far, oldest first. -/
  trace : List Action
  /-- Whether `wl->dev` is a non-NULL pointer. -/
  dev : Bool
  /-- Global `g_ignore_PS_state`. -/
  g_ignore_PS_state : Bool
  /-- Global `cfg_packet_timeout` (the stall counter). -/
  cfg_packet_timeout : Int
  /-- The `struct host_if_drv` reached from the debug thread. -/
  hif_drv : HostIfDrv
  deriving DecidableEq

/-- Record an external call. -/
def Wilc.log (s : Wilc) (a : Action) : Wilc :=
  { s with trace := s.trace ++ [a] }

/-- Interface `wl->vif[i]`. -/
def Wilc.vif (s : Wilc) (i : Fin 2) : Vif :=
  if i.val = 0 then s.vif0 else s.vif1

/-- Store into `wl->vif[i]`. -/
def Wilc.setVif (s : Wilc) (i : Fin 2) (v : Vif) : Wilc :=
  if i.val = 0 then { s with vif0 := v } else { s with vif1 := v }

/-- A device right after attach: nothing initialised, no resource held. -/
def fresh : Wilc :=
  { initialized := false, close := 0, mac_status := .WILC_MAC_STATUS_INIT,
    io_type := .WILC_HIF_SPI, chip := .WILC_1000, hif_disable_interrupt := false,
    dev_irq_num := 0, gpio_irq := false, txq_thread := .null, debug_thread := .null,
    firmware := false, open_ifcs := 0,
    vif0 := { mac_opened := false, queue_stopped := true, tx_packets := 0, tx_bytes := 0,
              name := .IFC_0, ifc_id := .unset, obtaining_ip := false,
              pwrsave_current_state := false, during_ip_timer := none },
    vif1 := { mac_opened := false, queue_stopped := true, tx_packets := 0, tx_bytes := 0,
              name := .IFC_1, ifc_id := .unset, obtaining_ip := false,
              pwrsave_current_state := false, during_ip_timer := none },
    debug_running := 0, recovery_on := 0, wait_for_recovery := 0,
    irq_registered := false, txq_task_running := false, debug_task_running := false,
    trace := [], dev := true, g_ignore_PS_state := false, cfg_packet_timeout := 0,
    hif_drv := { hif_state := .HOST_IF_IDLE, scan_result := false, conn_result := false,
                 assoc_bssid := [0, 0, 0, 0, 0, 0], req_ies := false, req_ies_len := 0 } }

/-- Outcomes of the external steps of one bring-up attempt. -/
structure InitEnv where
  /-- Return value of `wilc_wlan_init`. -/
  wilc_wlan_init_ret : Int
  /-- Value of `IS_ERR(gpiod_get(...))`. -/
  gpiod_get_is_err : Bool
  /-- Whether the fallback `gpio_to_desc(GPIO_NUM)` returns NULL. -/
  gpio_to_desc_null : Bool
  /-- Return value of `gpiod_direction_input`. -/
  gpiod_direction_input_ret : Int
  /-- Return value of `gpiod_to_irq`. -/
  gpiod_to_irq_ret : Int
  /-- Return value of `request_threaded_irq` / `request_irq`. -/
  request_irq_ret : Int
  /-- Pointer returned by `kthread_run(wilc_txq_task, ...)`. -/
  kthread_run_txq : KthreadRun
  /-- Pointer returned by `kthread_run(debug_thread, ...)`. -/
  kthread_run_debug : KthreadRun
  /-- Return value of `hif_func->enable_interrupt`. -/
  enable_interrupt_ret : Int
  /-- Return value of `request_firmware`. -/
  request_firmware_ret : Int
  /-- Return value of `wilc_wlan_firmware_download`. -/
  firmware_download_ret : Int
  /-- Return value of `wilc_wlan_start`. -/
  wilc_wlan_start_ret : Int
  /-- Return value of `wait_for_completion_timeout(&wilc->sync_event, ...)`
  (0 when the wait timed out). -/
  wait_sync_event_ret : Nat
  /-- Whether `cfg_set` accepts the attribute (returns non-zero). -/
  cfg_set_ok : WID → Bool

/-! ## Interrupt line -/

/-- Source `wilc_disable_irq`. -/
def wilc_disable_irq (s : Wilc) (wait : Int) : Wilc :=
  if wait ≠ 0 then s.log (.disable_irq s.dev_irq_num)
  else s.log (.disable_irq_nosync s.dev_irq_num)

/-- Label `free_gpio` of `init_irq`. -/
def init_irq_free_gpio (s : Wilc) : Int × Wilc :=
  (-1, { s.log .gpiod_put with gpio_irq := false })

/-- Source `init_irq`, from the request of the interrupt line on. -/
def init_irq_request (env : InitEnv) (s : Wilc) : Int × Wilc :=
  let s1 : Wilc :=
    if s.io_type = .WILC_HIF_SPI ∨ s.io_type = .WILC_HIF_SDIO_GPIO_IRQ then
      s.log (.request_threaded_irq s.dev_irq_num)
    else
      s.log (.request_irq s.dev_irq_num)
  if env.request_irq_ret < 0 then
    init_irq_free_gpio s1
  else
    (0, Wilc.log { s1 with irq_registered := true } (.enable_irq_wake s.dev_irq_num))

/-- Source `init_irq`, after the GPIO descriptor has been obtained. -/
def init_irq_with_gpio (env : InitEnv) (s : Wilc) : Int × Wilc :=
  let s1 := s.log .gpiod_direction_input
  if env.gpiod_direction_input_ret ≠ 0 then
    (env.gpiod_direction_input_ret, s1)
  else
    let s2 : Wilc := { s1.log .gpiod_to_irq with dev_irq_num := env.gpiod_to_irq_ret }
    if s2.dev_irq_num < 0 then init_irq_free_gpio s2
    else init_irq_request env s2

/-- Source `init_irq`. -/
def init_irq (env : InitEnv) (s : Wilc) : Int × Wilc :=
  let s1 := s.log .gpiod_get
  if env.gpiod_get_is_err then
    let s2 := s1.log .gpio_to_desc
    if env.gpio_to_desc_null then
      (-1, { s2 with gpio_irq := false })
    else
      init_irq_with_gpio env { s2 with gpio_irq := true }
  else
    init_irq_with_gpio env { s1 with gpio_irq := true }

/-- Source `deinit_irq`. -/
def deinit_irq (s : Wilc) : Wilc :=
  let s1 : Wilc :=
    if s.dev_irq_num > 0 then
      { s.log (.free_irq s.dev_irq_num) with dev_irq_num := -1, irq_registered := false }
    else s
  if s1.gpio_irq then { s1.log .gpiod_put with gpio_irq := false } else s1

/-! ## Threads -/

/-- Source `wlan_initialize_threads`. -/
def wlan_initialize_threads (env : InitEnv) (s : Wilc) : Int × Wilc :=
  let s1 : Wilc := { s.log .kthread_run_txq with
    txq_thread := env.kthread_run_txq.ptr,
    txq_task_running := !env.kthread_run_txq.ptr.IS_ERR }
  if s1.txq_thread.IS_ERR then
    (s1.txq_thread.PTR_ERR, { s1 with close := 1 })
  else
    let s2 := s1.log .wait_txq_thread_started
    if s2.debug_running = 0 then
      let s3 : Wilc := { s2.log .kthread_run_debug with
        debug_thread := env.kthread_run_debug.ptr,
        debug_task_running := !env.kthread_run_debug.ptr.IS_ERR }
      if s3.debug_thread.IS_ERR then
        (s3.debug_thread.PTR_ERR,
          { Wilc.log { s3 with close := 1 } .kthread_stop_txq with txq_task_running := false })
      else
        (0, Wilc.log { s3 with debug_running := 1 } .wait_debug_thread_started)
    else
      (0, s2)

/-- Source `wlan_deinitialize_threads`. -/
def wlan_deinitialize_threads (s : Wilc) : Wilc :=
  let s1 : Wilc :=
    if s.recovery_on = 0 then
      let a : Wilc := Wilc.log { s with debug_running := 0 } .complete_debug_thread_started
      if a.debug_thread.nonNull then
        { a.log .kthread_stop_debug with debug_thread := .null, debug_task_running := false }
      else a
    else s
  let s2 : Wilc := Wilc.log { s1 with close := 1 } .complete_txq_event
  if s2.txq_thread.nonNull then
    { s2.log .kthread_stop_txq with txq_thread := .null, txq_task_running := false }
  else s2

/-! ## Firmware -/

/-- Source `wilc_wlan_get_firmware`. -/
def wilc_wlan_get_firmware (env : InitEnv) (s : Wilc) : Int × Wilc :=
  if s.chip = .WILC_3000 ∨ s.chip = .WILC_1000 then
    let s1 := s.log .request_firmware
    if env.request_firmware_ret ≠ 0 then (-1, s1)
    else (0, { s1 with firmware := true })
  else
    (-1, s)

/-- Source `wilc_start_firmware`. -/
def wilc_start_firmware (env : InitEnv) (s : Wilc) : Int × Wilc :=
  let s1 := s.log .wilc_wlan_start
  if env.wilc_wlan_start_ret < 0 then (env.wilc_wlan_start_ret, s1)
  else
    let s2 := s1.log .wait_sync_event
    if env.wait_sync_event_ret = 0 then (-ETIME, s2)
    else (0, s2)

/-- Source `wilc_firmware_download`.  The value `-ENOBUFS` assigned when
`wilc->firmware` is NULL is overwritten by the result of the download call
that follows unconditionally; the image is released on both outcomes.  The
embedding covers the call with an image held (`firmware = true`), the only
one `wilc_wlan_initialize` makes: with `wilc->firmware` NULL the source
dereferences the NULL pointer in the arguments of the download call, which
the embedding does not represent. -/
def wilc_firmware_download (env : InitEnv) (s : Wilc) : Int × Wilc :=
  let s1 := s.log .wilc_wlan_firmware_download
  (env.firmware_download_ret, { s1.log .release_firmware with firmware := false })

/-- The attributes of `wilc_init_fw_config`, in program order. -/
def fw_config_sequence : List WID :=
  [ .WID_SET_OPERATION_MODE, .WID_BSS_TYPE, .WID_CURRENT_TX_RATE,
    .WID_11G_OPERATING_MODE, .WID_PREAMBLE, .WID_11N_PROT_MECH, .WID_SCAN_TYPE,
    .WID_SITE_SURVEY, .WID_RTS_THRESHOLD, .WID_FRAG_THRESHOLD, .WID_BCAST_SSID,
    .WID_QOS_ENABLE, .WID_POWER_MANAGEMENT, .WID_11I_MODE, .WID_AUTH_TYPE,
    .WID_LISTEN_INTERVAL, .WID_DTIM_PERIOD, .WID_ACK_POLICY,
    .WID_USER_CONTROL_ON_TX_POWER, .WID_TX_POWER_LEVEL_11A,
    .WID_TX_POWER_LEVEL_11B, .WID_BEACON_INTERVAL, .WID_REKEY_POLICY,
    .WID_REKEY_PERIOD, .WID_REKEY_PACKET_COUNT, .WID_SHORT_SLOT_ALLOWED,
    .WID_11N_ERP_PROT_TYPE, .WID_11N_ENABLE, .WID_11N_OPERATING_MODE,
    .WID_11N_TXOP_PROT_DISABLE, .WID_11N_OBSS_NONHT_DETECTION,
    .WID_11N_HT_PROT_TYPE, .WID_11N_RIFS_PROT_ENABLE, .WID_11N_CURRENT_TX_MCS,
    .WID_11N_IMMEDIATE_BA_ENABLED ]

/-- The chain `if (!cfg_set(...)) goto fail;` over a list of attributes:
returns `true` when every attribute was accepted, and stops at the first
rejected one. -/
def cfg_set_chain (env : InitEnv) : List WID → Wilc → Bool × Wilc
  | [], s => (true, s)
  | w :: ws, s =>
    if env.cfg_set_ok w then cfg_set_chain env ws (s.log (.cfg_set w))
    else (false, s.log (.cfg_set w))

/-- Source `wilc_init_fw_config`. -/
def wilc_init_fw_config (env : InitEnv) (s : Wilc) : Int × Wilc :=
  let r := cfg_set_chain env fw_config_sequence s
  if r.1 then (0, r.2) else (-1, r.2)

/-! ## Bring-up and teardown -/

/-- Label `fail_wilc_wlan` of `wilc_wlan_initialize`. -/
def fail_wilc_wlan (s : Wilc) : Wilc :=
  s.log .wilc_wlan_cleanup

/-- Label `fail_irq_init` of `wilc_wlan_initialize`. -/
def fail_irq_init (s : Wilc) : Wilc :=
  fail_wilc_wlan (wlan_deinitialize_threads (deinit_irq s))

/-- Label `fail_irq_enable` of `wilc_wlan_initialize`.  The source calls
`wl->hif_func->disable_interrupt` without a NULL check (line 1137); the
embedding records the call and goes on, that is, it assumes that an SDIO
transport provides the callback (with a NULL callback the source
faults). -/
def fail_irq_enable (s : Wilc) : Wilc :=
  fail_irq_init (if s.io_type = IoType.WILC_HIF_SDIO then s.log .hif_disable_interrupt else s)

/-- Label `fail_fw_start` of `wilc_wlan_initialize`. -/
def fail_fw_start (s : Wilc) : Wilc :=
  fail_irq_enable (s.log .wilc_wlan_stop)

/-- Source `wilc_wlan_initialize`, from the firmware start on. -/
def wilc_wlan_initialize_start (env : InitEnv) (s : Wilc) : Int × Wilc :=
  let r := wilc_start_firmware env s
  if r.1 < 0 then (- EIO, fail_irq_enable r.2)
  else
    let s1 := r.2.log .cfg_get_firmware_version
    let c := wilc_init_fw_config env s1
    if c.1 < 0 then (- EIO, fail_fw_start c.2)
    else (0, { c.2 with initialized := true })

/-- Source `wilc_wlan_initialize`, from the firmware fetch on. -/
def wilc_wlan_initialize_firmware (env : InitEnv) (s : Wilc) : Int × Wilc :=
  let g := wilc_wlan_get_firmware env s
  if g.1 ≠ 0 then (- EIO, fail_irq_enable g.2)
  else
    let d := wilc_firmware_download env g.2
    if d.1 < 0 then (- EIO, fail_irq_enable d.2)
    else wilc_wlan_initialize_start env d.2

/-- Source `wilc_wlan_initialize`, from the thread start on. -/
def wilc_wlan_initialize_threads (env : InitEnv) (s : Wilc) : Int × Wilc :=
  let t := wlan_initialize_threads env s
  if t.1 < 0 then (- EIO, fail_wilc_wlan t.2)
  else if t.2.io_type = IoType.WILC_HIF_SDIO then
    let s1 := t.2.log .hif_enable_interrupt
    if env.enable_interrupt_ret ≠ 0 then (- EIO, fail_irq_init s1)
    else wilc_wlan_initialize_firmware env s1
  else wilc_wlan_initialize_firmware env t.2

/-- Source `wilc_wlan_initialize`. -/
def wilc_wlan_initialize (env : InitEnv) (s : Wilc) : Int × Wilc :=
  if !s.initialized then
    let s1 : Wilc := { s with mac_status := .WILC_MAC_STATUS_INIT, close := 0, initialized := false }
    let s2 := s1.log .wilc_wlan_init
    if env.wilc_wlan_init_ret < 0 then (- EIO, s2)
    else
      let i := init_irq env s2
      if i.1 ≠ 0 then (- EIO, i.2)
      else wilc_wlan_initialize_threads env i.2
  else (0, s)

/-- Source `wilc_wlan_deinitialize`. -/
def wilc_wlan_deinitialize (s : Wilc) : Wilc :=
  if s.initialized then
    let s1 : Wilc :=
      if s.io_type = .WILC_HIF_SPI ∨ s.io_type = .WILC_HIF_SDIO_GPIO_IRQ then
        wilc_disable_irq s 1
      else if s.hif_disable_interrupt then
        ((s.log .mutex_lock_hif_cs).log .hif_disable_interrupt).log .mutex_unlock_hif_cs
      else s
    let s2 := s1.log .complete_txq_event
    let s3 := wlan_deinitialize_threads s2
    let s4 := deinit_irq s3
    let s5 := s4.log .wilc_wlan_stop
    let s6 := s5.log .wilc_wlan_cleanup
    { s6 with initialized := false }
  else s

/-! ## Transmit admission -/

/-- A packet buffer (`struct sk_buff`): its address, the device it is
destined to (`skb->dev`; the two interfaces of this device are the devices
0 and 1) and its length. -/
structure SkBuff where
  id : Nat
  dev : Nat
  len : Nat
  deriving DecidableEq

/-- Outcomes of the external steps of one `wilc_mac_xmit` call. -/
structure XmitEnv where
  /-- Result of `kmalloc(sizeof(*tx_data), GFP_ATOMIC)`: NULL or an address. -/
  kmalloc : Option Nat
  /-- Queue depth returned by `txq_add_net_pkt`. -/
  queue_count : Int

/-- Kernel `netif_stop_queue` on the device of interface `i`. -/
def netif_stop_queue (i : Fin 2) (s : Wilc) : Wilc :=
  (s.setVif i { s.vif i with queue_stopped := true }).log (.netif_stop_queue i)

/-- Kernel `netif_wake_queue` on the device of interface `i`. -/
def netif_wake_queue (i : Fin 2) (s : Wilc) : Wilc :=
  (s.setVif i { s.vif i with queue_stopped := false }).log (.netif_wake_queue i)

/-- Source `wilc_tx_complete`: both values of `status` only select the text
of a log line; the packet buffer and the `tx_complete_data` are then freed. -/
def wilc_tx_complete (pv_data : TxCompleteData) (_status : Int) (s : Wilc) : Wilc :=
  (s.log (.dev_kfree_skb pv_data.skb)).log (.kfree pv_data.addr)

/-- Source `wilc_mac_xmit`, lines 1370-1371: `vif->netstats.tx_packets++`
and `vif->netstats.tx_bytes += tx_data->size`. -/
def count_tx_packet (i : Fin 2) (size : Nat) (s : Wilc) : Wilc :=
  s.setVif i
    { s.vif i with tx_packets := (s.vif i).tx_packets + 1,
                   tx_bytes := (s.vif i).tx_bytes + size }

/-- Source `wilc_mac_xmit`; `FLOW_CTRL_UP_THRESHLD` is defined in a header
that is not part of the sources and is taken as a parameter. -/
def wilc_mac_xmit (FLOW_CTRL_UP_THRESHLD : Int) (env : XmitEnv) (skb : SkBuff)
    (ndev : Fin 2) (s : Wilc) : Int × Wilc :=
  if skb.dev ≠ ndev.val then (NETDEV_TX_OK, s)
  else
    match env.kmalloc with
    | none => (NETDEV_TX_OK, netif_wake_queue ndev (s.log (.dev_kfree_skb skb.id)))
    | some addr =>
      let tx_data : TxCompleteData :=
        { addr := addr, skb := skb.id, size := skb.len, vif := ndev }
      let s1 := count_tx_packet ndev tx_data.size s
      let s2 := s1.log (.txq_add_net_pkt tx_data .wilc_tx_complete)
      let s3 : Wilc :=
        if env.queue_count > FLOW_CTRL_UP_THRESHLD then
          let a : Wilc := if s2.vif0.mac_opened then netif_stop_queue 0 s2 else s2
          if a.vif1.mac_opened then netif_stop_queue 1 a else a
        else s2
      (NETDEV_TX_OK, s3)

/-! ## Transmit worker -/

/-- What one call `wilc_wlan_handle_txq(ndev, &txq_count)` reports: its
return value and the remaining queue depth. -/
structure Drain where
  ret : Int
  txq_count : Nat
  deriving DecidableEq

/-- The transmit worker: the device it serves and its local
`backoff_weight`. -/
structure TxqTask where
  wl : Wilc
  backoff_weight : Int
  deriving DecidableEq

/-- Entry of `wilc_txq_task`: `backoff_weight = TX_BACKOFF_WEIGHT_MIN`. -/
def txq_task_start (s : Wilc) : TxqTask :=
  { wl := s, backoff_weight := TX_BACKOFF_WEIGHT_MIN }

/-- Source `wilc_txq_task`, lines 607-616: the low-water check;
`FLOW_CTRL_LOW_THRESHLD` is defined in a header that is not part of the
sources and is taken as a parameter. -/
def txq_task_wake (FLOW_CTRL_LOW_THRESHLD : Nat) (d : Drain) (s : Wilc) : Wilc :=
  if d.txq_count < FLOW_CTRL_LOW_THRESHLD then
    let a : Wilc :=
      if s.vif0.mac_opened && s.vif0.queue_stopped then netif_wake_queue 0 s else s
    if a.vif1.mac_opened && a.vif1.queue_stopped then netif_wake_queue 1 a else a
  else s

/-- Source `wilc_txq_task`, lines 618-639: the new value of
`backoff_weight` after a drain that returned `ret`. -/
def txq_task_backoff (ret : Int) (backoff_weight : Int) : Int :=
  if ret = -ENOBUFS then
    let w := backoff_weight + TX_BACKOFF_WEIGHT_INCR_STEP
    if w > TX_BACKOFF_WEIGHT_MAX then TX_BACKOFF_WEIGHT_MAX else w
  else if backoff_weight > TX_BACKOFF_WEIGHT_MIN then
    let w := backoff_weight - TX_BACKOFF_WEIGHT_DECR_STEP
    if w < TX_BACKOFF_WEIGHT_MIN then TX_BACKOFF_WEIGHT_MIN else w
  else backoff_weight

/-- Source `wilc_txq_task`, the body of the `do ... while` loop (lines
606-639) for one drain attempt. -/
def txq_task_iteration (FLOW_CTRL_LOW_THRESHLD : Nat) (d : Drain) (t : TxqTask) : TxqTask :=
  let s1 := txq_task_wake FLOW_CTRL_LOW_THRESHLD d (t.wl.log .wilc_wlan_handle_txq)
  let s2 : Wilc :=
    if d.ret = -ENOBUFS then
      s1.log (.schedule_timeout (TX_BCKOFF_WGHT_MS * 2 ^ t.backoff_weight.toNat))
    else s1
  { wl := s2, backoff_weight := txq_task_backoff d.ret t.backoff_weight }

/-- The worker run over the sequence of drain results it sees.  The outer
loop (wait for `txq_event`, exit on `close`) and the loop condition decide
only how many drain attempts are made; the effect of each attempt is the
loop body, and `backoff_weight` persists from one attempt to the next. -/
def wilc_txq_task_drains (FLOW_CTRL_LOW_THRESHLD : Nat) : List Drain → TxqTask → TxqTask
  | [], t => t
  | d :: ds, t =>
    wilc_txq_task_drains FLOW_CTRL_LOW_THRESHLD ds (txq_task_iteration FLOW_CTRL_LOW_THRESHLD d t)

/-! ## Interrupt handlers -/

/-- Source `host_wakeup_isr`. -/
def host_wakeup_isr (s : Wilc) : IrqReturn × Wilc :=
  (.IRQ_HANDLED, s)

/-- Source `isr_uh_routine`. -/
def isr_uh_routine (s : Wilc) : IrqReturn × Wilc :=
  if s.close ≠ 0 then (.IRQ_HANDLED, s)
  else (.IRQ_WAKE_THREAD, s)

/-- Source `isr_bh_routine`. -/
def isr_bh_routine (s : Wilc) : IrqReturn × Wilc :=
  if s.close ≠ 0 then (.IRQ_HANDLED, s)
  else (.IRQ_HANDLED, s.log .wilc_handle_isr)

/-! ## Address-acquisition power gate -/

/-- Kernel `mod_timer` on `vif->during_ip_timer`, `ms` milliseconds ahead
of now. -/
def mod_timer_during_ip (vif : Fin 2) (ms : Nat) (s : Wilc) : Wilc :=
  (s.setVif vif { s.vif vif with during_ip_timer := some ms }).log
    (.mod_timer_during_ip vif ms)

/-- Kernel `del_timer` on `vif->during_ip_timer`. -/
def del_timer_during_ip (vif : Fin 2) (s : Wilc) : Wilc :=
  (s.setVif vif { s.vif vif with during_ip_timer := none }).log (.del_timer_during_ip vif)

/-- Source `handle_pwrsave_for_IP`. -/
def handle_pwrsave_for_IP (vif : Fin 2) (state : IpState) (s : Wilc) : Wilc :=
  match state with
  | .IP_STATE_OBTAINING =>
    let s1 := s.setVif vif { s.vif vif with obtaining_ip := true }
    let s2 : Wilc := { s1 with g_ignore_PS_state := true }
    let s3 := s2.log (.wilc_set_power_mgmt vif false 0)
    mod_timer_during_ip vif 20000 s3
  | .IP_STATE_OBTAINED =>
    let s1 := s.setVif vif { s.vif vif with obtaining_ip := false }
    let s2 := s1.log (.wilc_set_power_mgmt vif (s1.vif vif).pwrsave_current_state 0)
    del_timer_during_ip vif s2
  | .IP_STATE_GO_ASSIGNING =>
    let s1 := s.setVif vif { s.vif vif with obtaining_ip := true }
    mod_timer_during_ip vif WILC_IP_TIMEOUT_MS s1
  | _ =>
    let s1 := s.setVif vif { s.vif vif with obtaining_ip := false }
    del_timer_during_ip vif s1

/-- Source `store_power_save_current_state`. -/
def store_power_save_current_state (vif : Fin 2) (val : Bool) (s : Wilc) : Wilc :=
  if s.g_ignore_PS_state then { s with g_ignore_PS_state := false }
  else s.setVif vif { s.vif vif with pwrsave_current_state := val }

/-- Source `clear_during_ip`, the handler of `during_ip_timer`. -/
def clear_during_ip (vif : Fin 2) (s : Wilc) : Wilc :=
  (s.setVif vif { s.vif vif with obtaining_ip := false }).log
    (.wilc_powersave_state_changes vif)

/-! ## Opening and closing an interface -/

/-- Outcomes of the external steps of one `wilc_mac_open` call. -/
structure OpenEnv where
  /-- Return value of `wilc_init_host_int`. -/
  init_host_int_ret : Int
  /-- Outcomes of the external steps of the bring-up. -/
  init : InitEnv
  /-- Value of `is_valid_ether_addr` on the address that
  `wilc_get_mac_address` returns. -/
  mac_add_valid : Bool

/-- Source `wilc_mac_open`, lines 1214-1215 and 1202-1203: the error exit
taken after a successful bring-up. -/
def wilc_mac_open_abort (ndev : Fin 2) (s : Wilc) : Wilc :=
  wilc_wlan_deinitialize (s.log (.wilc_deinit_host_int ndev))

/-- Source `wilc_mac_open`, from line 1206 on (the interface name was
recognised).  The copy of the address into `ndev->dev_addr` and the store to
`priv->p2p.local_random` touch no modelled state. -/
def wilc_mac_open_address (e : OpenEnv) (ndev : Fin 2) (s : Wilc) : Int × Wilc :=
  let s1 := s.log (.wilc_set_wfi_drv_handler ndev)
  let s2 := s1.log (.wilc_set_operation_mode ndev)
  let s3 := s2.log (.wilc_get_mac_address ndev)
  if !e.mac_add_valid then (-EINVAL, wilc_mac_open_abort ndev s3)
  else
    let s4 := s3.log (.wilc_mgmt_frame_register ndev 0)
    let s5 := s4.log (.wilc_mgmt_frame_register ndev 1)
    let s6 := netif_wake_queue ndev s5
    let s7 : Wilc := { s6 with open_ifcs := s6.open_ifcs + 1 }
    (0, s7.setVif ndev { s7.vif ndev with mac_opened := true })

/-- Source `wilc_mac_open`, from line 1195 on (the bring-up succeeded). -/
def wilc_mac_open_name (e : OpenEnv) (ndev : Fin 2) (s : Wilc) : Int × Wilc :=
  let s1 : Wilc := { s with wait_for_recovery := 0 }
  match (s1.vif ndev).name with
  | .IFC_0 =>
    wilc_mac_open_address e ndev
      (s1.setVif ndev { s1.vif ndev with ifc_id := .WILC_WLAN_IFC })
  | .IFC_1 =>
    wilc_mac_open_address e ndev
      (s1.setVif ndev { s1.vif ndev with ifc_id := .WILC_P2P_IFC })
  | .other => (-ENODEV, wilc_mac_open_abort ndev s1)

/-- Source `wilc_mac_open`, from the bring-up (line 1187) on. -/
def wilc_mac_open_bringup (e : OpenEnv) (ndev : Fin 2) (s : Wilc) : Int × Wilc :=
  let r := wilc_wlan_initialize e.init s
  if r.1 < 0 then
    (r.1, if r.2.recovery_on = 0 then r.2.log (.wilc_deinit_host_int ndev) else r.2)
  else wilc_mac_open_name e ndev r.2

/-- Source `wilc_mac_open`. -/
def wilc_mac_open (e : OpenEnv) (ndev : Fin 2) (s : Wilc) : Int × Wilc :=
  if !s.dev then (-ENODEV, s)
  else
    let s1 : Wilc := if s.open_ifcs = 0 then s.log .wilc_bt_power_up else s
    if s1.recovery_on = 0 then
      let s2 := s1.log (.wilc_init_host_int ndev)
      if e.init_host_int_ret < 0 then (e.init_host_int_ret, s2)
      else wilc_mac_open_bringup e ndev s2
    else wilc_mac_open_bringup e ndev s1

/-- Source `wilc_mac_close` (`vif->ndev` is the device the function is
called on and is never NULL). -/
def wilc_mac_close (ndev : Fin 2) (s : Wilc) : Int × Wilc :=
  if s.open_ifcs > 0 then
    let s1 : Wilc := { s with open_ifcs := s.open_ifcs - 1 }
    let s2 := netif_stop_queue ndev s1
    let s3 : Wilc := if s2.recovery_on = 0 then s2.log (.wilc_deinit_host_int ndev) else s2
    let s4 : Wilc :=
      if s3.open_ifcs = 0 then wilc_wlan_deinitialize { s3 with close := 1 } else s3
    (0, s4.setVif ndev { s4.vif ndev with mac_opened := false })
  else (0, s)

/-! ## Recovery cycle of the debug thread -/

/-- A call made by the recovery cycle on an interface. -/
inductive IfcCall where
  | wilc_mac_close (ifc : Fin 2)
  | wilc_mac_open (ifc : Fin 2)
  deriving DecidableEq

/-- The recovery cycle under way: the device, the local `timeout`, the
outcomes not yet consumed by `wilc_mac_open` attempts, the calls made on the
interfaces so far (oldest first), and whether the loop being run has been
left (`false`: the supplied outcomes ran out while it was still retrying). -/
structure Recovery where
  wl : Wilc
  timeout : Int
  rest : List OpenEnv
  calls : List IfcCall
  done : Bool

/-- Source `debug_thread`, lines 189-190: the loop
`while (wilc_mac_open(...) && --timeout) msleep(100);` on interface `ifc`,
each attempt taking its outcomes from the head of `rest`.  The local
`timeout` is a `signed long`; it is modelled without wrap-around. -/
def reopen_loop (ifc : Fin 2) : List OpenEnv → Int → List IfcCall → Wilc → Recovery
  | [], timeout, calls, s =>
    { wl := s, timeout := timeout, rest := [], calls := calls, done := false }
  | e :: es, timeout, calls, s =>
    let r := wilc_mac_open e ifc s
    let calls1 := calls ++ [IfcCall.wilc_mac_open ifc]
    if r.1 ≠ 0 then
      if timeout - 1 ≠ 0 then reopen_loop ifc es (timeout - 1) calls1 (r.2.log (.msleep 100))
      else { wl := r.2, timeout := timeout - 1, rest := es, calls := calls1, done := true }
    else { wl := r.2, timeout := timeout, rest := es, calls := calls1, done := true }

/-- Source `debug_thread`, lines 188-195 for one interface: the retry loop
and the warning when `timeout` is 0 (`i` is the index printed, one more
than the index of the interface). -/
def reopen_ifc (ifc : Fin 2) (r : Recovery) : Recovery :=
  let l := reopen_loop ifc r.rest r.timeout r.calls r.wl
  if l.done ∧ l.timeout = 0 then
    { l with wl := l.wl.log (.print_couldnt_restart (ifc.val + 1)) }
  else l

/-- Source `debug_thread`, lines 196-225: the disconnection that is
reported upward when the host interface is in the connected state. -/
def recovery_disconnect (vif : Fin 2) (s : Wilc) : Wilc :=
  if s.hif_drv.hif_state = .HOST_IF_CONNECTED then
    let s1 : Wilc :=
      if s.hif_drv.scan_result then (s.log .del_timer_scan).log .handle_scan_done_aborted
      else s
    let s2 : Wilc :=
      if s1.hif_drv.conn_result then
        (handle_pwrsave_for_IP vif .IP_STATE_DEFAULT s1).log .conn_result_disconn_notif
      else s1
    let s3 := s2.log .kfree_req_ies
    { s3 with hif_drv := { s3.hif_drv with assoc_bssid := [0, 0, 0, 0, 0, 0],
                                            req_ies_len := 0, req_ies := false,
                                            hif_state := .HOST_IF_IDLE } }
  else s

/-- Source `debug_thread`, lines 182-187: the recovery cycle is entered and
every interface is closed, index 0 first.  The `wilc_mac_open` attempts that
follow take their outcomes from `envs`. -/
def debug_thread_close_all (envs : List OpenEnv) (s : Wilc) : Recovery :=
  let s1 : Wilc :=
    { s with cfg_packet_timeout := 0, recovery_on := 1, wait_for_recovery := 1 }
  let c0 := (wilc_mac_close 0 s1).2
  let c1 := (wilc_mac_close 1 c0).2
  { wl := c1, timeout := 10, rest := envs,
    calls := [IfcCall.wilc_mac_close 0, IfcCall.wilc_mac_close 1], done := true }

/-- Source `debug_thread`, lines 188-226: the interfaces are reopened,
index 1 first, the disconnection is reported and `recovery_on` is cleared.
The thread was started on interface `vif`. -/
def debug_thread_reopen_all (vif : Fin 2) (r : Recovery) : Recovery :=
  let r1 := reopen_ifc 1 r
  if !r1.done then r1
  else
    let r0 := reopen_ifc 0 r1
    if !r0.done then r0
    else
      let s2 := recovery_disconnect vif r0.wl
      { r0 with wl := { s2 with recovery_on := 0 } }

/-- Source `debug_thread`, lines 182-226: one recovery cycle, run by the
thread started on interface `vif`, the `wilc_mac_open` attempts taking their
outcomes from `envs`.  The result has `done = false` when the outcomes ran
out inside a retry loop, that is, when the cycle has not ended. -/
def debug_thread_recover (vif : Fin 2) (envs : List OpenEnv) (s : Wilc) : Recovery :=
  debug_thread_reopen_all vif (debug_thread_close_all envs s)

/-! ## Receive path: buffering of EAPOL frames -/

/-- Value of `vif->iftype`; `other` stands for every mode that is neither
station nor client. -/
inductive IfType where
  | WILC_STATION_MODE
  | WILC_CLIENT_MODE
  | other
  deriving DecidableEq

/-- Value of the `status` argument of `wilc_frmw_to_host`; `other` stands
for every status that is not `PKT_STATUS_NEW`. -/
inductive PktStatus where
  | PKT_STATUS_NEW
  | other
  deriving DecidableEq

/-- A received frame (`buff + pkt_offset`): an identity for the buffer and
the two bytes at offsets 12 and 13 that the receive path inspects. -/
structure RxFrame where
  id : Nat
  byte12 : Nat
  byte13 : Nat
  deriving DecidableEq

/-- The frame held back in `priv->buffered_eap`
(`struct wilc_buffered_eap`): the copy of the frame, its size and its
packet offset. -/
structure BufferedEap where
  buff : RxFrame
  size : Nat
  pkt_offset : Nat
  deriving DecidableEq

/-- The per-interface state of the receive path: of `struct wilc_priv` the
recorded peer address `associated_bss`, the held-back frame `buffered_eap`
(`none` for NULL) and `eap_buff_timer` (`none` when the timer is not
pending, `some ms` when it is armed `ms` milliseconds ahead); of
`struct wilc_vif` the mode `iftype` and the receive counters. -/
structure WilcPriv where
  associated_bss : List Nat
  buffered_eap : Option BufferedEap
  eap_buff_timer : Option Nat
  iftype : IfType
  rx_packets : Nat
  rx_bytes : Nat
  deriving DecidableEq

/-- Calls that leave this file from the receive path. -/
inductive RxAction where
  | kfree_buffered_eap_buff (ifc : Fin 2) (buff : RxFrame)
  | mod_timer_eap_buff (ifc : Fin 2) (ms : Nat)
  | del_timer_eap_buff (ifc : Fin 2)
  | wilc_send_buffered_eap (ifc : Fin 2) (eap : BufferedEap)
  | netif_rx (ifc : Fin 2) (frame : RxFrame) (len : Nat)
  deriving DecidableEq

/-- State of the receive path: the function-static `timeout` of
`eap_buff_timeout` (a `u8`, one variable for all interfaces), the
per-interface state of the two interfaces, and the calls made so far. -/
structure RxState where
  timeout : Nat
  priv0 : WilcPriv
  priv1 : WilcPriv
  trace : List RxAction
  deriving DecidableEq

/-- Append a call to the recorded calls. -/
def RxState.log (s : RxState) (a : RxAction) : RxState :=
  { s with trace := s.trace ++ [a] }

/-- Per-interface state of interface `i`. -/
def RxState.priv (s : RxState) (i : Fin 2) : WilcPriv :=
  if i = 0 then s.priv0 else s.priv1

/-- Replace the per-interface state of interface `i`. -/
def RxState.setPriv (s : RxState) (i : Fin 2) (p : WilcPriv) : RxState :=
  if i = 0 then { s with priv0 := p } else { s with priv1 := p }

/-- The all-zero address `null_bssid` of the source. -/
def null_bssid : List Nat := [0, 0, 0, 0, 0, 0]

/-- Outcomes of the allocations of `wilc_frmw_to_host`. -/
structure RxEnv where
  /-- Whether `kmalloc(sizeof(struct wilc_buffered_eap))` succeeds. -/
  kmalloc_buffered_eap_ok : Bool
  /-- Whether `dev_alloc_skb` succeeds. -/
  dev_alloc_skb_ok : Bool

/-- Source `wilc_frmw_to_host`, lines 447-457: the frame is copied into
`priv->buffered_eap` and the timer is armed 10 ms ahead.  (The allocation
of the copy is not checked by the source.) -/
def wilc_frmw_to_host_buffer (ifc : Fin 2) (buff : RxFrame) (size pkt_offset : Nat)
    (s : RxState) : RxState :=
  (s.setPriv ifc
    { s.priv ifc with
      buffered_eap := some { buff := buff, size := size, pkt_offset := pkt_offset },
      eap_buff_timer := some 10 }).log (.mod_timer_eap_buff ifc 10)

/-- Source `wilc_frmw_to_host`; `buff` is the frame at `buff + pkt_offset`.
The function does not touch the static `timeout` of `eap_buff_timeout`. -/
def wilc_frmw_to_host (env : RxEnv) (ifc : Fin 2) (buff : RxFrame) (size pkt_offset : Nat)
    (status : PktStatus) (s : RxState) : RxState :=
  if size = 0 then s
  else if status = .PKT_STATUS_NEW ∧ buff.byte12 = 0x88 ∧ buff.byte13 = 0x8e ∧
      ((s.priv ifc).iftype = .WILC_STATION_MODE ∨ (s.priv ifc).iftype = .WILC_CLIENT_MODE) ∧
      (s.priv ifc).associated_bss = null_bssid then
    match (s.priv ifc).buffered_eap with
    | none =>
      if env.kmalloc_buffered_eap_ok then wilc_frmw_to_host_buffer ifc buff size pkt_offset s
      else s
    | some old =>
      wilc_frmw_to_host_buffer ifc buff size pkt_offset
        (s.log (.kfree_buffered_eap_buff ifc old.buff))
  else if !env.dev_alloc_skb_ok then s
  else
    (s.setPriv ifc
      { s.priv ifc with rx_packets := (s.priv ifc).rx_packets + 1,
                        rx_bytes := (s.priv ifc).rx_bytes + size }).log
      (.netif_rx ifc buff size)

/-- Source `eap_buff_timeout`, lines 515-517: the timer is armed again,
10 ms ahead. -/
def eap_buff_timeout_rearm (ifc : Fin 2) (s : RxState) : RxState :=
  (s.setPriv ifc { s.priv ifc with eap_buff_timer := some 10 }).log
    (.mod_timer_eap_buff ifc 10)

/-- Source `eap_buff_timeout`, lines 519-529: the timer is cancelled,
`timeout` is set to 5 again and the held-back frame is handed to
`wilc_send_buffered_eap`.  The result is `none` when `priv->buffered_eap`
is NULL (the source dereferences it). -/
def eap_buff_timeout_deliver (ifc : Fin 2) (s : RxState) : Option RxState :=
  let s1 := (s.setPriv ifc { s.priv ifc with eap_buff_timer := none }).log
    (.del_timer_eap_buff ifc)
  let s2 : RxState := { s1 with timeout := 5 }
  match (s2.priv ifc).buffered_eap with
  | none => none
  | some eap => some (s2.log (.wilc_send_buffered_eap ifc eap))

/-- Source `eap_buff_timeout`, the expiry of `eap_buff_timer` of interface
`ifc`.  The test `!memcmp(...) && (timeout-- > 0)` compares the old value
of the `u8` and decrements it (modulo 256) only when the address is
all-zero. -/
def eap_buff_timeout (ifc : Fin 2) (s : RxState) : Option RxState :=
  let bss_null : Bool := decide ((s.priv ifc).associated_bss = null_bssid)
  let retry : Bool := bss_null && decide (s.timeout > 0)
  let s0 : RxState := if bss_null then { s with timeout := (s.timeout + 255) % 256 } else s
  if retry then some (eap_buff_timeout_rearm ifc s0) else eap_buff_timeout_deliver ifc s0

/-- The timer `eap_buff_timer` of interface `ifc` expires `n` times in a
row, nothing else happening in between. -/
def eap_buff_expiries (ifc : Fin 2) : Nat → RxState → Option RxState
  | 0, s => some s
  | n + 1, s => (eap_buff_timeout ifc s).bind (eap_buff_expiries ifc n)

/-- The interface on which a call of the receive path is made. -/
def RxAction.ifc : RxAction → Fin 2
  | .kfree_buffered_eap_buff i _ => i
  | .mod_timer_eap_buff i _ => i
  | .del_timer_eap_buff i => i
  | .wilc_send_buffered_eap i _ => i
  | .netif_rx i _ _ => i

/-! ## Frame of bring-up and teardown -/

/-- The external calls that bring-up and teardown (`wilc_wlan_initialize`,
`wilc_wlan_deinitialize` and their helpers) can make. -/
def Action.isLifecycle : Action → Bool
  | .wilc_wlan_init => true
  | .gpiod_get => true
  | .gpio_to_desc => true
  | .gpiod_direction_input => true
  | .gpiod_to_irq => true
  | .gpiod_put => true
  | .request_threaded_irq _ => true
  | .request_irq _ => true
  | .enable_irq_wake _ => true
  | .free_irq _ => true
  | .disable_irq _ => true
  | .disable_irq_nosync _ => true
  | .mutex_lock_hif_cs => true
  | .mutex_unlock_hif_cs => true
  | .hif_enable_interrupt => true
  | .hif_disable_interrupt => true
  | .kthread_run_txq => true
  | .kthread_run_debug => true
  | .kthread_stop_txq => true
  | .kthread_stop_debug => true
  | .wait_txq_thread_started => true
  | .wait_debug_thread_started => true
  | .complete_txq_event => true
  | .complete_debug_thread_started => true
  | .request_firmware => true
  | .release_firmware => true
  | .wilc_wlan_firmware_download => true
  | .wilc_wlan_start => true
  | .wait_sync_event => true
  | .wilc_wlan_stop => true
  | .wilc_wlan_cleanup => true
  | .cfg_get_firmware_version => true
  | .cfg_set _ => true
  | _ => false

/-- What bring-up and teardown leave alone, between a state `s` and a later
state `t`: the calls selected by `p` (a selection that contains no call of
bring-up or teardown), the open count, the two interfaces, `recovery_on`,
`wl->dev`, the host interface state and `g_ignore_PS_state`. -/
def LifecycleFrame (p : Action → Bool) (s t : Wilc) : Prop :=
  t.trace.filter p = s.trace.filter p ∧ t.open_ifcs = s.open_ifcs ∧
  t.vif0 = s.vif0 ∧ t.vif1 = s.vif1 ∧ t.recovery_on = s.recovery_on ∧
  t.dev = s.dev ∧ t.hif_drv = s.hif_drv ∧ t.g_ignore_PS_state = s.g_ignore_PS_state

/-- The external calls that `wilc_mac_open` and `wilc_mac_close` can make,
the assertion of device power apart. -/
def Action.isOpenStep (a : Action) : Bool :=
  a.isLifecycle ||
    match a with
    | .wilc_init_host_int _ => true
    | .wilc_deinit_host_int _ => true
    | .wilc_set_wfi_drv_handler _ => true
    | .wilc_set_operation_mode _ => true
    | .wilc_get_mac_address _ => true
    | .wilc_mgmt_frame_register _ _ => true
    | .netif_wake_queue _ => true
    | .netif_stop_queue _ => true
    | _ => false

/-- What one `wilc_mac_open` or `wilc_mac_close`, from state `s` to the
result `r`, does to the calls selected by `p` (none added), to the open
count (one more on success, unchanged on failure) and to `hif_drv`,
`recovery_on` and `wl->dev` (unchanged), between the points of the function
where power is not asserted. -/
def OpenFrame (p : Action → Bool) (s : Wilc) (r : Int × Wilc) : Prop :=
  r.2.trace.filter p = s.trace.filter p ∧
  (r.1 = 0 → r.2.open_ifcs = s.open_ifcs + 1) ∧
  (r.1 ≠ 0 → r.2.open_ifcs = s.open_ifcs) ∧
  r.2.hif_drv = s.hif_drv ∧ r.2.recovery_on = s.recovery_on ∧ r.2.dev = s.dev

/-- What a successful open does to the opened flags: the flag of the
interface is set, the other interface is left as it was. -/
def OpenedFlags (ndev : Fin 2) (s : Wilc) (r : Int × Wilc) : Prop :=
  r.1 = 0 → ((r.2.vif ndev).mac_opened = true ∧ ∀ j, j ≠ ndev → r.2.vif j = s.vif j)

/-- The interface that a call recorded by `wilc_mac_close` acts on:
`netif_stop_queue` is the call that every `wilc_mac_close` that finds an
interface counted as open makes on its own interface. -/
def Action.closedIfc : Action → Option (Fin 2)
  | .netif_stop_queue i => some i
  | _ => none

/-- The interface that a call recorded by `wilc_mac_open` acts on. -/
def Action.openedIfc : Action → Option (Fin 2)
  | .wilc_init_host_int i => some i
  | .wilc_deinit_host_int i => some i
  | .wilc_set_wfi_drv_handler i => some i
  | .wilc_set_operation_mode i => some i
  | .wilc_get_mac_address i => some i
  | .wilc_mgmt_frame_register i _ => some i
  | .netif_wake_queue i => some i
  | _ => none

/-- Whether a recorded call is one that `wilc_mac_close` or `wilc_mac_open`
makes on the interface it is called on. -/
def Action.isIfcStep (a : Action) : Bool :=
  a.closedIfc.isSome || a.openedIfc.isSome

/-- Between the states `s` and `t` the calls made on an interface are the
list `o` (none of them selected away), all of them satisfying `q`. -/
def IfcSteps (q : Action → Prop) (s t : Wilc) : Prop :=
  ∃ o : List Action, t.trace.filter Action.isIfcStep = s.trace.filter Action.isIfcStep ++ o ∧
    ∀ a ∈ o, q a

/-- Whether an external call asserts device power. -/
def Action.isPowerUp : Action → Bool
  | .wilc_bt_power_up => true
  | _ => false

/-- Whether an external call initialises or de-initialises the host state
of an interface. -/
def Action.isHostInt : Action → Bool
  | .wilc_init_host_int _ => true
  | .wilc_deinit_host_int _ => true
  | _ => false

/-- Whether an external call delivers the disconnection event upward. -/
def Action.isDisconnNotif : Action → Bool
  | .conn_result_disconn_notif => true
  | _ => false

/-- Whether an external call is the warning that an interface could not be
restarted. -/
def Action.isCouldntRestart : Action → Bool
  | .print_couldnt_restart _ => true
  | _ => false

/-! ## Scenarios and concrete inputs -/

/-- An environment in which every external step of bring-up succeeds. -/
def env_ok : InitEnv :=
  { wilc_wlan_init_ret := 0, gpiod_get_is_err := false, gpio_to_desc_null := false,
    gpiod_direction_input_ret := 0, gpiod_to_irq_ret := 17, request_irq_ret := 0,
    kthread_run_txq := .started, kthread_run_debug := .started, enable_interrupt_ret := 0,
    request_firmware_ret := 0, firmware_download_ret := 0, wilc_wlan_start_ret := 0,
    wait_sync_event_ret := 1, cfg_set_ok := fun _ => true }

/-- Failure injected at the thread start: `kthread_run` of the transmit
worker returns `ERR_PTR(-12)`. -/
def env_txq_thread_fails : InitEnv :=
  { env_ok with kthread_run_txq := .failed 11 }

/-- Failure injected at the thread start: `kthread_run` of the debug
thread returns `ERR_PTR(-12)`. -/
def env_debug_thread_fails : InitEnv :=
  { env_ok with kthread_run_debug := .failed 11 }

/-- Failure injected at the firmware fetch: `request_firmware` fails. -/
def env_firmware_unavailable : InitEnv :=
  { env_ok with request_firmware_ret := -2 }

/-- Failure injected at the firmware start: the wait for the device-ready
signal times out. -/
def env_start_timeout : InitEnv :=
  { env_ok with wait_sync_event_ret := 0 }

/-- Failure injected at the configuration push: one attribute is rejected. -/
def env_config_rejected : InitEnv :=
  { env_ok with cfg_set_ok := fun w => decide (w ≠ WID.WID_QOS_ENABLE) }

/-- Scenario: `n` packets are submitted one after the other on interface
`ndev` while the transmit queue, empty at the start, is not drained: the
`k`-th call of `txq_add_net_pkt` returns the depth `k`. -/
def enqueue_burst (FLOW_CTRL_UP_THRESHLD : Int) (ndev : Fin 2) : Nat → Wilc → Wilc
  | 0, s => s
  | k + 1, s =>
    (wilc_mac_xmit FLOW_CTRL_UP_THRESHLD { kmalloc := some k, queue_count := (k : Int) + 1 }
      { id := k, dev := ndev.val, len := 0 } ndev
      (enqueue_burst FLOW_CTRL_UP_THRESHLD ndev k s)).2

/-- Resource bookkeeping of a device that is not initialised and holds no
firmware image: a registered interrupt line has a positive number stored in
`dev_irq_num`, and a running transmit worker has its task stored in
`txq_thread`, so that `deinit_irq` and `wlan_deinitialize_threads` find
them. -/
def Unwindable (s : Wilc) : Prop :=
  (s.irq_registered = true → 0 < s.dev_irq_num) ∧
  (s.txq_task_running = true → s.txq_thread.nonNull = true) ∧
  s.firmware = false ∧ s.initialized = false

/-- No interrupt line registered, no transmit worker running, no firmware
image held, device not initialised. -/
def Clean (s : Wilc) : Prop :=
  s.irq_registered = false ∧ s.txq_task_running = false ∧
  s.firmware = false ∧ s.initialized = false

/-- The calls of a teardown whose relative order matters: disabling the
interrupt, stopping the transmit worker, unregistering the interrupt line
and halting the transport. -/
def Action.isTeardownStep : Action → Bool
  | .disable_irq _ => true
  | .disable_irq_nosync _ => true
  | .hif_disable_interrupt => true
  | .kthread_stop_txq => true
  | .free_irq _ => true
  | .wilc_wlan_stop => true
  | .wilc_wlan_cleanup => true
  | _ => false

/-- The call by which `wilc_wlan_deinitialize` disables the interrupt, for
the transport type of the device. -/
def irq_disable_call (s : Wilc) : Action :=
  if s.io_type = .WILC_HIF_SPI ∨ s.io_type = .WILC_HIF_SDIO_GPIO_IRQ then
    .disable_irq s.dev_irq_num
  else .hif_disable_interrupt

/-- Whether an external call is a resume of an upper-layer send queue. -/
def Action.isWake : Action → Bool
  | .netif_wake_queue _ => true
  | _ => false

/-- Number of resumes (`netif_wake_queue`) issued so far. -/
def wake_count (s : Wilc) : Nat :=
  s.trace.countP Action.isWake

/-- A device with interface 0 opened and accepting packets and interface 1
closed. -/
def one_open : Wilc :=
  { fresh with
    initialized := true,
    open_ifcs := 1,
    vif0 := { fresh.vif0 with mac_opened := true, queue_stopped := false } }

/-- Outcomes with which `wilc_mac_open` succeeds on a closed device. -/
def env_open_ok : OpenEnv :=
  { init_host_int_ret := 0, init := env_ok, mac_add_valid := true }

/-- Failure injected into `wilc_mac_open`: `wilc_init_host_int` fails with
`-ENOMEM`. -/
def env_open_host_fails : OpenEnv :=
  { env_open_ok with init_host_int_ret := -12 }

/-- Failure injected into `wilc_mac_open`: the bring-up fails because the
firmware image is unavailable. -/
def env_open_no_firmware : OpenEnv :=
  { env_open_ok with init := env_firmware_unavailable }

/-- Failure injected into `wilc_mac_open`: the address read back from the
device is not a valid unicast address. -/
def env_open_bad_mac : OpenEnv :=
  { env_open_ok with mac_add_valid := false }

/-- A device in the middle of a recovery cycle: `recovery_on` is set and
the interfaces have been closed. -/
def recovering : Wilc :=
  { fresh with recovery_on := 1, wait_for_recovery := 1 }

/-- The device `recovering` whose interface 0 carries a name that is
neither `IFC_0` nor `IFC_1`. -/
def recovering_unknown_name : Wilc :=
  { recovering with vif0 := { recovering.vif0 with name := .other } }

/-- A device with interface 0 opened by a successful `wilc_mac_open`, the
host interface connected to a peer, and a connect-result callback
registered. -/
def connected : Wilc :=
  { (wilc_mac_open env_open_ok 0 fresh).2 with
    hif_drv := { hif_state := .HOST_IF_CONNECTED, scan_result := false, conn_result := true,
                 assoc_bssid := [2, 0, 0, 0, 0, 1], req_ies := true, req_ies_len := 4 } }

/-- The device `connected` without a connect-result callback
(`conn_info.conn_result` is NULL). -/
def connected_no_callback : Wilc :=
  { connected with hif_drv := { connected.hif_drv with conn_result := false } }

/-- A device with interface 0 opened by a successful `wilc_mac_open`. -/
def opened_zero : Wilc := (wilc_mac_open env_open_ok 0 fresh).2

/-- A station interface without a recorded peer address and without a
held-back frame. -/
def priv_fresh : WilcPriv :=
  { associated_bss := null_bssid, buffered_eap := none, eap_buff_timer := none,
    iftype := .WILC_STATION_MODE, rx_packets := 0, rx_bytes := 0 }

/-- The receive path after attach: `timeout` has its initial value 5. -/
def rx_fresh : RxState :=
  { timeout := 5, priv0 := priv_fresh, priv1 := priv_fresh, trace := [] }

/-- Outcomes with which every allocation of the receive path succeeds. -/
def rx_env_ok : RxEnv :=
  { kmalloc_buffered_eap_ok := true, dev_alloc_skb_ok := true }

/-- An EAPOL frame (bytes 12 and 13 are 0x88 0x8e). -/
def eapol_frame (id : Nat) : RxFrame :=
  { id := id, byte12 := 0x88, byte13 := 0x8e }

/-- Scenario: a first EAPOL frame is held back on interface 0, the timer
expires three times, and a second EAPOL frame arrives on interface 0. -/
def rx_second_frame : Option RxState :=
  (eap_buff_expiries 0 3
    (wilc_frmw_to_host rx_env_ok 0 (eapol_frame 1) 100 0 .PKT_STATUS_NEW rx_fresh)).map
    (wilc_frmw_to_host rx_env_ok 0 (eapol_frame 2) 120 0 .PKT_STATUS_NEW)

/-- Scenario: an EAPOL frame is held back on each interface; the timer of
interface 1 expires four times, the timer of interface 0 expires twice (the
second expiry delivers the frame of interface 0), and the timer of interface
1 expires six more times. -/
def rx_two_interfaces : Option RxState :=
  ((eap_buff_expiries 1 4
    (wilc_frmw_to_host rx_env_ok 1 (eapol_frame 2) 120 0 .PKT_STATUS_NEW
      (wilc_frmw_to_host rx_env_ok 0 (eapol_frame 1) 100 0 .PKT_STATUS_NEW rx_fresh))).bind
    (eap_buff_expiries 0 2)).bind (eap_buff_expiries 1 6)

/-- A device with both interfaces opened by successful `wilc_mac_open`
calls, interface 0 first. -/
def both_opened : Wilc := (wilc_mac_open env_open_ok 1 opened_zero).2

/-- A transmit worker whose backoff weight is `w`, on a freshly attached
device. -/
def txq_task_at (w : Int) : TxqTask :=
  { wl := fresh, backoff_weight := w }

/-- A packet whose `skb->dev` (device 5) is not the interface it is
submitted on. -/
def skb_foreign : SkBuff :=
  { id := 7, dev := 5, len := 100 }

end WilcNetdev

/-! # Theorems -/

namespace WilcNetdev

/-! ## Projections of the primitive state updates -/

@[simp] theorem log_trace (s : Wilc) (a : Action) : (s.log a).trace = s.trace ++ [a] := rfl

@[simp] theorem log_vif0 (s : Wilc) (a : Action) : (s.log a).vif0 = s.vif0 := rfl

@[simp] theorem log_vif1 (s : Wilc) (a : Action) : (s.log a).vif1 = s.vif1 := rfl

@[simp] theorem log_vif (s : Wilc) (a : Action) (i : Fin 2) : (s.log a).vif i = s.vif i := rfl

@[simp] theorem vif_zero (s : Wilc) : s.vif 0 = s.vif0 := rfl

@[simp] theorem vif_one (s : Wilc) : s.vif 1 = s.vif1 := rfl

@[simp] theorem setVif_trace (s : Wilc) (i : Fin 2) (v : Vif) :
    (s.setVif i v).trace = s.trace := by
  fin_cases i <;> rfl

@[simp] theorem setVif_zero_vif0 (s : Wilc) (v : Vif) : (s.setVif 0 v).vif0 = v := rfl

@[simp] theorem setVif_zero_vif1 (s : Wilc) (v : Vif) : (s.setVif 0 v).vif1 = s.vif1 := rfl

@[simp] theorem setVif_one_vif0 (s : Wilc) (v : Vif) : (s.setVif 1 v).vif0 = s.vif0 := rfl

@[simp] theorem setVif_one_vif1 (s : Wilc) (v : Vif) : (s.setVif 1 v).vif1 = v := rfl

@[simp] theorem netif_stop_queue_trace (i : Fin 2) (s : Wilc) :
    (netif_stop_queue i s).trace = s.trace ++ [Action.netif_stop_queue i] := by
  simp [netif_stop_queue]

@[simp] theorem netif_wake_queue_trace (i : Fin 2) (s : Wilc) :
    (netif_wake_queue i s).trace = s.trace ++ [Action.netif_wake_queue i] := by
  simp [netif_wake_queue]

@[simp] theorem netif_stop_queue_zero_vif0 (s : Wilc) :
    (netif_stop_queue 0 s).vif0 = { s.vif0 with queue_stopped := true } := rfl

@[simp] theorem netif_stop_queue_zero_vif1 (s : Wilc) :
    (netif_stop_queue 0 s).vif1 = s.vif1 := rfl

@[simp] theorem netif_stop_queue_one_vif0 (s : Wilc) :
    (netif_stop_queue 1 s).vif0 = s.vif0 := rfl

@[simp] theorem netif_stop_queue_one_vif1 (s : Wilc) :
    (netif_stop_queue 1 s).vif1 = { s.vif1 with queue_stopped := true } := rfl

@[simp] theorem netif_wake_queue_zero_vif0 (s : Wilc) :
    (netif_wake_queue 0 s).vif0 = { s.vif0 with queue_stopped := false } := rfl

@[simp] theorem netif_wake_queue_zero_vif1 (s : Wilc) :
    (netif_wake_queue 0 s).vif1 = s.vif1 := rfl

@[simp] theorem netif_wake_queue_one_vif0 (s : Wilc) :
    (netif_wake_queue 1 s).vif0 = s.vif0 := rfl

@[simp] theorem netif_wake_queue_one_vif1 (s : Wilc) :
    (netif_wake_queue 1 s).vif1 = { s.vif1 with queue_stopped := false } := rfl

@[simp] theorem count_tx_packet_trace (i : Fin 2) (n : Nat) (s : Wilc) :
    (count_tx_packet i n s).trace = s.trace := by
  simp [count_tx_packet]

@[simp] theorem count_tx_packet_vif0_mac_opened (i : Fin 2) (n : Nat) (s : Wilc) :
    (count_tx_packet i n s).vif0.mac_opened = s.vif0.mac_opened := by
  fin_cases i <;> rfl

@[simp] theorem count_tx_packet_vif1_mac_opened (i : Fin 2) (n : Nat) (s : Wilc) :
    (count_tx_packet i n s).vif1.mac_opened = s.vif1.mac_opened := by
  fin_cases i <;> rfl

@[simp] theorem count_tx_packet_vif0_queue_stopped (i : Fin 2) (n : Nat) (s : Wilc) :
    (count_tx_packet i n s).vif0.queue_stopped = s.vif0.queue_stopped := by
  fin_cases i <;> rfl

@[simp] theorem count_tx_packet_vif1_queue_stopped (i : Fin 2) (n : Nat) (s : Wilc) :
    (count_tx_packet i n s).vif1.queue_stopped = s.vif1.queue_stopped := by
  fin_cases i <;> rfl

theorem unwindable_log {s : Wilc} (h : Unwindable s) (a : Action) : Unwindable (s.log a) := h

theorem clean_log {s : Wilc} (h : Clean s) (a : Action) : Clean (s.log a) := h

/-! ## Unwinding of a failed bring-up -/

theorem deinit_irq_unwinds (s : Wilc) (h : Unwindable s) :
    (deinit_irq s).irq_registered = false ∧
    (deinit_irq s).txq_task_running = s.txq_task_running ∧
    (deinit_irq s).txq_thread = s.txq_thread ∧
    (deinit_irq s).firmware = false ∧ (deinit_irq s).initialized = false := by
  obtain ⟨h1, _, h3, h4⟩ := h
  unfold deinit_irq
  by_cases c1 : s.dev_irq_num > 0 <;> by_cases c2 : s.gpio_irq = true
  · simp [c1, c2, Wilc.log, h3, h4]
  · simp [c1, c2, Wilc.log, h3, h4]
  · have : s.irq_registered = false := by
      by_contra hc
      exact c1 (h1 (by simpa using hc))
    simp [c1, c2, Wilc.log, h3, h4, this]
  · have : s.irq_registered = false := by
      by_contra hc
      exact c1 (h1 (by simpa using hc))
    simp [c1, c2, Wilc.log, h3, h4, this]

theorem wlan_deinitialize_threads_unwinds (s : Wilc)
    (h : s.txq_task_running = true → s.txq_thread.nonNull = true) :
    (wlan_deinitialize_threads s).txq_task_running = false ∧
    (wlan_deinitialize_threads s).irq_registered = s.irq_registered ∧
    (wlan_deinitialize_threads s).firmware = s.firmware ∧
    (wlan_deinitialize_threads s).initialized = s.initialized := by
  unfold wlan_deinitialize_threads
  by_cases c1 : s.recovery_on = 0 <;> by_cases c2 : s.debug_thread.nonNull = true <;>
    by_cases c3 : s.txq_thread.nonNull = true
  all_goals first
    | (simp [c1, c2, c3, Wilc.log]; done)
    | (have hr : s.txq_task_running = false := by
        by_contra hc
        exact c3 (h (by simpa using hc))
       simp [c1, c2, c3, Wilc.log, hr])

theorem fail_irq_init_clean (s : Wilc) (h : Unwindable s) : Clean (fail_irq_init s) := by
  obtain ⟨a1, a2, a3, a4, a5⟩ := deinit_irq_unwinds s h
  obtain ⟨b1, b2, b3, b4⟩ := wlan_deinitialize_threads_unwinds (deinit_irq s)
    (by rw [a2, a3]; exact h.2.1)
  unfold fail_irq_init fail_wilc_wlan
  apply clean_log
  exact ⟨b2.trans a1, b1, b3.trans a4, b4.trans a5⟩

theorem fail_irq_enable_clean (s : Wilc) (h : Unwindable s) : Clean (fail_irq_enable s) := by
  unfold fail_irq_enable
  split_ifs
  · exact fail_irq_init_clean _ (unwindable_log h _)
  · exact fail_irq_init_clean _ h

theorem fail_fw_start_clean (s : Wilc) (h : Unwindable s) : Clean (fail_fw_start s) :=
  fail_irq_enable_clean _ (unwindable_log h _)

theorem cfg_set_chain_unwindable (env : InitEnv) (ws : List WID) (s : Wilc)
    (h : Unwindable s) : Unwindable (cfg_set_chain env ws s).2 := by
  induction ws generalizing s with
  | nil => exact h
  | cons w ws ih =>
    simp only [cfg_set_chain]
    split_ifs
    · exact ih _ (unwindable_log h _)
    · exact unwindable_log h _

theorem wilc_init_fw_config_unwindable (env : InitEnv) (s : Wilc) (h : Unwindable s) :
    Unwindable (wilc_init_fw_config env s).2 := by
  unfold wilc_init_fw_config
  simp only
  split_ifs <;> exact cfg_set_chain_unwindable env _ s h

theorem wilc_start_firmware_unwindable (env : InitEnv) (s : Wilc) (h : Unwindable s) :
    Unwindable (wilc_start_firmware env s).2 := by
  unfold wilc_start_firmware
  simp only
  split_ifs
  · exact unwindable_log h _
  · exact unwindable_log (unwindable_log h _) _
  · exact unwindable_log (unwindable_log h _) _

theorem wilc_wlan_initialize_start_clean (env : InitEnv) (s : Wilc) (h : Unwindable s)
    (hret : (wilc_wlan_initialize_start env s).1 ≠ 0) :
    Clean (wilc_wlan_initialize_start env s).2 := by
  unfold wilc_wlan_initialize_start at hret ⊢
  simp only at hret ⊢
  split_ifs at hret ⊢
  · exact fail_irq_enable_clean _ (wilc_start_firmware_unwindable env s h)
  · exact fail_fw_start_clean _
      (wilc_init_fw_config_unwindable env _ (unwindable_log (wilc_start_firmware_unwindable env s h) _))
  · exact absurd rfl hret

theorem wilc_wlan_get_firmware_failure (env : InitEnv) (s : Wilc) (h : Unwindable s)
    (c : (wilc_wlan_get_firmware env s).1 ≠ 0) :
    Unwindable (wilc_wlan_get_firmware env s).2 := by
  unfold wilc_wlan_get_firmware at c ⊢
  by_cases hc : (s.chip = .WILC_3000 ∨ s.chip = .WILC_1000)
  · by_cases hr : env.request_firmware_ret = 0
    · simp [hc, hr] at c
    · simp only [hc, hr, if_true, ne_eq, not_false_eq_true]
      exact unwindable_log h _
  · simp only [hc, if_false]
    exact h

theorem wilc_wlan_get_firmware_fields (env : InitEnv) (s : Wilc) :
    (wilc_wlan_get_firmware env s).2.irq_registered = s.irq_registered ∧
    (wilc_wlan_get_firmware env s).2.dev_irq_num = s.dev_irq_num ∧
    (wilc_wlan_get_firmware env s).2.txq_task_running = s.txq_task_running ∧
    (wilc_wlan_get_firmware env s).2.txq_thread = s.txq_thread ∧
    (wilc_wlan_get_firmware env s).2.initialized = s.initialized := by
  unfold wilc_wlan_get_firmware
  split_ifs <;> exact ⟨rfl, rfl, rfl, rfl, rfl⟩

theorem wilc_firmware_download_unwindable (env : InitEnv) (s : Wilc)
    (h1 : s.irq_registered = true → 0 < s.dev_irq_num)
    (h2 : s.txq_task_running = true → s.txq_thread.nonNull = true)
    (h4 : s.initialized = false) :
    Unwindable (wilc_firmware_download env s).2 :=
  ⟨h1, h2, rfl, h4⟩

theorem wilc_wlan_initialize_firmware_clean (env : InitEnv) (s : Wilc) (h : Unwindable s)
    (hret : (wilc_wlan_initialize_firmware env s).1 ≠ 0) :
    Clean (wilc_wlan_initialize_firmware env s).2 := by
  obtain ⟨g1, g2, g3, g4, g5⟩ := wilc_wlan_get_firmware_fields env s
  have hd : Unwindable (wilc_firmware_download env (wilc_wlan_get_firmware env s).2).2 :=
    wilc_firmware_download_unwindable env _ (by rw [g1, g2]; exact h.1)
      (by rw [g3, g4]; exact h.2.1) (by rw [g5]; exact h.2.2.2)
  unfold wilc_wlan_initialize_firmware at hret ⊢
  simp only at hret ⊢
  split_ifs at hret ⊢ with c1 c2
  · exact fail_irq_enable_clean _ (wilc_wlan_get_firmware_failure env s h c1)
  · exact fail_irq_enable_clean _ hd
  · exact wilc_wlan_initialize_start_clean env _ hd hret

theorem wlan_initialize_threads_started (env : InitEnv) (s : Wilc) (h : Unwindable s)
    (htxq : env.kthread_run_txq = .started) (hdbg : env.kthread_run_debug = .started) :
    (wlan_initialize_threads env s).1 = 0 ∧ Unwindable (wlan_initialize_threads env s).2 := by
  obtain ⟨h1, _, h3, h4⟩ := h
  unfold wlan_initialize_threads
  by_cases c : s.debug_running = 0
  · simp only [htxq, hdbg, KthreadRun.ptr, TaskPtr.IS_ERR, Wilc.log, c]
    exact ⟨rfl, h1, fun _ => rfl, h3, h4⟩
  · simp only [htxq, KthreadRun.ptr, TaskPtr.IS_ERR, Wilc.log, c]
    exact ⟨rfl, h1, fun _ => rfl, h3, h4⟩

theorem wilc_wlan_initialize_threads_clean (env : InitEnv) (s : Wilc) (h : Unwindable s)
    (htxq : env.kthread_run_txq = .started) (hdbg : env.kthread_run_debug = .started)
    (hret : (wilc_wlan_initialize_threads env s).1 ≠ 0) :
    Clean (wilc_wlan_initialize_threads env s).2 := by
  obtain ⟨t1, t2⟩ := wlan_initialize_threads_started env s h htxq hdbg
  unfold wilc_wlan_initialize_threads at hret ⊢
  simp only at hret ⊢
  split_ifs at hret ⊢ with c1 c2 c3
  · omega
  · exact fail_irq_init_clean _ (unwindable_log t2 _)
  · exact wilc_wlan_initialize_firmware_clean env _ (unwindable_log t2 _) hret
  · exact wilc_wlan_initialize_firmware_clean env _ t2 hret

theorem init_irq_request_result (env : InitEnv) (s : Wilc) (h : Clean s)
    (hnum : 0 < s.dev_irq_num) :
    ((init_irq_request env s).1 ≠ 0 → Clean (init_irq_request env s).2) ∧
    ((init_irq_request env s).1 = 0 → Unwindable (init_irq_request env s).2) := by
  obtain ⟨h1, h2, h3, h4⟩ := h
  unfold init_irq_request init_irq_free_gpio
  simp only []
  split_ifs
  all_goals first
    | exact ⟨fun _ => ⟨h1, h2, h3, h4⟩, fun hc => by simp at hc⟩
    | exact ⟨fun hc => by simp at hc,
        fun _ => ⟨fun _ => hnum, fun hc => absurd (hc.symm.trans h2) (by decide), h3, h4⟩⟩

theorem init_irq_with_gpio_result (env : InitEnv) (s : Wilc) (h : Clean s)
    (hnum : env.gpiod_to_irq_ret ≠ 0) :
    ((init_irq_with_gpio env s).1 ≠ 0 → Clean (init_irq_with_gpio env s).2) ∧
    ((init_irq_with_gpio env s).1 = 0 → Unwindable (init_irq_with_gpio env s).2) := by
  unfold init_irq_with_gpio
  simp only []
  split_ifs with c1 c2
  · exact ⟨fun _ => clean_log h _, fun hc => absurd hc c1⟩
  · exact ⟨fun _ => h, fun hc => by simp [init_irq_free_gpio] at hc⟩
  · exact init_irq_request_result env _ h (by simp only; omega)

theorem init_irq_result (env : InitEnv) (s : Wilc) (h : Clean s)
    (hnum : env.gpiod_to_irq_ret ≠ 0) :
    ((init_irq env s).1 ≠ 0 → Clean (init_irq env s).2) ∧
    ((init_irq env s).1 = 0 → Unwindable (init_irq env s).2) := by
  unfold init_irq
  simp only []
  split_ifs with c1 c2
  · exact ⟨fun _ => h, fun hc => by simp at hc⟩
  · exact init_irq_with_gpio_result env _ h hnum
  · exact init_irq_with_gpio_result env _ h hnum

/-- When every external step up to and including the thread start succeeds
and the interrupt number obtained is not 0, a failed bring-up of a clean
device leaves the interrupt line unregistered, the transmit worker stopped,
no firmware image held and the device not initialised. -/
theorem bringup_failure_outside_thread_start_is_clean (env : InitEnv) (s : Wilc)
    (h : Clean s) (hnum : env.gpiod_to_irq_ret ≠ 0)
    (htxq : env.kthread_run_txq = .started) (hdbg : env.kthread_run_debug = .started)
    (hret : ( wilc_wlan_initialize env s).1 ≠ 0) :
    Clean ( wilc_wlan_initialize env s).2 := by
  have hi : s.initialized = false := h.2.2.2
  have hc : ∀ (m : MacStatus) (c : Int), Clean { s with mac_status := m, close := c, initialized := false } :=
    fun _ _ => ⟨h.1, h.2.1, h.2.2.1, rfl⟩
  obtain ⟨r1, r2⟩ := init_irq_result env _ (clean_log (hc .WILC_MAC_STATUS_INIT 0) Action.wilc_wlan_init) hnum
  unfold wilc_wlan_initialize at hret ⊢
  simp only [hi, Bool.not_false, if_true] at hret ⊢
  split_ifs at hret ⊢ with c1 c2
  · exact clean_log (hc _ _) _
  · exact r1 c2
  · exact wilc_wlan_initialize_threads_clean env _ (r2 (by simpa using c2)) htxq hdbg hret

theorem bringup_failure_outside_thread_start_is_clean_witness :
    ( wilc_wlan_initialize env_config_rejected fresh).1 ≠ 0 ∧
    Clean ( wilc_wlan_initialize env_config_rejected fresh).2 :=
  ⟨by decide, bringup_failure_outside_thread_start_is_clean env_config_rejected fresh
    ⟨rfl, rfl, rfl, rfl⟩ (by decide) rfl rfl (by decide)⟩

/-! ## Return value of bring-up -/

theorem wilc_wlan_initialize_start_ret (env : InitEnv) (s : Wilc) :
    (wilc_wlan_initialize_start env s).1 = 0 ∨ (wilc_wlan_initialize_start env s).1 = - EIO := by
  unfold wilc_wlan_initialize_start
  simp only
  split_ifs <;> simp

theorem wilc_wlan_initialize_firmware_ret (env : InitEnv) (s : Wilc) :
    (wilc_wlan_initialize_firmware env s).1 = 0 ∨
      (wilc_wlan_initialize_firmware env s).1 = - EIO := by
  unfold wilc_wlan_initialize_firmware
  simp only
  split_ifs
  · simp
  · simp
  · exact wilc_wlan_initialize_start_ret env _

theorem wilc_wlan_initialize_threads_ret (env : InitEnv) (s : Wilc) :
    (wilc_wlan_initialize_threads env s).1 = 0 ∨
      (wilc_wlan_initialize_threads env s).1 = - EIO := by
  unfold wilc_wlan_initialize_threads
  simp only
  split_ifs
  · simp
  · simp
  · exact wilc_wlan_initialize_firmware_ret env _
  · exact wilc_wlan_initialize_firmware_ret env _

theorem wilc_wlan_initialize_ret (env : InitEnv) (s : Wilc) :
    ( wilc_wlan_initialize env s).1 = 0 ∨ ( wilc_wlan_initialize env s).1 = - EIO := by
  unfold wilc_wlan_initialize
  simp only
  split_ifs
  · simp
  · simp
  · exact wilc_wlan_initialize_threads_ret env _
  · simp


/-- Claim C1, evaluated at a failure injected at the thread start.  On a
freshly attached device where the transport init and the interrupt
registration succeed and `kthread_run` of the transmit worker fails,
`wilc_wlan_initialize` returns `-EIO` with the interrupt line still
registered: `free_irq` is never called.  The worker is not running, no
firmware image is held and the device is not initialised.  The same holds
when it is the debug thread that fails to start. -/
theorem bringup_thread_start_failure_keeps_irq :
    ( wilc_wlan_initialize env_txq_thread_fails fresh).1 = - EIO ∧
    ( wilc_wlan_initialize env_txq_thread_fails fresh).2.irq_registered = true ∧
    Action.free_irq 17 ∉ ( wilc_wlan_initialize env_txq_thread_fails fresh).2.trace ∧
    ( wilc_wlan_initialize env_txq_thread_fails fresh).2.txq_task_running = false ∧
    ( wilc_wlan_initialize env_txq_thread_fails fresh).2.firmware = false ∧
    ( wilc_wlan_initialize env_txq_thread_fails fresh).2.initialized = false ∧
    ( wilc_wlan_initialize env_debug_thread_fails fresh).1 = - EIO ∧
    ( wilc_wlan_initialize env_debug_thread_fails fresh).2.irq_registered = true ∧
    ( wilc_wlan_initialize env_debug_thread_fails fresh).2.txq_task_running = false := by
  decide

/-- The enqueue path of `wilc_mac_xmit` as one equation. -/
theorem wilc_mac_xmit_enqueue_eq (up : Int) (env : XmitEnv) (skb : SkBuff)
    (ndev : Fin 2) (s : Wilc) (addr : Nat) (hdev : skb.dev = ndev.val)
    (hk : env.kmalloc = some addr) :
    (wilc_mac_xmit up env skb ndev s).2 =
      (let s2 := (count_tx_packet ndev skb.len s).log
          (.txq_add_net_pkt { addr := addr, skb := skb.id, size := skb.len, vif := ndev }
            .wilc_tx_complete)
       if env.queue_count > up then
          let a : Wilc := if s2.vif0.mac_opened then netif_stop_queue 0 s2 else s2
          if a.vif1.mac_opened then netif_stop_queue 1 a else a
       else s2) := by
  simp only [wilc_mac_xmit, hdev, hk, ne_eq, not_true_eq_false, if_false]

/-- For either status value `wilc_tx_complete` frees the packet buffer once
and then its `tx_complete_data` once, and does nothing else. -/
theorem wilc_tx_complete_frees_once (pv_data : TxCompleteData) (status : Int) (s : Wilc) :
    (wilc_tx_complete pv_data status s).trace =
      s.trace ++ [Action.dev_kfree_skb pv_data.skb, Action.kfree pv_data.addr] := by
  simp [wilc_tx_complete]

/-- When the allocation of `tx_data` fails, `wilc_mac_xmit` frees the packet
buffer itself, once. -/
theorem wilc_mac_xmit_alloc_failure_frees (up : Int) (env : XmitEnv) (skb : SkBuff)
    (ndev : Fin 2) (s : Wilc) (hdev : skb.dev = ndev.val) (hk : env.kmalloc = none) :
    (wilc_mac_xmit up env skb ndev s).2.trace =
      s.trace ++ [Action.dev_kfree_skb skb.id, Action.netif_wake_queue ndev] := by
  simp [wilc_mac_xmit, hdev, hk]

/-- When the allocation succeeds, `wilc_mac_xmit` hands the buffer to
`txq_add_net_pkt` with `wilc_tx_complete` as completion callback and does
not free it itself. -/
theorem wilc_mac_xmit_enqueues (up : Int) (env : XmitEnv) (skb : SkBuff)
    (ndev : Fin 2) (s : Wilc) (addr : Nat) (hdev : skb.dev = ndev.val)
    (hk : env.kmalloc = some addr) :
    ∃ rest, (wilc_mac_xmit up env skb ndev s).2.trace =
        s.trace ++ Action.txq_add_net_pkt
          { addr := addr, skb := skb.id, size := skb.len, vif := ndev }
          TxCompleteFn.wilc_tx_complete :: rest ∧
      Action.dev_kfree_skb skb.id ∉ rest := by
  rw [wilc_mac_xmit_enqueue_eq up env skb ndev s addr hdev hk]
  simp only
  split_ifs <;> simp

/-- A packet whose `skb->dev` is not the interface it is submitted on makes
`wilc_mac_xmit` return `NETDEV_TX_OK` without any effect. -/
theorem wilc_mac_xmit_foreign_no_effect (up : Int) (env : XmitEnv) (skb : SkBuff)
    (ndev : Fin 2) (s : Wilc) (hdev : skb.dev ≠ ndev.val) :
    wilc_mac_xmit up env skb ndev s = (NETDEV_TX_OK, s) := by
  simp [wilc_mac_xmit, hdev]

/-- Claim C3, evaluated at a packet whose `skb->dev` differs from the
interface it is submitted on: `wilc_mac_xmit` returns `NETDEV_TX_OK` (the
caller gives up the buffer) although it has neither freed the buffer nor
handed it to `txq_add_net_pkt`; no call at all was made. -/
theorem wilc_mac_xmit_foreign_packet_not_released :
    (wilc_mac_xmit 256 { kmalloc := some 1, queue_count := 1 } skb_foreign 0 one_open).1 =
      NETDEV_TX_OK ∧
    (wilc_mac_xmit 256 { kmalloc := some 1, queue_count := 1 } skb_foreign 0 one_open).2.trace =
      [] ∧
    Action.dev_kfree_skb skb_foreign.id ∉
      (wilc_mac_xmit 256 { kmalloc := some 1, queue_count := 1 } skb_foreign 0 one_open).2.trace ∧
    (wilc_mac_xmit 256 { kmalloc := some 1, queue_count := 1 } skb_foreign 0 one_open).2 =
      one_open := by
  decide

/-! ## Backoff of the transmit worker -/

/-- One update of the backoff weight keeps it within its bounds. -/
theorem txq_task_backoff_bounds (ret w : Int)
    (h : TX_BACKOFF_WEIGHT_MIN ≤ w ∧ w ≤ TX_BACKOFF_WEIGHT_MAX) :
    TX_BACKOFF_WEIGHT_MIN ≤ txq_task_backoff ret w ∧
      txq_task_backoff ret w ≤ TX_BACKOFF_WEIGHT_MAX := by
  unfold txq_task_backoff
  simp only [TX_BACKOFF_WEIGHT_MIN, TX_BACKOFF_WEIGHT_MAX, TX_BACKOFF_WEIGHT_INCR_STEP,
    TX_BACKOFF_WEIGHT_DECR_STEP] at *
  split_ifs <;> omega

theorem wilc_txq_task_drains_bounds (low : Nat) (ds : List Drain) (t : TxqTask)
    (h : TX_BACKOFF_WEIGHT_MIN ≤ t.backoff_weight ∧ t.backoff_weight ≤ TX_BACKOFF_WEIGHT_MAX) :
    TX_BACKOFF_WEIGHT_MIN ≤ (wilc_txq_task_drains low ds t).backoff_weight ∧
      (wilc_txq_task_drains low ds t).backoff_weight ≤ TX_BACKOFF_WEIGHT_MAX := by
  induction ds generalizing t with
  | nil => simpa [wilc_txq_task_drains] using h
  | cons d ds ih =>
    simp only [wilc_txq_task_drains]
    apply ih
    simpa [txq_task_iteration] using txq_task_backoff_bounds d.ret t.backoff_weight h

/-- Claim C4: starting from `backoff_weight = TX_BACKOFF_WEIGHT_MIN`, after
every sequence of drain results seen by the transmit worker the backoff
weight lies within `[TX_BACKOFF_WEIGHT_MIN, TX_BACKOFF_WEIGHT_MAX]`. -/
theorem backoff_weight_stays_in_range (low : Nat) (s : Wilc) (ds : List Drain) :
    TX_BACKOFF_WEIGHT_MIN ≤ (wilc_txq_task_drains low ds (txq_task_start s)).backoff_weight ∧
      (wilc_txq_task_drains low ds (txq_task_start s)).backoff_weight ≤ TX_BACKOFF_WEIGHT_MAX := by
  apply wilc_txq_task_drains_bounds
  simp [txq_task_start, TX_BACKOFF_WEIGHT_MIN, TX_BACKOFF_WEIGHT_MAX]

theorem wilc_txq_task_drains_append (low : Nat) (ds es : List Drain) (t : TxqTask) :
    wilc_txq_task_drains low (ds ++ es) t =
      wilc_txq_task_drains low es (wilc_txq_task_drains low ds t) := by
  induction ds generalizing t with
  | nil => rfl
  | cons d ds ih => simp [wilc_txq_task_drains, ih]

/-- After a run of drains that all report `-ENOBUFS` the weight has grown
by the length of the run, capped at `TX_BACKOFF_WEIGHT_MAX`. -/
theorem wilc_txq_task_drains_exhaustion (low : Nat) (ds : List Drain) (t : TxqTask)
    (hall : ∀ d ∈ ds, d.ret = -ENOBUFS)
    (h : TX_BACKOFF_WEIGHT_MIN ≤ t.backoff_weight ∧ t.backoff_weight ≤ TX_BACKOFF_WEIGHT_MAX) :
    (wilc_txq_task_drains low ds t).backoff_weight =
      min (t.backoff_weight + ds.length) TX_BACKOFF_WEIGHT_MAX := by
  induction ds generalizing t with
  | nil =>
    simp only [wilc_txq_task_drains, List.length_nil, Nat.cast_zero, add_zero]
    rw [min_eq_left h.2]
  | cons d ds ih =>
    have hd : d.ret = -ENOBUFS := hall d (List.mem_cons_self _ _)
    have hb := txq_task_backoff_bounds d.ret t.backoff_weight h
    simp only [wilc_txq_task_drains]
    rw [ih _ (fun x hx => hall x (List.mem_cons_of_mem _ hx)) (by simpa [txq_task_iteration] using hb)]
    simp only [txq_task_iteration, txq_task_backoff, hd, if_true, List.length_cons,
      TX_BACKOFF_WEIGHT_INCR_STEP, Nat.cast_add, Nat.cast_one]
    obtain ⟨h1, h2⟩ := h
    generalize TX_BACKOFF_WEIGHT_MAX = mx at *
    generalize TX_BACKOFF_WEIGHT_MIN = mn at *
    split_ifs with hc
    · rw [min_eq_right (by omega), min_eq_right (by omega)]
    · rcases le_total (t.backoff_weight + 1 + (ds.length : Int)) mx with hle | hle
      · rw [min_eq_left hle, min_eq_left (by omega)]; omega
      · rw [min_eq_right hle, min_eq_right (by omega)]

/-- After a run of drains that all report `-ENOBUFS`, from any weight that
is not above `TX_BACKOFF_WEIGHT_MAX`, the weight has grown by the length of
the run, capped at `TX_BACKOFF_WEIGHT_MAX`. -/
theorem wilc_txq_task_drains_saturation (low : Nat) (ds : List Drain) (t : TxqTask)
    (hall : ∀ d ∈ ds, d.ret = -ENOBUFS) (h : t.backoff_weight ≤ TX_BACKOFF_WEIGHT_MAX) :
    (wilc_txq_task_drains low ds t).backoff_weight =
      min (t.backoff_weight + ds.length) TX_BACKOFF_WEIGHT_MAX := by
  induction ds generalizing t with
  | nil =>
    simp only [wilc_txq_task_drains, List.length_nil, Nat.cast_zero, add_zero]
    rw [min_eq_left h]
  | cons d ds ih =>
    have hd : d.ret = -ENOBUFS := hall d (List.mem_cons_self _ _)
    have hb : (txq_task_iteration low d t).backoff_weight ≤ TX_BACKOFF_WEIGHT_MAX := by
      simp only [txq_task_iteration, txq_task_backoff, hd, if_true]
      split_ifs with hc
      · exact le_refl _
      · exact not_lt.mp hc
    simp only [wilc_txq_task_drains]
    rw [ih _ (fun x hx => hall x (List.mem_cons_of_mem _ hx)) hb]
    simp only [txq_task_iteration, txq_task_backoff, hd, if_true, List.length_cons,
      TX_BACKOFF_WEIGHT_INCR_STEP, Nat.cast_add, Nat.cast_one]
    generalize TX_BACKOFF_WEIGHT_MAX = mx at *
    split_ifs with hc
    · rw [min_eq_right (by omega), min_eq_right (by omega)]
    · rcases le_total (t.backoff_weight + 1 + (ds.length : Int)) mx with hle | hle
      · rw [min_eq_left hle, min_eq_left (by omega)]; omega
      · rw [min_eq_right hle, min_eq_right (by omega)]

/-- Claim C5: for every weight `w`, one iteration of the drain loop gives
`min (w + 1) MAX` when the drain returns `-ENOBUFS`; for every weight `w`
that is at least `MIN` it gives `max (w - 1) MIN` for any other result, and
when `w` is above `MIN` that is `w - 1`, strictly less than `w`; a run of
`N` consecutive `-ENOBUFS` results from a weight `w` at most `MAX` leaves
the weight at `MAX` as soon as `N >= MAX - w`, in particular from the start
of the worker (`w = MIN`) as soon as `N >= MAX - MIN`. -/
theorem backoff_step_is_saturating (low : Nat) (d : Drain) (t : TxqTask) :
    (d.ret = -ENOBUFS → (txq_task_iteration low d t).backoff_weight =
        min (t.backoff_weight + 1) TX_BACKOFF_WEIGHT_MAX) ∧
    (d.ret ≠ -ENOBUFS → TX_BACKOFF_WEIGHT_MIN ≤ t.backoff_weight →
        (txq_task_iteration low d t).backoff_weight =
          max (t.backoff_weight - 1) TX_BACKOFF_WEIGHT_MIN) ∧
    (d.ret ≠ -ENOBUFS → TX_BACKOFF_WEIGHT_MIN < t.backoff_weight →
        (txq_task_iteration low d t).backoff_weight = t.backoff_weight - 1 ∧
        (txq_task_iteration low d t).backoff_weight < t.backoff_weight) ∧
    (∀ ds : List Drain, (∀ x ∈ ds, x.ret = -ENOBUFS) →
        t.backoff_weight ≤ TX_BACKOFF_WEIGHT_MAX →
        TX_BACKOFF_WEIGHT_MAX - t.backoff_weight ≤ (ds.length : Int) →
        (wilc_txq_task_drains low ds t).backoff_weight = TX_BACKOFF_WEIGHT_MAX) ∧
    (∀ (s : Wilc) (ds : List Drain), (∀ x ∈ ds, x.ret = -ENOBUFS) →
        TX_BACKOFF_WEIGHT_MAX - TX_BACKOFF_WEIGHT_MIN ≤ (ds.length : Int) →
        (wilc_txq_task_drains low ds (txq_task_start s)).backoff_weight =
          TX_BACKOFF_WEIGHT_MAX) := by
  refine ⟨?_, ?_, ?_, ?_, ?_⟩
  · intro h
    simp only [txq_task_iteration, txq_task_backoff, h, if_true, TX_BACKOFF_WEIGHT_INCR_STEP]
    split_ifs with hc
    · rw [min_eq_right (by omega)]
    · rw [min_eq_left (by omega)]
  · intro h hmin
    simp only [txq_task_iteration, txq_task_backoff, h, if_false, TX_BACKOFF_WEIGHT_DECR_STEP]
    split_ifs with h1 h2
    · rw [max_eq_right (by omega)]
    · rw [max_eq_left (by omega)]
    · rw [max_eq_right (by omega)]; omega
  · intro h hlt
    simp only [txq_task_iteration, txq_task_backoff, h, if_false, TX_BACKOFF_WEIGHT_DECR_STEP,
      hlt, gt_iff_lt, if_true]
    split_ifs with h2
    · omega
    · omega
  · intro ds hall hle hlen
    rw [wilc_txq_task_drains_saturation low ds t hall hle]
    exact min_eq_right (by omega)
  · intro s ds hall hlen
    have h0 : (txq_task_start s).backoff_weight ≤ TX_BACKOFF_WEIGHT_MAX :=
      (by decide : TX_BACKOFF_WEIGHT_MIN ≤ TX_BACKOFF_WEIGHT_MAX)
    rw [wilc_txq_task_drains_saturation low ds _ hall h0]
    simp only [txq_task_start]
    exact min_eq_right (by omega)

/-- Claim C5 at weights away from the bounds: `-ENOBUFS` takes the weight
from -2 to -1 and leaves 0 (`MAX`) at 0, another result takes it from 3 to
2, and three `-ENOBUFS` results in a row take it from -3 to `MAX`. -/
theorem backoff_step_is_saturating_witness :
    (txq_task_iteration 200 { ret := -105, txq_count := 3 } (txq_task_at (-2))).backoff_weight =
      -1 ∧
    (txq_task_iteration 200 { ret := -105, txq_count := 3 } (txq_task_at 0)).backoff_weight =
      0 ∧
    ((txq_task_iteration 200 { ret := 0, txq_count := 3 } (txq_task_at 3)).backoff_weight =
      2 ∧
     (txq_task_iteration 200 { ret := 0, txq_count := 3 } (txq_task_at 3)).backoff_weight <
      3) ∧
    (wilc_txq_task_drains 200 (List.replicate 3 { ret := -105, txq_count := 3 })
      (txq_task_at (-3))).backoff_weight = 0 :=
  ⟨(backoff_step_is_saturating 200 { ret := -105, txq_count := 3 } (txq_task_at (-2))).1
      (by decide),
    (backoff_step_is_saturating 200 { ret := -105, txq_count := 3 } (txq_task_at 0)).1
      (by decide),
    (backoff_step_is_saturating 200 { ret := 0, txq_count := 3 } (txq_task_at 3)).2.2.1
      (by decide) (by decide),
    (backoff_step_is_saturating 200 { ret := 0, txq_count := 3 } (txq_task_at (-3))).2.2.2.1
      (List.replicate 3 { ret := -105, txq_count := 3 }) (by decide) (by decide) (by decide)⟩

/-! ## Flow control -/

/-- Claim C6: for a call of `wilc_mac_xmit` that enqueues the packet, if the
depth returned by the enqueue is greater than `FLOW_CTRL_UP_THRESHLD` every
interface with `mac_opened` set is stopped afterwards and an interface that
is not opened keeps its state; if the depth is not greater, no interface
changes its stopped state; `mac_opened` never changes, a stopped interface
stays stopped, and stopping a stopped interface leaves it as it was. -/
theorem wilc_mac_xmit_pauses_opened_interfaces (up : Int) (env : XmitEnv) (skb : SkBuff)
    (ndev : Fin 2) (s : Wilc) (addr : Nat) (hdev : skb.dev = ndev.val)
    (hk : env.kmalloc = some addr) :
    (env.queue_count > up → ∀ i : Fin 2, (s.vif i).mac_opened = true →
        (((wilc_mac_xmit up env skb ndev s).2).vif i).queue_stopped = true) ∧
    (env.queue_count > up → ∀ i : Fin 2, (s.vif i).mac_opened = false →
        (((wilc_mac_xmit up env skb ndev s).2).vif i).queue_stopped =
          (s.vif i).queue_stopped) ∧
    (¬ env.queue_count > up → ∀ i : Fin 2,
        (((wilc_mac_xmit up env skb ndev s).2).vif i).queue_stopped =
          (s.vif i).queue_stopped) ∧
    (∀ i : Fin 2, (((wilc_mac_xmit up env skb ndev s).2).vif i).mac_opened =
        (s.vif i).mac_opened) ∧
    (∀ i : Fin 2, (s.vif i).queue_stopped = true →
        (((wilc_mac_xmit up env skb ndev s).2).vif i).queue_stopped = true) ∧
    (∀ (i : Fin 2) (x : Wilc), (x.vif i).queue_stopped = true →
        (netif_stop_queue i x).vif i = x.vif i) := by
  rw [wilc_mac_xmit_enqueue_eq up env skb ndev s addr hdev hk]
  refine ⟨?_, ?_, ?_, ?_, ?_, ?_⟩
  · intro hq i hi
    simp only [hq, if_true]
    fin_cases i
    · simp only [Fin.zero_eta, vif_zero] at hi ⊢
      simp [hi]
      split_ifs <;> simp
    · simp only [Fin.mk_one, vif_one] at hi ⊢
      split_ifs <;> simp_all
  · intro hq i hi
    simp only [hq, if_true]
    fin_cases i
    · simp only [Fin.zero_eta, vif_zero] at hi ⊢
      split_ifs <;> simp_all
    · simp only [Fin.mk_one, vif_one] at hi ⊢
      split_ifs <;> simp_all
  · intro hq i
    simp only [hq, if_false]
    fin_cases i <;> simp
  · intro i
    fin_cases i <;> (simp only [Fin.zero_eta, Fin.mk_one, vif_zero, vif_one]; split_ifs <;> simp)
  · intro i hi
    fin_cases i
    · simp only [Fin.zero_eta, vif_zero] at hi ⊢
      split_ifs <;> simp_all
    · simp only [Fin.mk_one, vif_one] at hi ⊢
      split_ifs <;> simp_all
  · intro i x hx
    fin_cases i
    · simp only [Fin.zero_eta, vif_zero] at hx ⊢
      simp [← hx]
    · simp only [Fin.mk_one, vif_one] at hx ⊢
      simp [← hx]


/-- Claim C6 on a device with interface 0 opened and running and interface
1 closed, for an enqueue that returns a depth of 257 with the mark at 256. -/
theorem wilc_mac_xmit_pauses_opened_interfaces_witness :
    ({ id := 1, dev := 0, len := 10 } : SkBuff).dev = (0 : Fin 2).val ∧
    ({ kmalloc := some 1, queue_count := 257 } : XmitEnv).kmalloc = some 1 ∧
    (((wilc_mac_xmit 256 { kmalloc := some 1, queue_count := 257 }
        { id := 1, dev := 0, len := 10 } 0 one_open).2).vif 0).queue_stopped = true :=
  ⟨rfl, rfl,
    (wilc_mac_xmit_pauses_opened_interfaces 256 { kmalloc := some 1, queue_count := 257 }
      { id := 1, dev := 0, len := 10 } 0 one_open 1 rfl rfl).1 (by decide) 0 rfl⟩

@[simp] theorem wake_count_log (s : Wilc) (a : Action) :
    wake_count (s.log a) = wake_count s + (if a.isWake then 1 else 0) := by
  simp [wake_count, List.countP_append, List.countP_cons]

theorem wake_count_netif_stop_queue (i : Fin 2) (s : Wilc) :
    wake_count (netif_stop_queue i s) = wake_count s := by
  simp [wake_count, List.countP_append, List.countP_cons, Action.isWake]

theorem wake_count_netif_wake_queue (i : Fin 2) (s : Wilc) :
    wake_count (netif_wake_queue i s) = wake_count s + 1 := by
  simp [wake_count, List.countP_append, List.countP_cons, Action.isWake]

theorem wake_count_count_tx_packet (i : Fin 2) (n : Nat) (s : Wilc) :
    wake_count (count_tx_packet i n s) = wake_count s := by
  simp [wake_count]

/-- State of interface 0, interface 1 and the resume count after `k`
packets of a burst on a device with only interface 0 opened. -/
theorem enqueue_burst_state (H : Nat) (s : Wilc) (h0 : s.vif0.mac_opened = true)
    (hr : s.vif0.queue_stopped = false) (h1 : s.vif1.mac_opened = false) (k : Nat) :
    (enqueue_burst H 0 k s).vif0.mac_opened = true ∧
    (enqueue_burst H 0 k s).vif1.mac_opened = false ∧
    wake_count (enqueue_burst H 0 k s) = wake_count s ∧
    ((enqueue_burst H 0 k s).vif0.queue_stopped = true ↔ H + 1 ≤ k) := by
  induction k with
  | zero => simp [enqueue_burst, h0, hr, h1]
  | succ k ih =>
    obtain ⟨i0, i1, iw, iq⟩ := ih
    simp only [enqueue_burst]
    rw [wilc_mac_xmit_enqueue_eq (H : Int) _ _ 0 _ k rfl rfl]
    simp only [log_vif0, log_vif1, count_tx_packet_vif0_mac_opened,
      count_tx_packet_vif1_mac_opened, i0, i1, if_true, netif_stop_queue_zero_vif1,
      Bool.false_eq_true, if_false]
    by_cases hq : ((k : Int) + 1 > (H : Int))
    · simp only [hq, if_true]
      refine ⟨by simp [i0], by simp [i1], ?_, ?_⟩
      · rw [wake_count_netif_stop_queue]
        simp [wake_count_count_tx_packet, iw, Action.isWake]
      · simp
        omega
    · simp only [hq, if_false]
      refine ⟨by simp [i0], by simp [i1], ?_, ?_⟩
      · simp [wake_count_count_tx_packet, iw, Action.isWake]
      · simp only [log_vif0, count_tx_packet_vif0_queue_stopped]
        rw [iq]
        omega

theorem txq_task_wake_of_ge (L : Nat) (d : Drain) (s : Wilc) (h : L ≤ d.txq_count) :
    txq_task_wake L d s = s := by
  simp [txq_task_wake, Nat.not_lt.mpr h]

theorem txq_task_wake_of_idle (L : Nat) (d : Drain) (s : Wilc)
    (h0 : (s.vif0.mac_opened && s.vif0.queue_stopped) = false)
    (h1 : (s.vif1.mac_opened && s.vif1.queue_stopped) = false) :
    txq_task_wake L d s = s := by
  unfold txq_task_wake
  simp only [h0, h1, Bool.false_eq_true, if_false, ite_self]

theorem txq_task_wake_of_lt (L : Nat) (d : Drain) (s : Wilc) (h : d.txq_count < L)
    (h0 : s.vif0.mac_opened = true) (hs : s.vif0.queue_stopped = true)
    (h1 : s.vif1.mac_opened = false) :
    txq_task_wake L d s = netif_wake_queue 0 s := by
  unfold txq_task_wake
  simp [h, h0, hs, h1]

/-- The device part of one loop iteration, in terms of the low-water check. -/
theorem txq_task_iteration_wl (L : Nat) (d : Drain) (t : TxqTask) :
    (txq_task_iteration L d t).wl =
      if d.ret = -ENOBUFS then
        (txq_task_wake L d (t.wl.log .wilc_wlan_handle_txq)).log
          (.schedule_timeout (TX_BCKOFF_WGHT_MS * 2 ^ t.backoff_weight.toNat))
      else txq_task_wake L d (t.wl.log .wilc_wlan_handle_txq) := by
  simp only [txq_task_iteration]

/-- An iteration whose low-water check does nothing leaves the interfaces
and the resume count as they were. -/
theorem txq_task_iteration_no_wake (L : Nat) (d : Drain) (t : TxqTask)
    (h : txq_task_wake L d (t.wl.log .wilc_wlan_handle_txq) = t.wl.log .wilc_wlan_handle_txq) :
    (txq_task_iteration L d t).wl.vif0 = t.wl.vif0 ∧
    (txq_task_iteration L d t).wl.vif1 = t.wl.vif1 ∧
    wake_count (txq_task_iteration L d t).wl = wake_count t.wl := by
  rw [txq_task_iteration_wl, h]
  split_ifs <;> simp [Action.isWake]

theorem drains_above_low_no_wake (L : Nat) (ds : List Drain) (t : TxqTask)
    (h : ∀ x ∈ ds, L ≤ x.txq_count) :
    (wilc_txq_task_drains L ds t).wl.vif0 = t.wl.vif0 ∧
    (wilc_txq_task_drains L ds t).wl.vif1 = t.wl.vif1 ∧
    wake_count (wilc_txq_task_drains L ds t).wl = wake_count t.wl := by
  induction ds generalizing t with
  | nil => simp [wilc_txq_task_drains]
  | cons d ds ih =>
    simp only [wilc_txq_task_drains]
    obtain ⟨a, b, c⟩ := ih (txq_task_iteration L d t) (fun x hx => h x (List.mem_cons_of_mem _ hx))
    obtain ⟨a1, b1, c1⟩ := txq_task_iteration_no_wake L d t
      (txq_task_wake_of_ge L d _ (h d (List.mem_cons_self _ _)))
    exact ⟨a.trans a1, b.trans b1, c.trans c1⟩

theorem drains_idle_no_wake (L : Nat) (ds : List Drain) (t : TxqTask)
    (h0 : (t.wl.vif0.mac_opened && t.wl.vif0.queue_stopped) = false)
    (h1 : (t.wl.vif1.mac_opened && t.wl.vif1.queue_stopped) = false) :
    (wilc_txq_task_drains L ds t).wl.vif0 = t.wl.vif0 ∧
    (wilc_txq_task_drains L ds t).wl.vif1 = t.wl.vif1 ∧
    wake_count (wilc_txq_task_drains L ds t).wl = wake_count t.wl := by
  induction ds generalizing t with
  | nil => simp [wilc_txq_task_drains]
  | cons d ds ih =>
    simp only [wilc_txq_task_drains]
    obtain ⟨a1, b1, c1⟩ := txq_task_iteration_no_wake L d t
      (txq_task_wake_of_idle L d _ (by simpa using h0) (by simpa using h1))
    obtain ⟨a, b, c⟩ := ih (txq_task_iteration L d t) (by rw [a1]; exact h0) (by rw [b1]; exact h1)
    exact ⟨a.trans a1, b.trans b1, c.trans c1⟩

/-- The iteration at which the depth first falls below the low-water mark,
on a device whose only opened interface is paused. -/
theorem txq_task_iteration_first_below (L : Nat) (d : Drain) (t : TxqTask)
    (h : d.txq_count < L) (h0 : t.wl.vif0.mac_opened = true)
    (hs : t.wl.vif0.queue_stopped = true) (h1 : t.wl.vif1.mac_opened = false) :
    (txq_task_iteration L d t).wl.vif0.mac_opened = true ∧
    (txq_task_iteration L d t).wl.vif0.queue_stopped = false ∧
    (txq_task_iteration L d t).wl.vif1 = t.wl.vif1 ∧
    wake_count (txq_task_iteration L d t).wl = wake_count t.wl + 1 := by
  rw [txq_task_iteration_wl, txq_task_wake_of_lt L d _ h (by simpa using h0) (by simpa using hs)
    (by simpa using h1)]
  split_ifs <;> simp [wake_count_netif_wake_queue, Action.isWake, h0]

/-- Claim C7: with high-water mark `H`, low-water mark `L` and interface 0
the only opened interface, accepting packets.  (1) During a burst of
enqueues the interface is paused after the `k`-th enqueue exactly when
`k >= H + 1`.  (2) After a burst of `n >= H + 1` packets, for drain attempts
`pre ++ d :: post` where `d` is the first one that leaves the depth below
`L`: no resume is issued during `pre`, exactly one has been issued once `d`
is done (and the interface accepts packets again), and still exactly one
after all of `post`.  (3) The low-water check does nothing when no
interface is both opened and stopped. -/
theorem flow_control_hysteresis (H L n : Nat) (s : Wilc) (pre post : List Drain) (d : Drain)
    (h0 : s.vif0.mac_opened = true) (hr : s.vif0.queue_stopped = false)
    (h1 : s.vif1.mac_opened = false) (hn : H + 1 ≤ n)
    (hpre : ∀ x ∈ pre, L ≤ x.txq_count) (hd : d.txq_count < L) :
    (∀ k, (enqueue_burst H 0 k s).vif0.queue_stopped = true ↔ H + 1 ≤ k) ∧
    wake_count (wilc_txq_task_drains L pre (txq_task_start (enqueue_burst H 0 n s))).wl =
      wake_count s ∧
    wake_count (wilc_txq_task_drains L (pre ++ [d])
        (txq_task_start (enqueue_burst H 0 n s))).wl = wake_count s + 1 ∧
    (wilc_txq_task_drains L (pre ++ [d])
        (txq_task_start (enqueue_burst H 0 n s))).wl.vif0.queue_stopped = false ∧
    wake_count (wilc_txq_task_drains L (pre ++ d :: post)
        (txq_task_start (enqueue_burst H 0 n s))).wl = wake_count s + 1 ∧
    (∀ (x : Wilc) (dr : Drain), (x.vif0.mac_opened && x.vif0.queue_stopped) = false →
        (x.vif1.mac_opened && x.vif1.queue_stopped) = false → txq_task_wake L dr x = x) := by
  obtain ⟨b0, b1, bw, bq⟩ := enqueue_burst_state H s h0 hr h1 n
  have bs : (enqueue_burst H 0 n s).vif0.queue_stopped = true := bq.mpr hn
  obtain ⟨p0, p1, pw⟩ := drains_above_low_no_wake L pre (txq_task_start (enqueue_burst H 0 n s)) hpre
  simp only [txq_task_start] at p0 p1 pw
  have hstep := txq_task_iteration_first_below L d
    (wilc_txq_task_drains L pre (txq_task_start (enqueue_burst H 0 n s))) hd
    (by simp only [txq_task_start]; rw [p0]; exact b0)
    (by simp only [txq_task_start]; rw [p0]; exact bs)
    (by simp only [txq_task_start]; rw [p1]; exact b1)
  obtain ⟨q0, qs, q1, qw⟩ := hstep
  simp only [txq_task_start] at q0 qs q1 qw
  have hone : wilc_txq_task_drains L (pre ++ [d]) (txq_task_start (enqueue_burst H 0 n s)) =
      txq_task_iteration L d
        (wilc_txq_task_drains L pre (txq_task_start (enqueue_burst H 0 n s))) := by
    rw [wilc_txq_task_drains_append]; rfl
  have hall : wilc_txq_task_drains L (pre ++ d :: post) (txq_task_start (enqueue_burst H 0 n s)) =
      wilc_txq_task_drains L post (txq_task_iteration L d
        (wilc_txq_task_drains L pre (txq_task_start (enqueue_burst H 0 n s)))) := by
    rw [wilc_txq_task_drains_append]; rfl
  simp only [txq_task_start] at hone hall
  refine ⟨fun k => (enqueue_burst_state H s h0 hr h1 k).2.2.2, ?_, ?_, ?_, ?_, ?_⟩
  · simp only [txq_task_start]; rw [pw, bw]
  · simp only [txq_task_start]; rw [hone, qw, pw, bw]
  · simp only [txq_task_start]; rw [hone, qs]
  · simp only [txq_task_start]
    rw [hall]
    obtain ⟨_, _, rw3⟩ := drains_idle_no_wake L post _ (by rw [qs]; simp)
      (by rw [q1, p1, b1]; simp)
    rw [rw3, qw, pw, bw]
  · intro x dr hx0 hx1
    exact txq_task_wake_of_idle L dr x hx0 hx1

/-- Claim C7 in the scenario of the specification: marks 500 and 200, 600
packets, drains leaving 400, then 199, then 100 and 0 packets. -/
theorem flow_control_hysteresis_witness :
    one_open.vif0.mac_opened = true ∧ one_open.vif0.queue_stopped = false ∧
    one_open.vif1.mac_opened = false ∧ 500 + 1 ≤ 600 ∧
    ((enqueue_burst (500 : Nat) 0 500 one_open).vif0.queue_stopped = true ↔ 500 + 1 ≤ 500) ∧
    ((enqueue_burst (500 : Nat) 0 501 one_open).vif0.queue_stopped = true ↔ 500 + 1 ≤ 501) ∧
    wake_count (wilc_txq_task_drains 200
        ([{ ret := 0, txq_count := 400 }] ++ { ret := 0, txq_count := 199 } ::
          [{ ret := 0, txq_count := 100 }, { ret := 0, txq_count := 0 }])
        (txq_task_start (enqueue_burst (500 : Nat) 0 600 one_open))).wl =
      wake_count one_open + 1 :=
  have h := flow_control_hysteresis 500 200 600 one_open [{ ret := 0, txq_count := 400 }]
    [{ ret := 0, txq_count := 100 }, { ret := 0, txq_count := 0 }]
    { ret := 0, txq_count := 199 } rfl rfl rfl (by decide) (by decide) (by decide)
  ⟨rfl, rfl, rfl, by decide, h.1 500, h.1 501, h.2.2.2.2.1⟩

/-! ## Teardown -/

/-- The calls made by `deinit_irq`. -/
theorem deinit_irq_trace (s : Wilc) :
    (deinit_irq s).trace = s.trace ++
      ((if s.dev_irq_num > 0 then [Action.free_irq s.dev_irq_num] else []) ++
       (if s.gpio_irq then [Action.gpiod_put] else [])) := by
  unfold deinit_irq
  by_cases h1 : s.dev_irq_num > 0 <;> by_cases h2 : s.gpio_irq = true <;>
    simp [h1, h2, Wilc.log]

/-- The calls made by `wlan_deinitialize_threads`. -/
theorem wlan_deinitialize_threads_trace (s : Wilc) :
    (wlan_deinitialize_threads s).trace = s.trace ++
      ((if s.recovery_on = 0 then
          Action.complete_debug_thread_started ::
            (if s.debug_thread.nonNull then [Action.kthread_stop_debug] else [])
        else []) ++
       Action.complete_txq_event ::
         (if s.txq_thread.nonNull then [Action.kthread_stop_txq] else [])) := by
  unfold wlan_deinitialize_threads
  by_cases h1 : s.recovery_on = 0 <;> by_cases h2 : s.debug_thread.nonNull = true <;>
    by_cases h3 : s.txq_thread.nonNull = true <;>
    simp [h1, h2, h3, Wilc.log]

theorem wlan_deinitialize_threads_fields (s : Wilc) :
    (wlan_deinitialize_threads s).dev_irq_num = s.dev_irq_num ∧
    (wlan_deinitialize_threads s).gpio_irq = s.gpio_irq ∧
    (wlan_deinitialize_threads s).initialized = s.initialized ∧
    (wlan_deinitialize_threads s).irq_registered = s.irq_registered ∧
    (wlan_deinitialize_threads s).firmware = s.firmware ∧
    (wlan_deinitialize_threads s).close = 1 := by
  unfold wlan_deinitialize_threads
  by_cases h1 : s.recovery_on = 0 <;> by_cases h2 : s.debug_thread.nonNull = true <;>
    by_cases h3 : s.txq_thread.nonNull = true <;>
    simp [h1, h2, h3, Wilc.log]

/-- The calls made by `wilc_wlan_deinitialize` on an initialised device. -/
theorem wilc_wlan_deinitialize_trace (s : Wilc) (hi : s.initialized = true) :
    ( wilc_wlan_deinitialize s).trace = s.trace ++
      ((if s.io_type = .WILC_HIF_SPI ∨ s.io_type = .WILC_HIF_SDIO_GPIO_IRQ then
          [Action.disable_irq s.dev_irq_num]
        else if s.hif_disable_interrupt then
          [Action.mutex_lock_hif_cs, Action.hif_disable_interrupt, Action.mutex_unlock_hif_cs]
        else []) ++
       Action.complete_txq_event ::
       ((if s.recovery_on = 0 then
          Action.complete_debug_thread_started ::
            (if s.debug_thread.nonNull then [Action.kthread_stop_debug] else [])
        else []) ++
       Action.complete_txq_event ::
         ((if s.txq_thread.nonNull then [Action.kthread_stop_txq] else []) ++
       ((if s.dev_irq_num > 0 then [Action.free_irq s.dev_irq_num] else []) ++
       ((if s.gpio_irq then [Action.gpiod_put] else []) ++
       [Action.wilc_wlan_stop, Action.wilc_wlan_cleanup]))))) := by
  unfold wilc_wlan_deinitialize
  simp only [hi, if_true, log_trace, deinit_irq_trace, wlan_deinitialize_threads_trace,
    (wlan_deinitialize_threads_fields _).1, (wlan_deinitialize_threads_fields _).2.1]
  by_cases h1 : (s.io_type = .WILC_HIF_SPI ∨ s.io_type = .WILC_HIF_SDIO_GPIO_IRQ)
  · simp [h1, wilc_disable_irq, Wilc.log]
  · by_cases h2 : s.hif_disable_interrupt = true
    · simp [h1, h2, Wilc.log]
    · simp [h1, h2, Wilc.log]

/-- Claim C8: on an initialised device (its transmit worker stored in
`txq_thread`, its interrupt number positive, and `disable_interrupt`
provided by the SDIO transport), for every transport type, the calls of
`wilc_wlan_deinitialize` that disable the interrupt, stop the transmit
worker, unregister the interrupt line and halt the transport are, in this
order and each exactly once: the interrupt disable for the transport type,
`kthread_stop` of the worker, `free_irq`, `wilc_wlan_stop`,
`wilc_wlan_cleanup`. -/
theorem wilc_wlan_deinitialize_order (s : Wilc) (hi : s.initialized = true)
    (htx : s.txq_thread.nonNull = true) (hirq : 0 < s.dev_irq_num)
    (hsdio : s.io_type = IoType.WILC_HIF_SDIO → s.hif_disable_interrupt = true) :
    (( wilc_wlan_deinitialize s).trace.drop s.trace.length).filter Action.isTeardownStep =
      [irq_disable_call s, Action.kthread_stop_txq, Action.free_irq s.dev_irq_num,
        Action.wilc_wlan_stop, Action.wilc_wlan_cleanup] := by
  rw [wilc_wlan_deinitialize_trace s hi, List.drop_left]
  unfold irq_disable_call
  generalize s.dev_irq_num = n at *
  have hdbg : ∀ l : List Action,
      l = (if s.recovery_on = 0 then
          Action.complete_debug_thread_started ::
            (if s.debug_thread.nonNull then [Action.kthread_stop_debug] else [])
        else []) → l.filter Action.isTeardownStep = [] := by
    intro l hl
    subst hl
    by_cases h1 : s.recovery_on = 0 <;> by_cases h2 : s.debug_thread.nonNull = true <;>
      simp [h1, h2, Action.isTeardownStep]
  have hgpio : (if s.gpio_irq then [Action.gpiod_put] else []).filter Action.isTeardownStep
      = [] := by
    by_cases h3 : s.gpio_irq = true <;> simp [h3, Action.isTeardownStep]
  simp only [List.filter_append, List.filter_cons, hdbg _ rfl, hgpio, htx, hirq, gt_iff_lt,
    if_true, Action.isTeardownStep, List.nil_append, List.filter_nil, Bool.false_eq_true,
    if_false, List.append_nil]
  rcases hio : s.io_type with _ | _ | _
  · simp [hsdio hio, Action.isTeardownStep]
  · simp [Action.isTeardownStep]
  · simp [Action.isTeardownStep]

/-- Claim C8 on the SPI device obtained by a successful bring-up. -/
theorem wilc_wlan_deinitialize_order_witness :
    ( wilc_wlan_initialize env_ok fresh).2.initialized = true ∧
    ( wilc_wlan_initialize env_ok fresh).2.txq_thread.nonNull = true ∧
    0 < ( wilc_wlan_initialize env_ok fresh).2.dev_irq_num ∧
    (( wilc_wlan_deinitialize ( wilc_wlan_initialize env_ok fresh).2).trace.drop
        ( wilc_wlan_initialize env_ok fresh).2.trace.length).filter Action.isTeardownStep =
      [irq_disable_call ( wilc_wlan_initialize env_ok fresh).2, Action.kthread_stop_txq,
        Action.free_irq ( wilc_wlan_initialize env_ok fresh).2.dev_irq_num,
        Action.wilc_wlan_stop, Action.wilc_wlan_cleanup] :=
  ⟨by decide, by decide, by decide,
    wilc_wlan_deinitialize_order ( wilc_wlan_initialize env_ok fresh).2 (by decide) (by decide)
      (by decide) (by decide)⟩

/-- Claim C9: `wilc_wlan_deinitialize` returns the state unchanged (no
field changes, no call recorded) on a device that is not initialised, always
ends with `initialized = false`, and applied twice gives the same state, with
the same recorded calls, as applied once. -/
theorem wilc_wlan_deinitialize_idempotent (s : Wilc) :
    (s.initialized = false → wilc_wlan_deinitialize s = s) ∧
    ( wilc_wlan_deinitialize s).initialized = false ∧
    wilc_wlan_deinitialize ( wilc_wlan_deinitialize s) = wilc_wlan_deinitialize s := by
  have h1 : ∀ x : Wilc, x.initialized = false → wilc_wlan_deinitialize x = x := by
    intro x hx
    simp [ wilc_wlan_deinitialize, hx]
  have h2 : ( wilc_wlan_deinitialize s).initialized = false := by
    by_cases hi : s.initialized = true
    · simp [ wilc_wlan_deinitialize, hi]
    · have hi2 : s.initialized = false := by simpa using hi
      rw [h1 s hi2]; exact hi2
  exact ⟨h1 s, h2, h1 _ h2⟩


theorem frame_refl (p : Action → Bool) (s : Wilc) : LifecycleFrame p s s :=
  ⟨rfl, rfl, rfl, rfl, rfl, rfl, rfl, rfl⟩

theorem frame_trans {p : Action → Bool} {s t u : Wilc} (h1 : LifecycleFrame p s t)
    (h2 : LifecycleFrame p t u) : LifecycleFrame p s u :=
  ⟨h2.1.trans h1.1, h2.2.1.trans h1.2.1, h2.2.2.1.trans h1.2.2.1,
    h2.2.2.2.1.trans h1.2.2.2.1, h2.2.2.2.2.1.trans h1.2.2.2.2.1,
    h2.2.2.2.2.2.1.trans h1.2.2.2.2.2.1, h2.2.2.2.2.2.2.1.trans h1.2.2.2.2.2.2.1,
    h2.2.2.2.2.2.2.2.trans h1.2.2.2.2.2.2.2⟩

theorem filter_snoc {p : Action → Bool} (l : List Action) (a : Action) (h : p a = false) :
    (l ++ [a]).filter p = l.filter p := by
  simp [List.filter_append, h]

theorem frame_log {p : Action → Bool} (s : Wilc) (a : Action) (h : p a = false) :
    LifecycleFrame p s (s.log a) :=
  ⟨filter_snoc _ _ h, rfl, rfl, rfl, rfl, rfl, rfl, rfl⟩

theorem deinit_irq_frame (p : Action → Bool)
    (hp : ∀ a, a.isLifecycle = true → p a = false) (s : Wilc) :
    LifecycleFrame p s (deinit_irq s) := by
  unfold deinit_irq
  simp only []
  split_ifs <;> refine ⟨?_, rfl, rfl, rfl, rfl, rfl, rfl, rfl⟩ <;>
    repeat (first | rfl | (refine Eq.trans (filter_snoc _ _ ?_) ?_; exact hp _ rfl))

theorem wlan_deinitialize_threads_frame (p : Action → Bool)
    (hp : ∀ a, a.isLifecycle = true → p a = false) (s : Wilc) :
    LifecycleFrame p s (wlan_deinitialize_threads s) := by
  unfold wlan_deinitialize_threads
  simp only []
  split_ifs <;> refine ⟨?_, rfl, rfl, rfl, rfl, rfl, rfl, rfl⟩ <;>
    repeat (first | rfl | (refine Eq.trans (filter_snoc _ _ ?_) ?_; exact hp _ rfl))


theorem frame_set {p : Action → Bool} {s t : Wilc} (ht : t.trace = s.trace)
    (h : t.open_ifcs = s.open_ifcs ∧ t.vif0 = s.vif0 ∧ t.vif1 = s.vif1 ∧
      t.recovery_on = s.recovery_on ∧ t.dev = s.dev ∧ t.hif_drv = s.hif_drv ∧
      t.g_ignore_PS_state = s.g_ignore_PS_state) :
    LifecycleFrame p s t :=
  ⟨by rw [ht], h⟩

theorem wilc_disable_irq_frame (p : Action → Bool)
    (hp : ∀ a, a.isLifecycle = true → p a = false) (s : Wilc) (wait : Int) :
    LifecycleFrame p s (wilc_disable_irq s wait) := by
  unfold wilc_disable_irq
  split_ifs
  · exact frame_log _ _ (hp _ (by rfl))
  · exact frame_log _ _ (hp _ (by rfl))

theorem init_irq_request_frame (p : Action → Bool)
    (hp : ∀ a, a.isLifecycle = true → p a = false) (env : InitEnv) (s : Wilc) :
    LifecycleFrame p s (init_irq_request env s).2 := by
  unfold init_irq_request init_irq_free_gpio
  simp only []
  split_ifs <;> refine ⟨?_, rfl, rfl, rfl, rfl, rfl, rfl, rfl⟩ <;>
    repeat (first | rfl | (refine Eq.trans (filter_snoc _ _ ?_) ?_; exact hp _ rfl))

theorem init_irq_with_gpio_frame (p : Action → Bool)
    (hp : ∀ a, a.isLifecycle = true → p a = false) (env : InitEnv) (s : Wilc) :
    LifecycleFrame p s (init_irq_with_gpio env s).2 := by
  unfold init_irq_with_gpio init_irq_free_gpio
  simp only []
  split_ifs
  · refine ⟨?_, rfl, rfl, rfl, rfl, rfl, rfl, rfl⟩
    repeat (first | rfl | (refine Eq.trans (filter_snoc _ _ ?_) ?_; exact hp _ rfl))
  · refine ⟨?_, rfl, rfl, rfl, rfl, rfl, rfl, rfl⟩
    repeat (first | rfl | (refine Eq.trans (filter_snoc _ _ ?_) ?_; exact hp _ rfl))
  · refine frame_trans ?_ (init_irq_request_frame p hp env _)
    refine ⟨?_, rfl, rfl, rfl, rfl, rfl, rfl, rfl⟩
    repeat (first | rfl | (refine Eq.trans (filter_snoc _ _ ?_) ?_; exact hp _ rfl))

theorem init_irq_frame (p : Action → Bool)
    (hp : ∀ a, a.isLifecycle = true → p a = false) (env : InitEnv) (s : Wilc) :
    LifecycleFrame p s (init_irq env s).2 := by
  unfold init_irq
  simp only []
  split_ifs
  · refine ⟨?_, rfl, rfl, rfl, rfl, rfl, rfl, rfl⟩
    repeat (first | rfl | (refine Eq.trans (filter_snoc _ _ ?_) ?_; exact hp _ rfl))
  · refine frame_trans ?_ (init_irq_with_gpio_frame p hp env _)
    refine ⟨?_, rfl, rfl, rfl, rfl, rfl, rfl, rfl⟩
    repeat (first | rfl | (refine Eq.trans (filter_snoc _ _ ?_) ?_; exact hp _ rfl))
  · refine frame_trans ?_ (init_irq_with_gpio_frame p hp env _)
    refine ⟨?_, rfl, rfl, rfl, rfl, rfl, rfl, rfl⟩
    repeat (first | rfl | (refine Eq.trans (filter_snoc _ _ ?_) ?_; exact hp _ rfl))

theorem wlan_initialize_threads_frame (p : Action → Bool)
    (hp : ∀ a, a.isLifecycle = true → p a = false) (env : InitEnv) (s : Wilc) :
    LifecycleFrame p s (wlan_initialize_threads env s).2 := by
  unfold wlan_initialize_threads
  simp only []
  split_ifs <;> refine ⟨?_, rfl, rfl, rfl, rfl, rfl, rfl, rfl⟩ <;>
    repeat (first | rfl | (refine Eq.trans (filter_snoc _ _ ?_) ?_; exact hp _ rfl))

theorem wilc_wlan_get_firmware_frame (p : Action → Bool)
    (hp : ∀ a, a.isLifecycle = true → p a = false) (env : InitEnv) (s : Wilc) :
    LifecycleFrame p s (wilc_wlan_get_firmware env s).2 := by
  unfold wilc_wlan_get_firmware
  simp only []
  split_ifs <;> refine ⟨?_, rfl, rfl, rfl, rfl, rfl, rfl, rfl⟩ <;>
    repeat (first | rfl | (refine Eq.trans (filter_snoc _ _ ?_) ?_; exact hp _ rfl))

theorem wilc_start_firmware_frame (p : Action → Bool)
    (hp : ∀ a, a.isLifecycle = true → p a = false) (env : InitEnv) (s : Wilc) :
    LifecycleFrame p s (wilc_start_firmware env s).2 := by
  unfold wilc_start_firmware
  simp only []
  split_ifs <;> refine ⟨?_, rfl, rfl, rfl, rfl, rfl, rfl, rfl⟩ <;>
    repeat (first | rfl | (refine Eq.trans (filter_snoc _ _ ?_) ?_; exact hp _ rfl))

theorem wilc_firmware_download_frame (p : Action → Bool)
    (hp : ∀ a, a.isLifecycle = true → p a = false) (env : InitEnv) (s : Wilc) :
    LifecycleFrame p s (wilc_firmware_download env s).2 := by
  unfold wilc_firmware_download
  simp only []
  refine ⟨?_, rfl, rfl, rfl, rfl, rfl, rfl, rfl⟩
  repeat (first | rfl | (refine Eq.trans (filter_snoc _ _ ?_) ?_; exact hp _ rfl))

theorem cfg_set_chain_frame (p : Action → Bool)
    (hp : ∀ a, a.isLifecycle = true → p a = false) (env : InitEnv) (ws : List WID)
    (s : Wilc) : LifecycleFrame p s (cfg_set_chain env ws s).2 := by
  induction ws generalizing s with
  | nil => exact frame_refl p s
  | cons w ws ih =>
    simp only [cfg_set_chain]
    split_ifs
    · exact frame_trans (frame_log _ _ (hp _ (by rfl))) (ih _)
    · exact frame_log _ _ (hp _ (by rfl))

theorem wilc_init_fw_config_frame (p : Action → Bool)
    (hp : ∀ a, a.isLifecycle = true → p a = false) (env : InitEnv) (s : Wilc) :
    LifecycleFrame p s (wilc_init_fw_config env s).2 := by
  unfold wilc_init_fw_config
  simp only []
  split_ifs <;> exact cfg_set_chain_frame p hp env _ s

theorem fail_wilc_wlan_frame (p : Action → Bool)
    (hp : ∀ a, a.isLifecycle = true → p a = false) (s : Wilc) :
    LifecycleFrame p s (fail_wilc_wlan s) :=
  frame_log _ _ (hp _ (by rfl))

theorem fail_irq_init_frame (p : Action → Bool)
    (hp : ∀ a, a.isLifecycle = true → p a = false) (s : Wilc) :
    LifecycleFrame p s (fail_irq_init s) :=
  frame_trans (frame_trans (deinit_irq_frame p hp s) (wlan_deinitialize_threads_frame p hp _))
    (fail_wilc_wlan_frame p hp _)

theorem fail_irq_enable_frame (p : Action → Bool)
    (hp : ∀ a, a.isLifecycle = true → p a = false) (s : Wilc) :
    LifecycleFrame p s (fail_irq_enable s) := by
  unfold fail_irq_enable
  split_ifs
  · exact frame_trans (frame_log _ _ (hp _ (by rfl))) (fail_irq_init_frame p hp _)
  · exact fail_irq_init_frame p hp _

theorem fail_fw_start_frame (p : Action → Bool)
    (hp : ∀ a, a.isLifecycle = true → p a = false) (s : Wilc) :
    LifecycleFrame p s (fail_fw_start s) :=
  frame_trans (frame_log _ _ (hp _ (by rfl))) (fail_irq_enable_frame p hp _)

theorem wilc_wlan_initialize_start_frame (p : Action → Bool)
    (hp : ∀ a, a.isLifecycle = true → p a = false) (env : InitEnv) (s : Wilc) :
    LifecycleFrame p s (wilc_wlan_initialize_start env s).2 := by
  have h1 := wilc_start_firmware_frame p hp env s
  have h2 := frame_trans (frame_trans h1 (frame_log _ .cfg_get_firmware_version (hp _ (by rfl))))
    (wilc_init_fw_config_frame p hp env _)
  unfold wilc_wlan_initialize_start
  simp only []
  split_ifs
  · exact frame_trans h1 (fail_irq_enable_frame p hp _)
  · exact frame_trans h2 (fail_fw_start_frame p hp _)
  · exact frame_trans h2 (frame_set rfl ⟨rfl, rfl, rfl, rfl, rfl, rfl, rfl⟩)

theorem wilc_wlan_initialize_firmware_frame (p : Action → Bool)
    (hp : ∀ a, a.isLifecycle = true → p a = false) (env : InitEnv) (s : Wilc) :
    LifecycleFrame p s (wilc_wlan_initialize_firmware env s).2 := by
  have h1 := wilc_wlan_get_firmware_frame p hp env s
  have h2 := frame_trans h1 (wilc_firmware_download_frame p hp env _)
  unfold wilc_wlan_initialize_firmware
  simp only []
  split_ifs
  · exact frame_trans h1 (fail_irq_enable_frame p hp _)
  · exact frame_trans h2 (fail_irq_enable_frame p hp _)
  · exact frame_trans h2 (wilc_wlan_initialize_start_frame p hp env _)

theorem wilc_wlan_initialize_threads_frame (p : Action → Bool)
    (hp : ∀ a, a.isLifecycle = true → p a = false) (env : InitEnv) (s : Wilc) :
    LifecycleFrame p s (wilc_wlan_initialize_threads env s).2 := by
  have h1 := wlan_initialize_threads_frame p hp env s
  have h2 := frame_trans h1 (frame_log _ .hif_enable_interrupt (hp _ (by rfl)))
  unfold wilc_wlan_initialize_threads
  simp only []
  split_ifs
  · exact frame_trans h1 (fail_wilc_wlan_frame p hp _)
  · exact frame_trans h2 (fail_irq_init_frame p hp _)
  · exact frame_trans h2 (wilc_wlan_initialize_firmware_frame p hp env _)
  · exact frame_trans h1 (wilc_wlan_initialize_firmware_frame p hp env _)

/-- Bring-up leaves alone everything outside the lifecycle state. -/
theorem wilc_wlan_initialize_frame (p : Action → Bool)
    (hp : ∀ a, a.isLifecycle = true → p a = false) (env : InitEnv) (s : Wilc) :
    LifecycleFrame p s ( wilc_wlan_initialize env s).2 := by
  have h0 : ∀ (m : MacStatus) (c : Int) (b : Bool), LifecycleFrame p s
      (Wilc.log { s with mac_status := m, close := c, initialized := b } .wilc_wlan_init) :=
    fun _ _ _ => ⟨filter_snoc _ _ (hp _ (by rfl)), rfl, rfl, rfl, rfl, rfl, rfl, rfl⟩
  unfold wilc_wlan_initialize
  simp only []
  split_ifs
  · exact h0 _ _ _
  · exact frame_trans (h0 _ _ _) (init_irq_frame p hp env _)
  · exact frame_trans (frame_trans (h0 _ _ _) (init_irq_frame p hp env _))
      (wilc_wlan_initialize_threads_frame p hp env _)
  · exact frame_refl p s

/-- Teardown leaves alone everything outside the lifecycle state. -/
theorem wilc_wlan_deinitialize_frame (p : Action → Bool)
    (hp : ∀ a, a.isLifecycle = true → p a = false) (s : Wilc) :
    LifecycleFrame p s ( wilc_wlan_deinitialize s) := by
  have tail : ∀ x : Wilc, LifecycleFrame p x
      { Wilc.log (Wilc.log (deinit_irq (wlan_deinitialize_threads
          (x.log .complete_txq_event))) .wilc_wlan_stop) .wilc_wlan_cleanup
        with initialized := false } := fun x =>
    frame_trans (frame_trans (frame_trans (frame_trans (frame_trans
      (frame_log x _ (hp _ (by rfl))) (wlan_deinitialize_threads_frame p hp _))
      (deinit_irq_frame p hp _)) (frame_log _ _ (hp _ (by rfl)))) (frame_log _ _ (hp _ (by rfl))))
      (frame_set rfl ⟨rfl, rfl, rfl, rfl, rfl, rfl, rfl⟩)
  unfold wilc_wlan_deinitialize
  simp only []
  split_ifs
  · exact frame_trans (wilc_disable_irq_frame p hp s 1) (tail _)
  · refine frame_trans ?_ (tail _)
    refine ⟨?_, rfl, rfl, rfl, rfl, rfl, rfl, rfl⟩
    repeat (first | rfl | (refine Eq.trans (filter_snoc _ _ ?_) ?_; exact hp _ rfl))
  · exact tail _
  · exact frame_refl p s

/-! ## Frame of open and close -/

@[simp] theorem log_open_ifcs (s : Wilc) (a : Action) : (s.log a).open_ifcs = s.open_ifcs := rfl

@[simp] theorem setVif_open_ifcs (s : Wilc) (i : Fin 2) (v : Vif) :
    (s.setVif i v).open_ifcs = s.open_ifcs := by
  fin_cases i <;> rfl

@[simp] theorem netif_wake_queue_open_ifcs (i : Fin 2) (s : Wilc) :
    (netif_wake_queue i s).open_ifcs = s.open_ifcs := by
  fin_cases i <;> rfl

@[simp] theorem netif_stop_queue_open_ifcs (i : Fin 2) (s : Wilc) :
    (netif_stop_queue i s).open_ifcs = s.open_ifcs := by
  fin_cases i <;> rfl

@[simp] theorem log_hif_drv (s : Wilc) (a : Action) : (s.log a).hif_drv = s.hif_drv := rfl

@[simp] theorem log_recovery_on (s : Wilc) (a : Action) :
    (s.log a).recovery_on = s.recovery_on := rfl

@[simp] theorem log_dev (s : Wilc) (a : Action) : (s.log a).dev = s.dev := rfl

@[simp] theorem setVif_hif_drv (s : Wilc) (i : Fin 2) (v : Vif) :
    (s.setVif i v).hif_drv = s.hif_drv := by
  fin_cases i <;> rfl

@[simp] theorem setVif_recovery_on (s : Wilc) (i : Fin 2) (v : Vif) :
    (s.setVif i v).recovery_on = s.recovery_on := by
  fin_cases i <;> rfl

@[simp] theorem setVif_dev (s : Wilc) (i : Fin 2) (v : Vif) : (s.setVif i v).dev = s.dev := by
  fin_cases i <;> rfl

@[simp] theorem netif_wake_queue_hif_drv (i : Fin 2) (s : Wilc) :
    (netif_wake_queue i s).hif_drv = s.hif_drv := by
  fin_cases i <;> rfl

@[simp] theorem netif_wake_queue_recovery_on (i : Fin 2) (s : Wilc) :
    (netif_wake_queue i s).recovery_on = s.recovery_on := by
  fin_cases i <;> rfl

@[simp] theorem netif_wake_queue_dev (i : Fin 2) (s : Wilc) :
    (netif_wake_queue i s).dev = s.dev := by
  fin_cases i <;> rfl

@[simp] theorem netif_stop_queue_hif_drv (i : Fin 2) (s : Wilc) :
    (netif_stop_queue i s).hif_drv = s.hif_drv := by
  fin_cases i <;> rfl

@[simp] theorem netif_stop_queue_recovery_on (i : Fin 2) (s : Wilc) :
    (netif_stop_queue i s).recovery_on = s.recovery_on := by
  fin_cases i <;> rfl

@[simp] theorem netif_stop_queue_dev (i : Fin 2) (s : Wilc) :
    (netif_stop_queue i s).dev = s.dev := by
  fin_cases i <;> rfl

theorem filter_open_step {p : Action → Bool} (hq : ∀ a, a.isOpenStep = true → p a = false)
    (a : Action) (ha : a.isOpenStep = true) : List.filter p [a] = [] := by
  simp [hq a ha]

theorem open_step_of_lifecycle {p : Action → Bool}
    (hq : ∀ a, a.isOpenStep = true → p a = false) :
    ∀ a, a.isLifecycle = true → p a = false :=
  fun a h => hq a (by simp [Action.isOpenStep, h])

theorem wilc_mac_open_abort_frame (p : Action → Bool)
    (hq : ∀ a, a.isOpenStep = true → p a = false) (ndev : Fin 2) (s : Wilc) :
    LifecycleFrame p s (wilc_mac_open_abort ndev s) :=
  frame_trans (frame_log s _ (hq _ (by rfl)))
    (wilc_wlan_deinitialize_frame _ (open_step_of_lifecycle hq) _)

theorem open_frame_of_failure {p : Action → Bool} {s t : Wilc} {r : Int}
    (f : LifecycleFrame p s t) (hr : r ≠ 0) : OpenFrame p s (r, t) :=
  ⟨f.1, fun hc => absurd hc hr, fun _ => f.2.1, f.2.2.2.2.2.2.1, f.2.2.2.2.1, f.2.2.2.2.2.1⟩

theorem wilc_mac_open_address_frame (p : Action → Bool)
    (hq : ∀ a, a.isOpenStep = true → p a = false) (e : OpenEnv) (ndev : Fin 2) (s : Wilc) :
    OpenFrame p s (wilc_mac_open_address e ndev s) := by
  unfold wilc_mac_open_address
  simp only []
  split_ifs with h
  · exact open_frame_of_failure (frame_trans (frame_trans (frame_trans
      (frame_log s (.wilc_set_wfi_drv_handler ndev) (hq _ (by rfl)))
      (frame_log _ (.wilc_set_operation_mode ndev) (hq _ (by rfl))))
      (frame_log _ (.wilc_get_mac_address ndev) (hq _ (by rfl))))
      (wilc_mac_open_abort_frame p hq ndev _)) (by simp [EINVAL])
  · refine ⟨?_, fun _ => ?_, fun hc => absurd rfl hc, ?_, ?_, ?_⟩
    · simp only [setVif_trace, netif_wake_queue_trace, log_trace, List.filter_append,
        filter_open_step hq (.wilc_set_wfi_drv_handler ndev) rfl,
        filter_open_step hq (.wilc_set_operation_mode ndev) rfl,
        filter_open_step hq (.wilc_get_mac_address ndev) rfl,
        filter_open_step hq (.wilc_mgmt_frame_register ndev 0) rfl,
        filter_open_step hq (.wilc_mgmt_frame_register ndev 1) rfl,
        filter_open_step hq (.netif_wake_queue ndev) rfl, List.append_nil]
    · simp only [setVif_open_ifcs, netif_wake_queue_open_ifcs, log_open_ifcs]
    · simp only [setVif_hif_drv, netif_wake_queue_hif_drv, log_hif_drv]
    · simp only [setVif_recovery_on, netif_wake_queue_recovery_on, log_recovery_on]
    · simp only [setVif_dev, netif_wake_queue_dev, log_dev]

theorem wilc_mac_open_name_frame (p : Action → Bool)
    (hq : ∀ a, a.isOpenStep = true → p a = false) (e : OpenEnv) (ndev : Fin 2) (s : Wilc) :
    OpenFrame p s (wilc_mac_open_name e ndev s) := by
  unfold wilc_mac_open_name
  simp only []
  split
  · have h := wilc_mac_open_address_frame p hq e ndev
      (Wilc.setVif { s with wait_for_recovery := 0 } ndev
        { Wilc.vif { s with wait_for_recovery := 0 } ndev with ifc_id := .WILC_WLAN_IFC })
    simpa only [OpenFrame, setVif_trace, setVif_open_ifcs, setVif_hif_drv, setVif_recovery_on,
      setVif_dev] using h
  · have h := wilc_mac_open_address_frame p hq e ndev
      (Wilc.setVif { s with wait_for_recovery := 0 } ndev
        { Wilc.vif { s with wait_for_recovery := 0 } ndev with ifc_id := .WILC_P2P_IFC })
    simpa only [OpenFrame, setVif_trace, setVif_open_ifcs, setVif_hif_drv, setVif_recovery_on,
      setVif_dev] using h
  · exact open_frame_of_failure
      (wilc_mac_open_abort_frame p hq ndev { s with wait_for_recovery := 0 })
      (by simp [ENODEV])

theorem open_frame_after {p : Action → Bool} {s t : Wilc} {r : Int × Wilc}
    (f : LifecycleFrame p s t) (g : OpenFrame p t r) : OpenFrame p s r :=
  ⟨g.1.trans f.1, fun hc => (g.2.1 hc).trans (by rw [f.2.1]), fun hc => (g.2.2.1 hc).trans f.2.1,
    g.2.2.2.1.trans f.2.2.2.2.2.2.1, g.2.2.2.2.1.trans f.2.2.2.2.1,
    g.2.2.2.2.2.trans f.2.2.2.2.2.1⟩

theorem wilc_mac_open_bringup_frame (p : Action → Bool)
    (hq : ∀ a, a.isOpenStep = true → p a = false) (e : OpenEnv) (ndev : Fin 2) (s : Wilc) :
    OpenFrame p s (wilc_mac_open_bringup e ndev s) := by
  have f := wilc_wlan_initialize_frame _ (open_step_of_lifecycle hq) e.init s
  have g := wilc_mac_open_name_frame p hq e ndev ( wilc_wlan_initialize e.init s).2
  unfold wilc_mac_open_bringup
  simp only []
  split_ifs with h1 h2
  · exact open_frame_of_failure
      (frame_trans f (frame_log _ (.wilc_deinit_host_int ndev) (hq _ (by rfl)))) (by omega)
  · exact open_frame_of_failure f (by omega)
  · exact open_frame_after f g

/-- The calls selected by `p`, the open count and the frame across one
`wilc_mac_open`: power is asserted exactly when the device is present and
the open count is 0 at entry. -/
theorem wilc_mac_open_frame (p : Action → Bool)
    (hq : ∀ a, a.isOpenStep = true → p a = false) (e : OpenEnv) (ndev : Fin 2) (s : Wilc) :
    (wilc_mac_open e ndev s).2.trace.filter p =
      s.trace.filter p ++
        (if s.dev = true ∧ s.open_ifcs = 0 then [Action.wilc_bt_power_up].filter p else []) ∧
    ((wilc_mac_open e ndev s).1 = 0 →
      (wilc_mac_open e ndev s).2.open_ifcs = s.open_ifcs + 1) ∧
    ((wilc_mac_open e ndev s).1 ≠ 0 →
      (wilc_mac_open e ndev s).2.open_ifcs = s.open_ifcs) ∧
    (wilc_mac_open e ndev s).2.hif_drv = s.hif_drv ∧
    (wilc_mac_open e ndev s).2.recovery_on = s.recovery_on ∧
    (wilc_mac_open e ndev s).2.dev = s.dev := by
  have key : ∀ x : Wilc, x.open_ifcs = s.open_ifcs → x.hif_drv = s.hif_drv →
      x.recovery_on = s.recovery_on → x.dev = s.dev →
      OpenFrame p x (if x.recovery_on = 0 then
          if e.init_host_int_ret < 0 then (e.init_host_int_ret, x.log (.wilc_init_host_int ndev))
          else wilc_mac_open_bringup e ndev (x.log (.wilc_init_host_int ndev))
        else wilc_mac_open_bringup e ndev x) := by
    intro x _ _ _ _
    split_ifs with h1 h2
    · exact open_frame_of_failure (frame_log x _ (hq _ (by rfl))) (by omega)
    · exact open_frame_after (frame_log x _ (hq _ (by rfl)))
        (wilc_mac_open_bringup_frame p hq e ndev _)
    · exact wilc_mac_open_bringup_frame p hq e ndev x
  unfold wilc_mac_open
  by_cases hd : s.dev = true
  · by_cases ho : s.open_ifcs = 0
    · have k := key (s.log .wilc_bt_power_up) rfl rfl rfl rfl
      simp only [hd, ho, Bool.not_true, Bool.false_eq_true, if_false, if_true, and_self]
      refine ⟨?_, fun hc => (k.2.1 hc).trans (by rw [log_open_ifcs, ho]),
        fun hc => (k.2.2.1 hc).trans (by rw [log_open_ifcs, ho]), k.2.2.2.1, k.2.2.2.2.1, ?_⟩
      · rw [k.1, log_trace, List.filter_append]
      · rw [k.2.2.2.2.2]; exact hd
    · have k := key s rfl rfl rfl rfl
      simp only [hd, ho, Bool.not_true, Bool.false_eq_true, if_false, and_false,
        List.append_nil]
      exact ⟨k.1, k.2.1, k.2.2.1, k.2.2.2.1, k.2.2.2.2.1, by rw [k.2.2.2.2.2]; exact hd⟩
  · have hd2 : s.dev = false := by simpa using hd
    simp [hd2, ENODEV]

/-- The calls selected by `p` and the frame across one `wilc_mac_close`. -/
theorem wilc_mac_close_frame (p : Action → Bool)
    (hq : ∀ a, a.isOpenStep = true → p a = false) (ndev : Fin 2) (s : Wilc) :
    (wilc_mac_close ndev s).2.trace.filter p = s.trace.filter p ∧
    (wilc_mac_close ndev s).2.hif_drv = s.hif_drv ∧
    (wilc_mac_close ndev s).2.recovery_on = s.recovery_on ∧
    (wilc_mac_close ndev s).2.dev = s.dev ∧
    (wilc_mac_close ndev s).1 = 0 := by
  have hstop : ∀ x : Wilc, LifecycleFrame p x { x with close := 1 } := fun x =>
    frame_set rfl ⟨rfl, rfl, rfl, rfl, rfl, rfl, rfl⟩
  unfold wilc_mac_close
  simp only []
  split_ifs with h1 h2 h3 h3
  · have f := frame_trans (hstop _) (wilc_wlan_deinitialize_frame p (open_step_of_lifecycle hq)
      { Wilc.log (netif_stop_queue ndev { s with open_ifcs := s.open_ifcs - 1 })
          (.wilc_deinit_host_int ndev) with close := 1 })
    refine ⟨?_, ?_, ?_, ?_, rfl⟩
    · simp only [setVif_trace]
      rw [f.1]
      simp only [log_trace, netif_stop_queue_trace, List.filter_append,
        filter_open_step hq (.wilc_deinit_host_int ndev) rfl,
        filter_open_step hq (.netif_stop_queue ndev) rfl, List.append_nil]
    · simp only [setVif_hif_drv]
      rw [f.2.2.2.2.2.2.1]
      simp only [log_hif_drv, netif_stop_queue_hif_drv]
    · simp only [setVif_recovery_on]
      rw [f.2.2.2.2.1]
      simp only [log_recovery_on, netif_stop_queue_recovery_on]
    · simp only [setVif_dev]
      rw [f.2.2.2.2.2.1]
      simp only [log_dev, netif_stop_queue_dev]
  · refine ⟨?_, ?_, ?_, ?_, rfl⟩
    · simp only [setVif_trace, log_trace, netif_stop_queue_trace, List.filter_append,
        filter_open_step hq (.wilc_deinit_host_int ndev) rfl,
        filter_open_step hq (.netif_stop_queue ndev) rfl, List.append_nil]
    · simp only [setVif_hif_drv, log_hif_drv, netif_stop_queue_hif_drv]
    · simp only [setVif_recovery_on, log_recovery_on, netif_stop_queue_recovery_on]
    · simp only [setVif_dev, log_dev, netif_stop_queue_dev]
  · have f := frame_trans (hstop _) (wilc_wlan_deinitialize_frame p (open_step_of_lifecycle hq)
      { netif_stop_queue ndev { s with open_ifcs := s.open_ifcs - 1 } with close := 1 })
    refine ⟨?_, ?_, ?_, ?_, rfl⟩
    · simp only [setVif_trace]
      rw [f.1]
      simp only [netif_stop_queue_trace, List.filter_append,
        filter_open_step hq (.netif_stop_queue ndev) rfl, List.append_nil]
    · simp only [setVif_hif_drv]
      rw [f.2.2.2.2.2.2.1]
      simp only [netif_stop_queue_hif_drv]
    · simp only [setVif_recovery_on]
      rw [f.2.2.2.2.1]
      simp only [netif_stop_queue_recovery_on]
    · simp only [setVif_dev]
      rw [f.2.2.2.2.2.1]
      simp only [netif_stop_queue_dev]
  · refine ⟨?_, ?_, ?_, ?_, rfl⟩
    · simp only [setVif_trace, netif_stop_queue_trace, List.filter_append,
        filter_open_step hq (.netif_stop_queue ndev) rfl, List.append_nil]
    · simp only [setVif_hif_drv, netif_stop_queue_hif_drv]
    · simp only [setVif_recovery_on, netif_stop_queue_recovery_on]
    · simp only [setVif_dev, netif_stop_queue_dev]
  · exact ⟨rfl, rfl, rfl, rfl, rfl⟩

theorem isPowerUp_open_step : ∀ a : Action, a.isOpenStep = true → Action.isPowerUp a = false := by
  intro a h
  cases a with
  | ifc c => cases c <;> first | rfl | exact absurd h Bool.false_ne_true
  | _ => rfl

theorem isDisconnNotif_open_step :
    ∀ a : Action, a.isOpenStep = true → Action.isDisconnNotif a = false := by
  intro a h
  cases a with
  | ifc c => cases c <;> first | rfl | exact absurd h Bool.false_ne_true
  | _ => rfl

/-! ## Device power and the open count -/

/-- Claim C11 as stated fails: on a freshly attached device (open count 0)
an open call whose `wilc_init_host_int` fails returns `-12` and leaves the
open count at 0, never raising it to 1, and yet it has asserted power. -/
theorem wilc_mac_open_failure_asserts_power :
    fresh.open_ifcs = 0 ∧
    (wilc_mac_open env_open_host_fails 0 fresh).1 = -12 ∧
    (wilc_mac_open env_open_host_fails 0 fresh).2.open_ifcs = 0 ∧
    (wilc_mac_open env_open_host_fails 0 fresh).2.trace =
      [Action.wilc_bt_power_up, Action.wilc_init_host_int 0] := by
  decide

/-- Claim C11, amended: an open call asserts power (once) exactly when the
device is present and the open count is 0 when the call is entered, whether
or not the call goes on to raise the count; an open call raises the count by
one when it succeeds and leaves it when it fails; a close call never asserts
power. -/
theorem power_asserted_iff_count_zero_at_entry (e : OpenEnv) (ndev : Fin 2) (s : Wilc) :
    (wilc_mac_open e ndev s).2.trace.filter Action.isPowerUp =
      s.trace.filter Action.isPowerUp ++
        (if s.dev = true ∧ s.open_ifcs = 0 then [Action.wilc_bt_power_up] else []) ∧
    ((wilc_mac_open e ndev s).1 = 0 →
      (wilc_mac_open e ndev s).2.open_ifcs = s.open_ifcs + 1) ∧
    ((wilc_mac_open e ndev s).1 ≠ 0 →
      (wilc_mac_open e ndev s).2.open_ifcs = s.open_ifcs) ∧
    (wilc_mac_close ndev s).2.trace.filter Action.isPowerUp =
      s.trace.filter Action.isPowerUp := by
  have h := wilc_mac_open_frame Action.isPowerUp isPowerUp_open_step e ndev s
  exact ⟨h.1, h.2.1, h.2.2.1, (wilc_mac_close_frame _ isPowerUp_open_step ndev s).1⟩

/-! ## Host state of an interface during recovery -/

/-- Claim C12, evaluated during a recovery cycle (`recovery_on = 1`).  A
close call, an open call that succeeds and an open call whose bring-up fails
make no host state call, but an open call that fails at the address check,
and one that fails at the interface name, each call
`wilc_deinit_host_int`. -/
theorem wilc_mac_open_recovery_deinit_host_int :
    (wilc_mac_close 0 { connected with recovery_on := 1 }).2.trace.filter Action.isHostInt =
      connected.trace.filter Action.isHostInt ∧
    recovering.recovery_on = 1 ∧
    (wilc_mac_open env_open_ok 0 recovering).1 = 0 ∧
    (wilc_mac_open env_open_ok 0 recovering).2.trace.filter Action.isHostInt = [] ∧
    (wilc_mac_open env_open_no_firmware 0 recovering).1 = - EIO ∧
    (wilc_mac_open env_open_no_firmware 0 recovering).2.trace.filter Action.isHostInt = [] ∧
    (wilc_mac_open env_open_bad_mac 0 recovering).1 = -EINVAL ∧
    (wilc_mac_open env_open_bad_mac 0 recovering).2.trace.filter Action.isHostInt =
      [Action.wilc_deinit_host_int 0] ∧
    recovering_unknown_name.recovery_on = 1 ∧
    (wilc_mac_open env_open_ok 0 recovering_unknown_name).1 = -ENODEV ∧
    (wilc_mac_open env_open_ok 0 recovering_unknown_name).2.trace.filter Action.isHostInt =
      [Action.wilc_deinit_host_int 0] := by
  decide

/-! ## Closing with no interface open -/

/-- Claim C13: `wilc_mac_close` on a device whose open count is 0 returns 0
and leaves the whole device state as it was: the open count stays 0, the
`mac_opened` flags, the closing flag and the initialized flag are unchanged
and no call at all (hence no teardown action) is made. -/
theorem wilc_mac_close_zero_count (ndev : Fin 2) (s : Wilc) (h : s.open_ifcs = 0) :
    wilc_mac_close ndev s = (0, s) := by
  simp [wilc_mac_close, h]

/-- Claim C13 on a freshly attached device, closing interface 1. -/
theorem wilc_mac_close_zero_count_witness :
    fresh.open_ifcs = 0 ∧ wilc_mac_close 1 fresh = (0, fresh) :=
  ⟨rfl, wilc_mac_close_zero_count 1 fresh rfl⟩

/-! ## The reopen loops -/

theorem reopen_ifc_calls (ifc : Fin 2) (r : Recovery) :
    (reopen_ifc ifc r).calls = (reopen_loop ifc r.rest r.timeout r.calls r.wl).calls := by
  unfold reopen_ifc
  simp only []
  split_ifs <;> rfl

theorem reopen_ifc_done (ifc : Fin 2) (r : Recovery) :
    (reopen_ifc ifc r).done = (reopen_loop ifc r.rest r.timeout r.calls r.wl).done := by
  unfold reopen_ifc
  simp only []
  split_ifs <;> rfl

theorem reopen_ifc_timeout (ifc : Fin 2) (r : Recovery) :
    (reopen_ifc ifc r).timeout = (reopen_loop ifc r.rest r.timeout r.calls r.wl).timeout := by
  unfold reopen_ifc
  simp only []
  split_ifs <;> rfl

theorem reopen_ifc_rest (ifc : Fin 2) (r : Recovery) :
    (reopen_ifc ifc r).rest = (reopen_loop ifc r.rest r.timeout r.calls r.wl).rest := by
  unfold reopen_ifc
  simp only []
  split_ifs <;> rfl

/-! ## Frame of the recovery cycle -/

/-- The retry loop on one interface adds no call selected by `p` and leaves
`hif_drv` alone. -/
theorem reopen_loop_frame (p : Action → Bool) (hq : ∀ a, a.isOpenStep = true → p a = false)
    (hpow : p .wilc_bt_power_up = false) (hms : p (.msleep 100) = false)
    (ifc : Fin 2) (envs : List OpenEnv) :
    ∀ (t : Int) (calls : List IfcCall) (s : Wilc),
      (reopen_loop ifc envs t calls s).wl.trace.filter p = s.trace.filter p ∧
      (reopen_loop ifc envs t calls s).wl.hif_drv = s.hif_drv := by
  induction envs with
  | nil => intro t calls s; exact ⟨rfl, rfl⟩
  | cons e es ih =>
    intro t calls s
    have f := wilc_mac_open_frame p hq e ifc s
    have ft : (wilc_mac_open e ifc s).2.trace.filter p = s.trace.filter p := by
      rw [f.1]
      split_ifs <;> simp [hpow]
    unfold reopen_loop
    simp only []
    split_ifs with h1 h2
    · obtain ⟨a, b⟩ := ih (t - 1) (calls ++ [IfcCall.wilc_mac_open ifc])
        ((wilc_mac_open e ifc s).2.log (.msleep 100))
      refine ⟨a.trans ?_, b.trans f.2.2.2.1⟩
      rw [log_trace, List.filter_append, ft]
      simp [hms]
    · exact ⟨ft, f.2.2.2.1⟩
    · exact ⟨ft, f.2.2.2.1⟩

theorem reopen_ifc_frame (p : Action → Bool) (hq : ∀ a, a.isOpenStep = true → p a = false)
    (hpow : p .wilc_bt_power_up = false) (hms : p (.msleep 100) = false)
    (hpr : ∀ i, p (.print_couldnt_restart i) = false) (ifc : Fin 2) (r : Recovery) :
    (reopen_ifc ifc r).wl.trace.filter p = r.wl.trace.filter p ∧
    (reopen_ifc ifc r).wl.hif_drv = r.wl.hif_drv := by
  have f := reopen_loop_frame p hq hpow hms ifc r.rest r.timeout r.calls r.wl
  unfold reopen_ifc
  simp only []
  split_ifs
  · refine ⟨?_, f.2⟩
    show List.filter p ((reopen_loop ifc r.rest r.timeout r.calls r.wl).wl.trace ++ [_]) = _
    rw [List.filter_append, f.1]
    simp [hpr]
  · exact f

theorem debug_thread_close_all_frame (p : Action → Bool)
    (hq : ∀ a, a.isOpenStep = true → p a = false) (envs : List OpenEnv) (s : Wilc) :
    (debug_thread_close_all envs s).wl.trace.filter p = s.trace.filter p ∧
    (debug_thread_close_all envs s).wl.hif_drv = s.hif_drv := by
  unfold debug_thread_close_all
  simp only []
  exact ⟨(wilc_mac_close_frame p hq 1 _).1.trans (wilc_mac_close_frame p hq 0 _).1,
    (wilc_mac_close_frame p hq 1 _).2.1.trans (wilc_mac_close_frame p hq 0 _).2.1⟩

theorem handle_pwrsave_for_IP_default (vif : Fin 2) (s : Wilc) :
    (handle_pwrsave_for_IP vif .IP_STATE_DEFAULT s).trace =
      s.trace ++ [Action.del_timer_during_ip vif] ∧
    (handle_pwrsave_for_IP vif .IP_STATE_DEFAULT s).hif_drv = s.hif_drv := by
  fin_cases vif <;> exact ⟨rfl, rfl⟩

/-- The disconnection block of the recovery cycle, entered in the connected
state. -/
theorem recovery_disconnect_connected (vif : Fin 2) (w : Wilc)
    (h : w.hif_drv.hif_state = .HOST_IF_CONNECTED) :
    (recovery_disconnect vif w).trace.filter Action.isDisconnNotif =
      w.trace.filter Action.isDisconnNotif ++
        (if w.hif_drv.conn_result = true then [Action.conn_result_disconn_notif] else []) ∧
    (recovery_disconnect vif w).hif_drv.assoc_bssid = [0, 0, 0, 0, 0, 0] ∧
    (recovery_disconnect vif w).hif_drv.req_ies = false ∧
    (recovery_disconnect vif w).hif_drv.req_ies_len = 0 ∧
    (recovery_disconnect vif w).hif_drv.hif_state = .HOST_IF_IDLE := by
  unfold recovery_disconnect
  rw [if_pos h]
  refine ⟨?_, rfl, rfl, rfl, rfl⟩
  simp only []
  by_cases hs : w.hif_drv.scan_result = true <;> by_cases hc : w.hif_drv.conn_result = true
  · simp only [hs, hc, if_true, log_hif_drv, log_trace, (handle_pwrsave_for_IP_default vif _).1,
      List.filter_append]
    simp [Action.isDisconnNotif]
  · simp only [hs, hc, if_true, if_false, log_hif_drv, log_trace, List.filter_append,
      Bool.false_eq_true]
    simp [Action.isDisconnNotif]
  · simp only [hs, hc, if_true, if_false, log_hif_drv, log_trace,
      (handle_pwrsave_for_IP_default vif _).1, List.filter_append, Bool.false_eq_true]
    simp [Action.isDisconnNotif]
  · simp only [hs, hc, if_true, if_false, log_hif_drv, log_trace, List.filter_append,
      Bool.false_eq_true]
    simp [Action.isDisconnNotif]

/-- A recovery cycle that ended went through the disconnection block and
cleared `recovery_on`. -/
theorem debug_thread_reopen_all_done (vif : Fin 2) (r : Recovery)
    (hd : (debug_thread_reopen_all vif r).done = true) :
    (debug_thread_reopen_all vif r).wl.trace =
      (recovery_disconnect vif (reopen_ifc 0 (reopen_ifc 1 r)).wl).trace ∧
    (debug_thread_reopen_all vif r).wl.hif_drv =
      (recovery_disconnect vif (reopen_ifc 0 (reopen_ifc 1 r)).wl).hif_drv ∧
    (debug_thread_reopen_all vif r).wl.recovery_on = 0 := by
  unfold debug_thread_reopen_all at hd ⊢
  simp only [] at hd ⊢
  by_cases hA : (reopen_ifc 1 r).done = true
  · by_cases hB : (reopen_ifc 0 (reopen_ifc 1 r)).done = true
    · rw [if_neg (by rw [hA]; decide), if_neg (by rw [hB]; decide)]
      exact ⟨rfl, rfl, rfl⟩
    · rw [if_neg (by rw [hA]; decide), if_pos (by simpa using hB)] at hd
      exact absurd hd hB
  · rw [if_pos (by simpa using hA)] at hd
    exact absurd hd hA

/-! ## Disconnection reported by the recovery cycle -/

set_option maxRecDepth 100000 in
/-- Claim C15 as stated fails: a recovery cycle started in the connected
state on a device without a connect-result callback runs to its end and
delivers no disconnection event. -/
theorem recovery_without_callback_reports_nothing :
    connected_no_callback.hif_drv.hif_state = .HOST_IF_CONNECTED ∧
    (debug_thread_recover 0 [env_open_ok, env_open_ok] connected_no_callback).done = true ∧
    (debug_thread_recover 0 [env_open_ok, env_open_ok] connected_no_callback).wl.trace.filter
      Action.isDisconnNotif = [] := by
  decide

/-- Claim C15, amended: a recovery cycle that is started in the connected
state and runs to its end delivers exactly one disconnection event when a
connect-result callback is registered and none when it is not; in both
cases it leaves `assoc_bssid` all-zero, `req_ies` NULL, `req_ies_len` 0,
`hif_state = HOST_IF_IDLE` and `recovery_on = 0`. -/
theorem recovery_disconnect_event_iff_callback (vif : Fin 2) (envs : List OpenEnv) (s : Wilc)
    (hc : s.hif_drv.hif_state = .HOST_IF_CONNECTED)
    (hd : (debug_thread_recover vif envs s).done = true) :
    (debug_thread_recover vif envs s).wl.trace.filter Action.isDisconnNotif =
      s.trace.filter Action.isDisconnNotif ++
        (if s.hif_drv.conn_result = true then [Action.conn_result_disconn_notif] else []) ∧
    (debug_thread_recover vif envs s).wl.hif_drv.assoc_bssid = [0, 0, 0, 0, 0, 0] ∧
    (debug_thread_recover vif envs s).wl.hif_drv.req_ies = false ∧
    (debug_thread_recover vif envs s).wl.hif_drv.req_ies_len = 0 ∧
    (debug_thread_recover vif envs s).wl.hif_drv.hif_state = .HOST_IF_IDLE ∧
    (debug_thread_recover vif envs s).wl.recovery_on = 0 := by
  have fc := debug_thread_close_all_frame Action.isDisconnNotif isDisconnNotif_open_step envs s
  have f1 := reopen_ifc_frame Action.isDisconnNotif isDisconnNotif_open_step rfl rfl
    (fun _ => rfl) 1 (debug_thread_close_all envs s)
  have f0 := reopen_ifc_frame Action.isDisconnNotif isDisconnNotif_open_step rfl rfl
    (fun _ => rfl) 0 (reopen_ifc 1 (debug_thread_close_all envs s))
  have ht := f0.1.trans (f1.1.trans fc.1)
  have hh := f0.2.trans (f1.2.trans fc.2)
  have hw := recovery_disconnect_connected vif
    (reopen_ifc 0 (reopen_ifc 1 (debug_thread_close_all envs s))).wl (by rw [hh]; exact hc)
  rw [ht, hh] at hw
  have hr := debug_thread_reopen_all_done vif (debug_thread_close_all envs s) hd
  unfold debug_thread_recover
  rw [hr.1, hr.2.1]
  exact ⟨hw.1, hw.2.1, hw.2.2.1, hw.2.2.2.1, hw.2.2.2.2, hr.2.2⟩

set_option maxRecDepth 100000 in
/-- Claim C15, amended, on a connected device with a callback registered,
both interfaces reopening at the first attempt. -/
theorem recovery_disconnect_event_iff_callback_witness :
    connected.hif_drv.hif_state = .HOST_IF_CONNECTED ∧
    (debug_thread_recover 0 [env_open_ok, env_open_ok] connected).done = true ∧
    (debug_thread_recover 0 [env_open_ok, env_open_ok] connected).wl.trace.filter
      Action.isDisconnNotif = [Action.conn_result_disconn_notif] ∧
    (debug_thread_recover 0 [env_open_ok, env_open_ok] connected).wl.hif_drv.assoc_bssid =
      [0, 0, 0, 0, 0, 0] :=
  ⟨rfl, by decide,
    (recovery_disconnect_event_iff_callback 0 [env_open_ok, env_open_ok] connected rfl
      (by decide)).1,
    (recovery_disconnect_event_iff_callback 0 [env_open_ok, env_open_ok] connected rfl
      (by decide)).2.1⟩

theorem isCouldntRestart_open_step :
    ∀ a : Action, a.isOpenStep = true → Action.isCouldntRestart a = false := by
  intro a h
  cases a with
  | ifc c => cases c <;> first | rfl | exact absurd h Bool.false_ne_true
  | _ => rfl

/-! ## Attempts that cannot succeed -/

theorem wilc_mac_open_address_bad_mac (e : OpenEnv) (he : e.mac_add_valid = false)
    (ndev : Fin 2) (s : Wilc) : (wilc_mac_open_address e ndev s).1 = -EINVAL := by
  unfold wilc_mac_open_address
  simp only [he, Bool.not_false, if_true]

theorem wilc_mac_open_name_bad_mac (e : OpenEnv) (he : e.mac_add_valid = false)
    (ndev : Fin 2) (s : Wilc) : (wilc_mac_open_name e ndev s).1 ≠ 0 := by
  unfold wilc_mac_open_name
  simp only []
  split
  · rw [wilc_mac_open_address_bad_mac e he]; decide
  · rw [wilc_mac_open_address_bad_mac e he]; decide
  · show (-ENODEV : Int) ≠ 0
    decide

theorem wilc_mac_open_bringup_bad_mac (e : OpenEnv) (he : e.mac_add_valid = false)
    (ndev : Fin 2) (s : Wilc) : (wilc_mac_open_bringup e ndev s).1 ≠ 0 := by
  unfold wilc_mac_open_bringup
  simp only []
  by_cases h : ( wilc_wlan_initialize e.init s).1 < 0
  · rw [if_pos h]
    exact ne_of_lt h
  · rw [if_neg h]
    exact wilc_mac_open_name_bad_mac e he ndev _

/-- An attempt whose address read-back is invalid fails in every state. -/
theorem wilc_mac_open_bad_mac (e : OpenEnv) (he : e.mac_add_valid = false)
    (ndev : Fin 2) (s : Wilc) : (wilc_mac_open e ndev s).1 ≠ 0 := by
  unfold wilc_mac_open
  simp only []
  split_ifs
  all_goals first
    | exact wilc_mac_open_bringup_bad_mac e he ndev _
    | exact ne_of_lt ‹e.init_host_int_ret < 0›
    | (show (-ENODEV : Int) ≠ 0; decide)

/-- While attempts fail and the budget lasts, the retry loop goes on: with
`k + 1` left, the loop is left after `k + 1` failed attempts with `timeout`
at 0. -/
theorem reopen_loop_exhausts (ifc : Fin 2) (e : OpenEnv) (he : e.mac_add_valid = false)
    (post : List OpenEnv) (k : Nat) :
    ∀ (calls : List IfcCall) (s : Wilc),
      (reopen_loop ifc (List.replicate (k + 1) e ++ post) (k + 1) calls s).done = true ∧
      (reopen_loop ifc (List.replicate (k + 1) e ++ post) (k + 1) calls s).timeout = 0 ∧
      (reopen_loop ifc (List.replicate (k + 1) e ++ post) (k + 1) calls s).rest = post ∧
      (reopen_loop ifc (List.replicate (k + 1) e ++ post) (k + 1) calls s).calls =
        calls ++ List.replicate (k + 1) (IfcCall.wilc_mac_open ifc) := by
  induction k with
  | zero =>
    intro calls s
    have hf := wilc_mac_open_bad_mac e he ifc s
    simp only [List.replicate_succ, List.replicate_zero, List.cons_append, List.nil_append,
      reopen_loop]
    rw [if_pos hf, if_neg (by decide)]
    exact ⟨rfl, by simp, rfl, rfl⟩
  | succ k ih =>
    intro calls s
    have hf := wilc_mac_open_bad_mac e he ifc s
    rw [List.replicate_succ, List.cons_append]
    unfold reopen_loop
    simp only []
    rw [if_pos hf, if_pos (by push_cast; omega)]
    have e1 : ((k + 1 : Nat) : Int) + 1 - 1 = (k : Int) + 1 := by push_cast; omega
    rw [e1]
    obtain ⟨a, b, c, d⟩ := ih (calls ++ [IfcCall.wilc_mac_open ifc])
      ((wilc_mac_open e ifc s).2.log (.msleep 100))
    refine ⟨a, b, c, ?_⟩
    rw [d, List.append_assoc, List.replicate_succ (n := k + 1)]
    rfl

/-- Once `timeout` is 0 or less, failed attempts never end the retry loop:
every supplied outcome is consumed by one more attempt. -/
theorem reopen_loop_unbounded (ifc : Fin 2) (e : OpenEnv) (he : e.mac_add_valid = false)
    (n : Nat) :
    ∀ (t : Int) (calls : List IfcCall) (s : Wilc), t ≤ 0 →
      (reopen_loop ifc (List.replicate n e) t calls s).done = false ∧
      (reopen_loop ifc (List.replicate n e) t calls s).timeout = t - n ∧
      (reopen_loop ifc (List.replicate n e) t calls s).calls =
        calls ++ List.replicate n (IfcCall.wilc_mac_open ifc) := by
  induction n with
  | zero => intro t calls s _; exact ⟨rfl, by simp [reopen_loop], by simp [reopen_loop]⟩
  | succ n ih =>
    intro t calls s ht
    have hf := wilc_mac_open_bad_mac e he ifc s
    rw [List.replicate_succ]
    unfold reopen_loop
    simp only []
    rw [if_pos hf, if_pos (by omega)]
    obtain ⟨a, b, c⟩ := ih (t - 1) (calls ++ [IfcCall.wilc_mac_open ifc])
      ((wilc_mac_open e ifc s).2.log (.msleep 100)) (by omega)
    refine ⟨a, by rw [b]; push_cast; omega, ?_⟩
    rw [c, List.append_assoc, List.replicate_succ (n := n)]
    rfl

theorem reopen_ifc_of_exhausted (ifc : Fin 2) (r : Recovery)
    (hd : (reopen_loop ifc r.rest r.timeout r.calls r.wl).done = true)
    (ht : (reopen_loop ifc r.rest r.timeout r.calls r.wl).timeout = 0) :
    (reopen_ifc ifc r).wl =
      (reopen_loop ifc r.rest r.timeout r.calls r.wl).wl.log
        (.print_couldnt_restart (ifc.val + 1)) := by
  unfold reopen_ifc
  simp only []
  rw [if_pos ⟨hd, ht⟩]

theorem reopen_ifc_of_not_done (ifc : Fin 2) (r : Recovery)
    (hd : (reopen_loop ifc r.rest r.timeout r.calls r.wl).done = false) :
    reopen_ifc ifc r = reopen_loop ifc r.rest r.timeout r.calls r.wl := by
  unfold reopen_ifc
  simp only []
  rw [if_neg (by rw [hd]; simp)]

/-! ## Attempt budget of the recovery cycle -/

/-- Claim C16, evaluated at a recovery cycle in which no attempt can
succeed (the address read back is invalid), with `10 + m` attempt outcomes
supplied, in any device state.  Interface 1 is given up after 10 attempts
and the warning is logged for it, but then every one of the `m` remaining
outcomes is consumed by an attempt on interface 0 and the retry loop on
interface 0 is still running: `timeout` has gone from 0 to `-m`, and the
number of attempts on interface 0 exceeds any budget. -/
theorem reopen_budget_shared_between_interfaces (vif : Fin 2) (m : Nat) (s : Wilc) :
    (debug_thread_recover vif (List.replicate (10 + m) env_open_bad_mac) s).calls =
      [IfcCall.wilc_mac_close 0, IfcCall.wilc_mac_close 1] ++
        List.replicate 10 (IfcCall.wilc_mac_open 1) ++
        List.replicate m (IfcCall.wilc_mac_open 0) ∧
    (debug_thread_recover vif (List.replicate (10 + m) env_open_bad_mac) s).done = false ∧
    (debug_thread_recover vif (List.replicate (10 + m) env_open_bad_mac) s).timeout = -(m : Int) ∧
    (debug_thread_recover vif (List.replicate (10 + m) env_open_bad_mac) s).wl.trace.filter
      Action.isCouldntRestart =
        s.trace.filter Action.isCouldntRestart ++ [Action.print_couldnt_restart 2] := by
  have fc := debug_thread_close_all_frame Action.isCouldntRestart isCouldntRestart_open_step
    (List.replicate (10 + m) env_open_bad_mac) s
  have hrest : (debug_thread_close_all (List.replicate (10 + m) env_open_bad_mac) s).rest =
      List.replicate (9 + 1) env_open_bad_mac ++ List.replicate m env_open_bad_mac :=
    List.replicate_add 10 m env_open_bad_mac
  have ht : (debug_thread_close_all (List.replicate (10 + m) env_open_bad_mac) s).timeout =
      ((9 : Nat) : Int) + 1 := rfl
  have hcalls : (debug_thread_close_all (List.replicate (10 + m) env_open_bad_mac) s).calls =
      [IfcCall.wilc_mac_close 0, IfcCall.wilc_mac_close 1] := rfl
  unfold debug_thread_recover
  generalize debug_thread_close_all (List.replicate (10 + m) env_open_bad_mac) s = r
    at fc hrest ht hcalls ⊢
  obtain ⟨a1, b1, c1, d1⟩ := reopen_loop_exhausts 1 env_open_bad_mac rfl
    (List.replicate m env_open_bad_mac) 9 r.calls r.wl
  rw [← hrest, ← ht] at a1 b1 c1 d1
  have r1done : (reopen_ifc 1 r).done = true := by rw [reopen_ifc_done]; exact a1
  have r1time : (reopen_ifc 1 r).timeout = 0 := by rw [reopen_ifc_timeout]; exact b1
  have r1rest : (reopen_ifc 1 r).rest = List.replicate m env_open_bad_mac := by
    rw [reopen_ifc_rest]; exact c1
  have r1calls : (reopen_ifc 1 r).calls =
      r.calls ++ List.replicate (9 + 1) (IfcCall.wilc_mac_open 1) := by
    rw [reopen_ifc_calls]; exact d1
  have r1wl := reopen_ifc_of_exhausted 1 r a1 b1
  obtain ⟨a0, b0, c0⟩ := reopen_loop_unbounded 0 env_open_bad_mac rfl m
    (reopen_ifc 1 r).timeout (reopen_ifc 1 r).calls (reopen_ifc 1 r).wl (by rw [r1time])
  rw [← r1rest] at a0 b0 c0
  have r0eq := reopen_ifc_of_not_done 0 (reopen_ifc 1 r) a0
  unfold debug_thread_reopen_all
  simp only []
  rw [if_neg (by rw [r1done]; decide), if_pos (by rw [r0eq, a0]; rfl), r0eq]
  refine ⟨?_, a0, ?_, ?_⟩
  · rw [c0, r1calls, hcalls]
  · rw [b0, r1time]
    simp
  · have f0 := (reopen_loop_frame Action.isCouldntRestart isCouldntRestart_open_step rfl rfl 0
      (reopen_ifc 1 r).rest (reopen_ifc 1 r).timeout (reopen_ifc 1 r).calls (reopen_ifc 1 r).wl).1
    have f1 := (reopen_loop_frame Action.isCouldntRestart isCouldntRestart_open_step rfl rfl 1
      r.rest r.timeout r.calls r.wl).1
    rw [f0, r1wl, log_trace, List.filter_append, f1, fc.1]
    rfl

/-! ## Configuration push -/

theorem cfg_set_chain_accepted (env : InitEnv) (ws : List WID) (s : Wilc)
    (h : ∀ w ∈ ws, env.cfg_set_ok w = true) :
    (cfg_set_chain env ws s).1 = true ∧
    (cfg_set_chain env ws s).2.trace = s.trace ++ ws.map Action.cfg_set := by
  induction ws generalizing s with
  | nil => simp [cfg_set_chain]
  | cons w ws ih =>
    have hw : env.cfg_set_ok w = true := h w (List.mem_cons_self _ _)
    simp only [cfg_set_chain, hw, if_true]
    obtain ⟨a, b⟩ := ih (s.log (.cfg_set w)) (fun x hx => h x (List.mem_cons_of_mem _ hx))
    exact ⟨a, by rw [b]; simp⟩

theorem cfg_set_chain_rejected (env : InitEnv) (pre post : List WID) (w : WID) (s : Wilc)
    (h : ∀ v ∈ pre, env.cfg_set_ok v = true) (hw : env.cfg_set_ok w = false) :
    (cfg_set_chain env (pre ++ w :: post) s).1 = false ∧
    (cfg_set_chain env (pre ++ w :: post) s).2.trace =
      s.trace ++ (pre ++ [w]).map Action.cfg_set := by
  induction pre generalizing s with
  | nil => simp [cfg_set_chain, hw]
  | cons v pre ih =>
    have hv : env.cfg_set_ok v = true := h v (List.mem_cons_self _ _)
    obtain ⟨a, b⟩ := ih (s.log (.cfg_set v)) (fun x hx => h x (List.mem_cons_of_mem _ hx))
    have e : cfg_set_chain env (v :: pre ++ w :: post) s =
        cfg_set_chain env (pre ++ w :: post) (s.log (.cfg_set v)) := by
      simp only [List.cons_append, cfg_set_chain, hv, if_true]
      rfl
    rw [e]
    exact ⟨a, by rw [b]; simp⟩

theorem cfg_set_chain_true_iff (env : InitEnv) (ws : List WID) (s : Wilc) :
    (cfg_set_chain env ws s).1 = true ↔ ∀ w ∈ ws, env.cfg_set_ok w = true := by
  induction ws generalizing s with
  | nil => simp [cfg_set_chain]
  | cons w ws ih =>
    by_cases hw : env.cfg_set_ok w = true
    · simp only [cfg_set_chain, hw, if_true, List.mem_cons, forall_eq_or_imp, true_and]
      exact ih _
    · simp [cfg_set_chain, hw]

/-- Claim C17: `wilc_init_fw_config` returns 0 if and only if `cfg_set`
accepts every attribute of the fixed sequence; and for every position `k`,
if the attribute at position `k` is the first one rejected, the function
returns -1 and the attributes pushed are exactly those at positions `0..k`
(none after position `k`). -/
theorem wilc_init_fw_config_all_or_first_rejected (env : InitEnv) (s : Wilc) :
    ((wilc_init_fw_config env s).1 = 0 ↔
      ∀ w ∈ fw_config_sequence, env.cfg_set_ok w = true) ∧
    (∀ (k : Nat) (w : WID), fw_config_sequence[k]? = some w →
      (∀ v ∈ fw_config_sequence.take k, env.cfg_set_ok v = true) →
      env.cfg_set_ok w = false →
      (wilc_init_fw_config env s).1 = -1 ∧
      (wilc_init_fw_config env s).2.trace =
        s.trace ++ (fw_config_sequence.take (k + 1)).map Action.cfg_set) := by
  constructor
  · rw [← cfg_set_chain_true_iff env fw_config_sequence s]
    unfold wilc_init_fw_config
    simp only
    split_ifs with h <;> simp [h]
  · intro k w hk hpre hw
    have hlt : k < fw_config_sequence.length := by
      rcases Nat.lt_or_ge k fw_config_sequence.length with h | h
      · exact h
      · rw [List.getElem?_eq_none h] at hk; exact absurd hk (by simp)
    have hget : fw_config_sequence[k] = w := by
      rw [List.getElem?_eq_getElem hlt] at hk
      exact Option.some.inj hk
    have hsplit : fw_config_sequence =
        fw_config_sequence.take k ++ w :: fw_config_sequence.drop (k + 1) := by
      rw [← hget]
      exact (List.take_append_drop k fw_config_sequence).symm.trans
        (by rw [List.drop_eq_getElem_cons hlt])
    have htake : fw_config_sequence.take (k + 1) = fw_config_sequence.take k ++ [w] := by
      rw [← hget, List.take_succ, List.getElem?_eq_getElem hlt]
      rfl
    obtain ⟨a, b⟩ := cfg_set_chain_rejected env (fw_config_sequence.take k)
      (fw_config_sequence.drop (k + 1)) w s hpre hw
    rw [← hsplit] at a b
    unfold wilc_init_fw_config
    simp only [a, Bool.false_eq_true, if_false, htake]
    exact ⟨trivial, b⟩

/-- Claim C17 when `cfg_set` rejects `WID_QOS_ENABLE`, the attribute at
position 11: the function returns -1 after pushing the first 12
attributes. -/
theorem wilc_init_fw_config_all_or_first_rejected_witness :
    fw_config_sequence[11]? = some WID.WID_QOS_ENABLE ∧
    (wilc_init_fw_config env_config_rejected fresh).1 = -1 ∧
    (wilc_init_fw_config env_config_rejected fresh).2.trace =
      (fw_config_sequence.take 12).map Action.cfg_set :=
  ⟨rfl, (wilc_init_fw_config_all_or_first_rejected env_config_rejected fresh).2 11
    WID.WID_QOS_ENABLE rfl (by decide) rfl⟩

/-! ## Interrupt handlers -/

/-- Claim C18: in every device state the immediate handler `isr_uh_routine`
returns `IRQ_HANDLED` when the closing flag is set and `IRQ_WAKE_THREAD`
otherwise, and changes nothing (it never calls the transport interrupt
routine); the deferred handler `isr_bh_routine` always returns `IRQ_HANDLED`,
calls `wilc_handle_isr` once when the closing flag is clear and does nothing
when it is set; the single-stage handler `host_wakeup_isr` returns
`IRQ_HANDLED` and changes nothing (no deferred work is scheduled). -/
theorem isr_handlers_split (s : Wilc) :
    (s.close ≠ 0 → (isr_uh_routine s).1 = IrqReturn.IRQ_HANDLED) ∧
    (s.close = 0 → (isr_uh_routine s).1 = IrqReturn.IRQ_WAKE_THREAD) ∧
    (isr_uh_routine s).2 = s ∧
    (isr_bh_routine s).1 = IrqReturn.IRQ_HANDLED ∧
    (s.close = 0 → (isr_bh_routine s).2.trace = s.trace ++ [Action.wilc_handle_isr]) ∧
    (s.close ≠ 0 → (isr_bh_routine s).2 = s) ∧
    host_wakeup_isr s = (IrqReturn.IRQ_HANDLED, s) := by
  unfold isr_uh_routine isr_bh_routine host_wakeup_isr
  by_cases h : s.close = 0 <;> simp [h]

/-! ## Address-acquisition power gate -/

@[simp] theorem setVif_vif_same (s : Wilc) (i : Fin 2) (v : Vif) : (s.setVif i v).vif i = v := by
  fin_cases i <;> rfl

@[simp] theorem setVif_g_ignore (s : Wilc) (i : Fin 2) (v : Vif) :
    (s.setVif i v).g_ignore_PS_state = s.g_ignore_PS_state := by
  fin_cases i <;> rfl

theorem setVif_vif_pwrsave (s : Wilc) (i j : Fin 2) (v : Vif)
    (h : v.pwrsave_current_state = (s.vif i).pwrsave_current_state) :
    ((s.setVif i v).vif j).pwrsave_current_state = (s.vif j).pwrsave_current_state := by
  fin_cases i <;> fin_cases j <;> first | exact h | rfl

/-- The timer operations and the events of the gate leave every recorded
preference as it was. -/
theorem handle_pwrsave_for_IP_pwrsave (vif j : Fin 2) (st : IpState) (s : Wilc) :
    ((handle_pwrsave_for_IP vif st s).vif j).pwrsave_current_state =
      (s.vif j).pwrsave_current_state := by
  cases st <;>
    simp only [handle_pwrsave_for_IP, mod_timer_during_ip, del_timer_during_ip, log_vif] <;>
    (fin_cases vif <;> fin_cases j <;> rfl)

/-- Claim C19: `handle_pwrsave_for_IP` on the event "obtaining" sets
`obtaining_ip` and arms the timer 20000 ms ahead; on "assigned by peer"
(`IP_STATE_GO_ASSIGNING`) it sets `obtaining_ip` and arms the timer 15000 ms
ahead; on "obtained" it clears `obtaining_ip`, cancels the timer and calls
`wilc_set_power_mgmt` with the recorded preference `pwrsave_current_state`;
on every other state value it clears `obtaining_ip` and cancels the timer;
and no event changes the recorded preference of any interface. -/
theorem handle_pwrsave_for_IP_gate (vif : Fin 2) (s : Wilc) :
    (((handle_pwrsave_for_IP vif .IP_STATE_OBTAINING s).vif vif).obtaining_ip = true ∧
      ((handle_pwrsave_for_IP vif .IP_STATE_OBTAINING s).vif vif).during_ip_timer =
        some 20000) ∧
    (((handle_pwrsave_for_IP vif .IP_STATE_GO_ASSIGNING s).vif vif).obtaining_ip = true ∧
      ((handle_pwrsave_for_IP vif .IP_STATE_GO_ASSIGNING s).vif vif).during_ip_timer =
        some 15000) ∧
    (((handle_pwrsave_for_IP vif .IP_STATE_OBTAINED s).vif vif).obtaining_ip = false ∧
      ((handle_pwrsave_for_IP vif .IP_STATE_OBTAINED s).vif vif).during_ip_timer = none ∧
      (handle_pwrsave_for_IP vif .IP_STATE_OBTAINED s).trace =
        s.trace ++ [Action.wilc_set_power_mgmt vif (s.vif vif).pwrsave_current_state 0,
          Action.del_timer_during_ip vif]) ∧
    (∀ st : IpState, st ≠ .IP_STATE_OBTAINING → st ≠ .IP_STATE_GO_ASSIGNING →
      st ≠ .IP_STATE_OBTAINED →
      ((handle_pwrsave_for_IP vif st s).vif vif).obtaining_ip = false ∧
      ((handle_pwrsave_for_IP vif st s).vif vif).during_ip_timer = none) ∧
    (∀ (st : IpState) (j : Fin 2),
      ((handle_pwrsave_for_IP vif st s).vif j).pwrsave_current_state =
        (s.vif j).pwrsave_current_state) := by
  refine ⟨?_, ?_, ?_, ?_, fun st j => handle_pwrsave_for_IP_pwrsave vif j st s⟩
  · fin_cases vif <;> exact ⟨rfl, rfl⟩
  · fin_cases vif <;> exact ⟨rfl, rfl⟩
  · refine ⟨?_, ?_, ?_⟩
    · fin_cases vif <;> rfl
    · fin_cases vif <;> rfl
    · simp only [handle_pwrsave_for_IP, del_timer_during_ip, log_trace, setVif_trace,
        setVif_vif_same, List.append_assoc, List.singleton_append]
  · intro st h1 h2 h3
    cases st
    · exact absurd rfl h1
    · exact absurd rfl h3
    · exact absurd rfl h2
    · fin_cases vif <;> exact ⟨rfl, rfl⟩
    · fin_cases vif <;> exact ⟨rfl, rfl⟩

/-- Claim C20: after an "obtaining" event the flag `g_ignore_PS_state` is
set; the next call of `store_power_save_current_state` leaves every recorded
preference as it was before the event and resets the flag; the call after
that one records its value; in general, with the flag clear,
`store_power_save_current_state vif w` sets `pwrsave_current_state = w` and
leaves the flag clear; and the deadline expiry `clear_during_ip` clears
`obtaining_ip` without touching the flag. -/
theorem ignore_flag_consumed_once (i j k : Fin 2) (v w : Bool) (s : Wilc) :
    (handle_pwrsave_for_IP i .IP_STATE_OBTAINING s).g_ignore_PS_state = true ∧
    (∀ m : Fin 2,
      ((store_power_save_current_state j v
          (handle_pwrsave_for_IP i .IP_STATE_OBTAINING s)).vif m).pwrsave_current_state =
        (s.vif m).pwrsave_current_state) ∧
    (store_power_save_current_state j v
        (handle_pwrsave_for_IP i .IP_STATE_OBTAINING s)).g_ignore_PS_state = false ∧
    ((store_power_save_current_state k w (store_power_save_current_state j v
        (handle_pwrsave_for_IP i .IP_STATE_OBTAINING s))).vif k).pwrsave_current_state = w ∧
    (∀ x : Wilc, x.g_ignore_PS_state = false →
      ((store_power_save_current_state k w x).vif k).pwrsave_current_state = w ∧
      (store_power_save_current_state k w x).g_ignore_PS_state = false) ∧
    (∀ x : Wilc, ((clear_during_ip i x).vif i).obtaining_ip = false ∧
      (clear_during_ip i x).g_ignore_PS_state = x.g_ignore_PS_state) := by
  have hflag : (handle_pwrsave_for_IP i .IP_STATE_OBTAINING s).g_ignore_PS_state = true := by
    simp only [handle_pwrsave_for_IP, mod_timer_during_ip]
    fin_cases i <;> rfl
  have hstore : ∀ x : Wilc, x.g_ignore_PS_state = false →
      ((store_power_save_current_state k w x).vif k).pwrsave_current_state = w ∧
      (store_power_save_current_state k w x).g_ignore_PS_state = false := by
    intro x hx
    unfold store_power_save_current_state
    rw [if_neg (by simp [hx])]
    exact ⟨by fin_cases k <;> rfl, by fin_cases k <;> exact hx⟩
  have hsup : ∀ x : Wilc, x.g_ignore_PS_state = true →
      (∀ m : Fin 2, ((store_power_save_current_state j v x).vif m).pwrsave_current_state =
        (x.vif m).pwrsave_current_state) ∧
      (store_power_save_current_state j v x).g_ignore_PS_state = false := by
    intro x hx
    unfold store_power_save_current_state
    rw [if_pos hx]
    exact ⟨fun m => by fin_cases m <;> rfl, rfl⟩
  obtain ⟨a1, a2⟩ := hsup _ hflag
  refine ⟨hflag, ?_, a2, (hstore _ a2).1, hstore, ?_⟩
  · intro m
    rw [a1 m, handle_pwrsave_for_IP_pwrsave]
  · intro x
    simp only [clear_during_ip]
    exact ⟨by fin_cases i <;> rfl, by fin_cases i <;> rfl⟩

/-! ## Retry budget of the held-back EAPOL frame -/

@[simp] theorem rx_log_timeout (s : RxState) (a : RxAction) : (s.log a).timeout = s.timeout := rfl

@[simp] theorem rx_log_trace (s : RxState) (a : RxAction) : (s.log a).trace = s.trace ++ [a] := rfl

@[simp] theorem rx_log_priv (s : RxState) (a : RxAction) (i : Fin 2) :
    (s.log a).priv i = s.priv i := rfl

@[simp] theorem rx_setPriv_timeout (s : RxState) (i : Fin 2) (p : WilcPriv) :
    (s.setPriv i p).timeout = s.timeout := by
  fin_cases i <;> rfl

@[simp] theorem rx_setPriv_trace (s : RxState) (i : Fin 2) (p : WilcPriv) :
    (s.setPriv i p).trace = s.trace := by
  fin_cases i <;> rfl

@[simp] theorem rx_setPriv_priv (s : RxState) (i : Fin 2) (p : WilcPriv) :
    (s.setPriv i p).priv i = p := by
  fin_cases i <;> rfl

@[simp] theorem rx_set_timeout_priv (s : RxState) (n : Nat) (i : Fin 2) :
    RxState.priv { s with timeout := n } i = s.priv i := rfl

theorem eap_buff_timeout_rearm_fields (ifc : Fin 2) (s : RxState) :
    (eap_buff_timeout_rearm ifc s).timeout = s.timeout ∧
    (eap_buff_timeout_rearm ifc s).trace = s.trace ++ [RxAction.mod_timer_eap_buff ifc 10] ∧
    ((eap_buff_timeout_rearm ifc s).priv ifc).eap_buff_timer = some 10 ∧
    ((eap_buff_timeout_rearm ifc s).priv ifc).associated_bss = (s.priv ifc).associated_bss ∧
    ((eap_buff_timeout_rearm ifc s).priv ifc).buffered_eap = (s.priv ifc).buffered_eap := by
  simp [eap_buff_timeout_rearm]

theorem eap_buff_timeout_deliver_fields (ifc : Fin 2) (s : RxState) (eap : BufferedEap)
    (hb : (s.priv ifc).buffered_eap = some eap) :
    ∃ u, eap_buff_timeout_deliver ifc s = some u ∧ u.timeout = 5 ∧
      u.trace = s.trace ++
        [RxAction.del_timer_eap_buff ifc, RxAction.wilc_send_buffered_eap ifc eap] ∧
      (u.priv ifc).eap_buff_timer = none := by
  have hm : (RxState.priv { (s.setPriv ifc { s.priv ifc with eap_buff_timer := none }).log (.del_timer_eap_buff ifc) with timeout := 5 } ifc).buffered_eap = some eap := by
    rw [rx_set_timeout_priv, rx_log_priv, rx_setPriv_priv]
    exact hb
  unfold eap_buff_timeout_deliver
  simp only []
  rw [hm]
  refine ⟨_, rfl, rfl, ?_, ?_⟩
  · simp
  · show ((s.setPriv ifc _).priv ifc).eap_buff_timer = none
    rw [rx_setPriv_priv]

/-- An expiry that finds the address all-zero and the counter positive
re-arms the timer 10 ms ahead and takes one off the counter. -/
theorem eap_buff_timeout_retry (ifc : Fin 2) (s : RxState)
    (hn : (s.priv ifc).associated_bss = null_bssid) (h0 : 0 < s.timeout)
    (h5 : s.timeout ≤ 5) :
    ∃ u, eap_buff_timeout ifc s = some u ∧ u.timeout = s.timeout - 1 ∧
      u.trace = s.trace ++ [RxAction.mod_timer_eap_buff ifc 10] ∧
      (u.priv ifc).eap_buff_timer = some 10 ∧
      (u.priv ifc).associated_bss = null_bssid ∧
      (u.priv ifc).buffered_eap = (s.priv ifc).buffered_eap := by
  have hm : (s.timeout + 255) % 256 = s.timeout - 1 := by omega
  have f := eap_buff_timeout_rearm_fields ifc { s with timeout := (s.timeout + 255) % 256 }
  refine ⟨eap_buff_timeout_rearm ifc { s with timeout := (s.timeout + 255) % 256 }, ?_,
    f.1.trans hm, f.2.1, f.2.2.1, f.2.2.2.1.trans hn, f.2.2.2.2⟩
  simp [eap_buff_timeout, hn, h0]

/-- An expiry that finds the address all-zero and the counter at 0 delivers
the held-back frame and sets the counter to 5 again. -/
theorem eap_buff_timeout_exhausted (ifc : Fin 2) (s : RxState) (eap : BufferedEap)
    (hb : (s.priv ifc).buffered_eap = some eap) (h0 : s.timeout = 0) :
    ∃ u, eap_buff_timeout ifc s = some u ∧ u.timeout = 5 ∧
      u.trace = s.trace ++
        [RxAction.del_timer_eap_buff ifc, RxAction.wilc_send_buffered_eap ifc eap] ∧
      (u.priv ifc).eap_buff_timer = none := by
  have e : eap_buff_timeout ifc s = eap_buff_timeout_deliver ifc
      (if (s.priv ifc).associated_bss = null_bssid then
        { s with timeout := (s.timeout + 255) % 256 } else s) := by
    simp [eap_buff_timeout, h0]
  rw [e]
  split_ifs
  · exact eap_buff_timeout_deliver_fields ifc _ eap hb
  · exact eap_buff_timeout_deliver_fields ifc _ eap hb

/-- An expiry that finds a recorded peer address delivers the held-back
frame and sets the counter to 5 again. -/
theorem eap_buff_timeout_associated (ifc : Fin 2) (s : RxState) (eap : BufferedEap)
    (hb : (s.priv ifc).buffered_eap = some eap)
    (hn : (s.priv ifc).associated_bss ≠ null_bssid) :
    ∃ u, eap_buff_timeout ifc s = some u ∧ u.timeout = 5 ∧
      u.trace = s.trace ++
        [RxAction.del_timer_eap_buff ifc, RxAction.wilc_send_buffered_eap ifc eap] ∧
      (u.priv ifc).eap_buff_timer = none := by
  have e : eap_buff_timeout ifc s = eap_buff_timeout_deliver ifc s := by
    simp [eap_buff_timeout, hn]
  rw [e]
  exact eap_buff_timeout_deliver_fields ifc s eap hb

/-- While the address stays all-zero, `k` expiries in a row with a counter
of at least `k` re-arm the timer `k` times. -/
theorem eap_buff_expiries_retry (ifc : Fin 2) (k : Nat) :
    ∀ s : RxState, (s.priv ifc).associated_bss = null_bssid → k ≤ s.timeout →
      s.timeout ≤ 5 →
      ∃ u, eap_buff_expiries ifc k s = some u ∧ u.timeout = s.timeout - k ∧
        u.trace = s.trace ++ List.replicate k (RxAction.mod_timer_eap_buff ifc 10) ∧
        (0 < k → (u.priv ifc).eap_buff_timer = some 10) ∧
        (u.priv ifc).associated_bss = null_bssid ∧
        (u.priv ifc).buffered_eap = (s.priv ifc).buffered_eap := by
  induction k with
  | zero => intro s hn _ _; exact ⟨s, rfl, rfl, by simp, fun h => absurd h (by decide), hn, rfl⟩
  | succ k ih =>
    intro s hn hk h5
    obtain ⟨v, hv, vt, vtr, vtm, vn, vb⟩ := eap_buff_timeout_retry ifc s hn (by omega) h5
    obtain ⟨u, hu, ut, utr, utm, un, ub⟩ := ih v vn (by omega) (by omega)
    refine ⟨u, by simp [eap_buff_expiries, hv, hu], by omega, ?_, fun _ => ?_, un, ub.trans vb⟩
    · rw [utr, vtr, List.append_assoc, List.replicate_succ]
      rfl
    · rcases Nat.eq_zero_or_pos k with h | h
      · subst h
        simp only [eap_buff_expiries, Option.some.injEq] at hu
        rw [← hu]; exact vtm
      · exact utm h

theorem eap_buff_expiries_add (ifc : Fin 2) (a b : Nat) :
    ∀ s : RxState, eap_buff_expiries ifc (a + b) s =
      (eap_buff_expiries ifc a s).bind (eap_buff_expiries ifc b) := by
  induction a with
  | zero => intro s; simp [eap_buff_expiries]
  | succ a ih =>
    intro s
    rw [Nat.add_right_comm]
    simp only [eap_buff_expiries]
    cases h : eap_buff_timeout ifc s with
    | none => rfl
    | some v => simp only [Option.some_bind]; exact ih v

/-- Buffering, and every other path of `wilc_frmw_to_host`, leaves the
counter of `eap_buff_timeout` as it is. -/
theorem wilc_frmw_to_host_timeout (env : RxEnv) (ifc : Fin 2) (buff : RxFrame)
    (size pkt_offset : Nat) (status : PktStatus) (s : RxState) :
    (wilc_frmw_to_host env ifc buff size pkt_offset status s).timeout = s.timeout := by
  have hb : ∀ x : RxState,
      (wilc_frmw_to_host_buffer ifc buff size pkt_offset x).timeout = x.timeout :=
    fun x => by simp [wilc_frmw_to_host_buffer]
  unfold wilc_frmw_to_host
  split_ifs
  all_goals first
    | rfl
    | exact hb s
    | (split <;> first | rfl | exact hb _)
    | rw [rx_log_timeout, rx_setPriv_timeout]

theorem eap_buff_timeout_deliver_timeout (ifc : Fin 2) (s u : RxState)
    (hu : eap_buff_timeout_deliver ifc s = some u) : u.timeout = 5 := by
  unfold eap_buff_timeout_deliver at hu
  simp only [] at hu
  split at hu
  · exact absurd hu (by simp)
  · rw [← Option.some.inj hu]
    rfl

/-- The counter of `eap_buff_timeout` never exceeds 5 between two calls. -/
theorem eap_buff_timeout_counter_le (ifc : Fin 2) (s u : RxState) (h5 : s.timeout ≤ 5)
    (hu : eap_buff_timeout ifc s = some u) : u.timeout ≤ 5 := by
  by_cases hn : (s.priv ifc).associated_bss = null_bssid
  · rcases Nat.eq_zero_or_pos s.timeout with h0 | h0
    · have e : eap_buff_timeout ifc s = eap_buff_timeout_deliver ifc
          { s with timeout := (s.timeout + 255) % 256 } := by
        simp [eap_buff_timeout, h0, hn]
      rw [e] at hu
      exact le_of_eq (eap_buff_timeout_deliver_timeout ifc _ u hu)
    · obtain ⟨v, hv, vt, _⟩ := eap_buff_timeout_retry ifc s hn h0 h5
      rw [hv] at hu
      rw [← Option.some.inj hu, vt]
      omega
  · have e : eap_buff_timeout ifc s = eap_buff_timeout_deliver ifc s := by
      simp [eap_buff_timeout, hn]
    rw [e] at hu
    exact le_of_eq (eap_buff_timeout_deliver_timeout ifc _ u hu)

/-- The counter is one variable for both interfaces: in the scenario
`rx_two_interfaces` the address of interface 1 stays all-zero and its timer
is re-armed by the handler on nine expiries in a row before its frame is
delivered. -/
theorem eap_counter_shared_between_interfaces :
    rx_two_interfaces.map (fun u => (u.trace.filter (fun a => a.ifc = 1)).drop 1) =
      some (List.replicate 9 (RxAction.mod_timer_eap_buff 1 10) ++
        [RxAction.del_timer_eap_buff 1,
          RxAction.wilc_send_buffered_eap 1
            { buff := eapol_frame 2, size := 120, pkt_offset := 0 }]) := by
  decide

/-! ## Open count and the initialized flag -/


@[simp] theorem log_initialized (s : Wilc) (a : Action) :
    (s.log a).initialized = s.initialized := rfl

@[simp] theorem setVif_initialized (s : Wilc) (i : Fin 2) (v : Vif) :
    (s.setVif i v).initialized = s.initialized := by
  fin_cases i <;> rfl

@[simp] theorem netif_wake_queue_initialized (i : Fin 2) (s : Wilc) :
    (netif_wake_queue i s).initialized = s.initialized := by
  fin_cases i <;> rfl

@[simp] theorem netif_stop_queue_initialized (i : Fin 2) (s : Wilc) :
    (netif_stop_queue i s).initialized = s.initialized := by
  fin_cases i <;> rfl

theorem wilc_wlan_deinitialize_initialized (s : Wilc) :
    ( wilc_wlan_deinitialize s).initialized = false := by
  unfold wilc_wlan_deinitialize
  by_cases hi : s.initialized = true
  · rw [if_pos hi]
  · rw [if_neg hi]
    simpa using hi

theorem neg_EIO_ne_zero : (- EIO : Int) ≠ 0 := by decide

theorem neg_EINVAL_ne_zero : (-EINVAL : Int) ≠ 0 := by decide

theorem neg_ENODEV_ne_zero : (-ENODEV : Int) ≠ 0 := by decide

theorem wilc_wlan_initialize_start_success (env : InitEnv) (s : Wilc)
    (h : (wilc_wlan_initialize_start env s).1 = 0) :
    (wilc_wlan_initialize_start env s).2.initialized = true := by
  unfold wilc_wlan_initialize_start at h ⊢
  simp only [] at h ⊢
  split_ifs at h ⊢
  · exact absurd h neg_EIO_ne_zero
  · exact absurd h neg_EIO_ne_zero
  · rfl

theorem wilc_wlan_initialize_firmware_success (env : InitEnv) (s : Wilc)
    (h : (wilc_wlan_initialize_firmware env s).1 = 0) :
    (wilc_wlan_initialize_firmware env s).2.initialized = true := by
  unfold wilc_wlan_initialize_firmware at h ⊢
  simp only [] at h ⊢
  split_ifs at h ⊢
  · exact absurd h neg_EIO_ne_zero
  · exact absurd h neg_EIO_ne_zero
  · exact wilc_wlan_initialize_start_success env _ h

theorem wilc_wlan_initialize_threads_success (env : InitEnv) (s : Wilc)
    (h : (wilc_wlan_initialize_threads env s).1 = 0) :
    (wilc_wlan_initialize_threads env s).2.initialized = true := by
  unfold wilc_wlan_initialize_threads at h ⊢
  simp only [] at h ⊢
  split_ifs at h ⊢
  · exact absurd h neg_EIO_ne_zero
  · exact absurd h neg_EIO_ne_zero
  · exact wilc_wlan_initialize_firmware_success env _ h
  · exact wilc_wlan_initialize_firmware_success env _ h

/-- A bring-up that returns 0 leaves the device initialised. -/
theorem wilc_wlan_initialize_success (env : InitEnv) (s : Wilc)
    (h : ( wilc_wlan_initialize env s).1 = 0) :
    ( wilc_wlan_initialize env s).2.initialized = true := by
  unfold wilc_wlan_initialize at h ⊢
  simp only [] at h ⊢
  split_ifs at h ⊢ with h1
  · exact absurd h neg_EIO_ne_zero
  · exact absurd h neg_EIO_ne_zero
  · exact wilc_wlan_initialize_threads_success env _ h
  · simpa using h1

theorem wilc_mac_open_address_success (e : OpenEnv) (ndev : Fin 2) (s : Wilc)
    (h : (wilc_mac_open_address e ndev s).1 = 0) :
    (wilc_mac_open_address e ndev s).2.initialized = s.initialized := by
  unfold wilc_mac_open_address at h ⊢
  simp only [] at h ⊢
  split_ifs at h ⊢
  · exact absurd h neg_EINVAL_ne_zero
  · simp only [setVif_initialized, netif_wake_queue_initialized, log_initialized]

theorem wilc_mac_open_name_success (e : OpenEnv) (ndev : Fin 2) (s : Wilc)
    (h : (wilc_mac_open_name e ndev s).1 = 0) :
    (wilc_mac_open_name e ndev s).2.initialized = s.initialized := by
  unfold wilc_mac_open_name at h ⊢
  simp only [] at h ⊢
  split at h
  · exact (wilc_mac_open_address_success e ndev _ h).trans (setVif_initialized _ _ _)
  · exact (wilc_mac_open_address_success e ndev _ h).trans (setVif_initialized _ _ _)
  · exact absurd h neg_ENODEV_ne_zero

theorem wilc_mac_open_bringup_success (e : OpenEnv) (ndev : Fin 2) (s : Wilc)
    (h : (wilc_mac_open_bringup e ndev s).1 = 0) :
    (wilc_mac_open_bringup e ndev s).2.initialized = true := by
  unfold wilc_mac_open_bringup at h ⊢
  simp only [] at h ⊢
  by_cases hr : ( wilc_wlan_initialize e.init s).1 < 0
  · rw [if_pos hr] at h
    exact absurd h (ne_of_lt hr)
  · rw [if_neg hr] at h ⊢
    rw [wilc_mac_open_name_success e ndev _ h]
    rcases wilc_wlan_initialize_ret e.init s with h0 | h0
    · exact wilc_wlan_initialize_success e.init s h0
    · rw [h0] at hr
      exact absurd (by decide) hr

/-- An open call that returns 0 leaves the device initialised. -/
theorem wilc_mac_open_success_initialized (e : OpenEnv) (ndev : Fin 2) (s : Wilc)
    (h : (wilc_mac_open e ndev s).1 = 0) :
    (wilc_mac_open e ndev s).2.initialized = true := by
  unfold wilc_mac_open at h ⊢
  simp only [] at h ⊢
  split_ifs at h ⊢
  all_goals first
    | exact wilc_mac_open_bringup_success e ndev _ h
    | exact absurd h (ne_of_lt ‹e.init_host_int_ret < 0›)
    | exact absurd h neg_ENODEV_ne_zero

theorem frame_no_selection (a : Action) (_h : a.isLifecycle = true) :
    (fun _ : Action => false) a = false := rfl

/-- A close call takes one off the open count, if there is one to take,
and tears the device down only when the count reaches 0. -/
theorem wilc_mac_close_count (ndev : Fin 2) (s : Wilc) :
    (wilc_mac_close ndev s).2.open_ifcs =
      (if 0 < s.open_ifcs then s.open_ifcs - 1 else s.open_ifcs) ∧
    (0 < (wilc_mac_close ndev s).2.open_ifcs →
      (wilc_mac_close ndev s).2.initialized = s.initialized) := by
  have hd : ∀ x : Wilc, ( wilc_wlan_deinitialize { x with close := 1 }).open_ifcs = x.open_ifcs :=
    fun x => (wilc_wlan_deinitialize_frame _ frame_no_selection { x with close := 1 }).2.1
  unfold wilc_mac_close
  simp only []
  split_ifs with h1 h2 h3 h3
  · have e : (Wilc.setVif ( wilc_wlan_deinitialize { Wilc.log (netif_stop_queue ndev { s with open_ifcs := s.open_ifcs - 1 }) (.wilc_deinit_host_int ndev) with close := 1 }) ndev { Wilc.vif ( wilc_wlan_deinitialize { Wilc.log (netif_stop_queue ndev { s with open_ifcs := s.open_ifcs - 1 }) (.wilc_deinit_host_int ndev) with close := 1 }) ndev with mac_opened := false }).open_ifcs = s.open_ifcs - 1 := by
      rw [setVif_open_ifcs, hd, log_open_ifcs, netif_stop_queue_open_ifcs]
    refine ⟨e, fun h => ?_⟩
    rw [log_open_ifcs, netif_stop_queue_open_ifcs] at h3
    rw [e] at h
    have h3' : s.open_ifcs - 1 = 0 := h3
    omega
  · refine ⟨?_, fun _ => ?_⟩
    · rw [setVif_open_ifcs, log_open_ifcs, netif_stop_queue_open_ifcs]
    · rw [setVif_initialized, log_initialized, netif_stop_queue_initialized]
  · have e : (Wilc.setVif ( wilc_wlan_deinitialize { netif_stop_queue ndev { s with open_ifcs := s.open_ifcs - 1 } with close := 1 }) ndev { Wilc.vif ( wilc_wlan_deinitialize { netif_stop_queue ndev { s with open_ifcs := s.open_ifcs - 1 } with close := 1 }) ndev with mac_opened := false }).open_ifcs = s.open_ifcs - 1 := by
      rw [setVif_open_ifcs, hd, netif_stop_queue_open_ifcs]
    refine ⟨e, fun h => ?_⟩
    rw [netif_stop_queue_open_ifcs] at h3
    rw [e] at h
    have h3' : s.open_ifcs - 1 = 0 := h3
    omega
  · refine ⟨?_, fun _ => ?_⟩
    · rw [setVif_open_ifcs, netif_stop_queue_open_ifcs]
    · rw [setVif_initialized, netif_stop_queue_initialized]
  · exact ⟨rfl, fun _ => rfl⟩

theorem wilc_wlan_initialize_of_initialized (env : InitEnv) (s : Wilc)
    (h : s.initialized = true) : wilc_wlan_initialize env s = (0, s) := by
  unfold wilc_wlan_initialize
  rw [if_neg (by rw [h]; decide)]

theorem wilc_mac_open_address_valid (e : OpenEnv) (hv : e.mac_add_valid = true)
    (ndev : Fin 2) (s : Wilc) : (wilc_mac_open_address e ndev s).1 = 0 := by
  unfold wilc_mac_open_address
  simp only []
  rw [if_neg (by rw [hv]; decide)]

theorem wilc_mac_open_name_known (e : OpenEnv) (hv : e.mac_add_valid = true)
    (ndev : Fin 2) (s : Wilc) (hn : (s.vif ndev).name ≠ .other) :
    (wilc_mac_open_name e ndev s).1 = 0 := by
  unfold wilc_mac_open_name
  simp only []
  split
  · exact wilc_mac_open_address_valid e hv ndev _
  · exact wilc_mac_open_address_valid e hv ndev _
  · rename_i h
    exact absurd h hn

theorem wilc_mac_open_bringup_of_initialized (e : OpenEnv) (hv : e.mac_add_valid = true)
    (ndev : Fin 2) (s : Wilc) (hn : (s.vif ndev).name ≠ .other) (hi : s.initialized = true) :
    (wilc_mac_open_bringup e ndev s).1 = 0 := by
  unfold wilc_mac_open_bringup
  simp only []
  rw [wilc_wlan_initialize_of_initialized e.init s hi,
    if_neg (by show ¬ ((0 : Int) < 0); decide)]
  exact wilc_mac_open_name_known e hv ndev s hn

/-- On an initialised device an open call with a known interface name and a
valid address can only fail before the bring-up, and then leaves the device
initialised. -/
theorem wilc_mac_open_failure_of_initialized (e : OpenEnv) (hv : e.mac_add_valid = true)
    (ndev : Fin 2) (s : Wilc) (hn : (s.vif ndev).name ≠ .other) (hi : s.initialized = true)
    (hr : (wilc_mac_open e ndev s).1 ≠ 0) :
    (wilc_mac_open e ndev s).2.initialized = true := by
  unfold wilc_mac_open at hr ⊢
  simp only [] at hr ⊢
  have hb : ∀ x : Wilc, x.vif ndev = s.vif ndev → x.initialized = s.initialized →
      (wilc_mac_open_bringup e ndev x).1 = 0 := fun x h1 h2 =>
    wilc_mac_open_bringup_of_initialized e hv ndev x (by rw [h1]; exact hn) (by rw [h2]; exact hi)
  by_cases hd : s.dev = true
  · rw [if_neg (by rw [hd]; decide)] at hr ⊢
    by_cases ho : s.open_ifcs = 0
    · rw [if_pos ho] at hr ⊢
      by_cases hrec : (s.log Action.wilc_bt_power_up).recovery_on = 0
      · rw [if_pos hrec] at hr ⊢
        by_cases hh : e.init_host_int_ret < 0
        · rw [if_pos hh]
          exact hi
        · rw [if_neg hh] at hr
          exact absurd (hb ((s.log .wilc_bt_power_up).log (.wilc_init_host_int ndev)) rfl rfl) hr
      · rw [if_neg hrec] at hr
        exact absurd (hb (s.log .wilc_bt_power_up) rfl rfl) hr
    · rw [if_neg ho] at hr ⊢
      by_cases hrec : s.recovery_on = 0
      · rw [if_pos hrec] at hr ⊢
        by_cases hh : e.init_host_int_ret < 0
        · rw [if_pos hh]
          exact hi
        · rw [if_neg hh] at hr
          exact absurd (hb (s.log (.wilc_init_host_int ndev)) rfl rfl) hr
      · rw [if_neg hrec] at hr
        exact absurd (hb s rfl rfl) hr
  · rw [if_pos (by simpa using hd)]
    exact hi

/-- The open count is positive only on an initialised device: this is kept
by every close call, by every open call that succeeds, and by every open
call that is made with a known interface name and reads back a valid
address. -/
theorem open_count_implies_initialized (e : OpenEnv) (ndev : Fin 2) (s : Wilc)
    (hI : 0 < s.open_ifcs → s.initialized = true) :
    (0 < (wilc_mac_close ndev s).2.open_ifcs →
      (wilc_mac_close ndev s).2.initialized = true) ∧
    ((wilc_mac_open e ndev s).1 = 0 → (wilc_mac_open e ndev s).2.initialized = true) ∧
    (e.mac_add_valid = true → (s.vif ndev).name ≠ .other →
      0 < (wilc_mac_open e ndev s).2.open_ifcs →
      (wilc_mac_open e ndev s).2.initialized = true) := by
  refine ⟨fun h => ?_, wilc_mac_open_success_initialized e ndev s, fun hv hn h => ?_⟩
  · have c := wilc_mac_close_count ndev s
    rw [c.2 h]
    apply hI
    rw [c.1] at h
    split_ifs at h <;> omega
  · by_cases hr : (wilc_mac_open e ndev s).1 = 0
    · exact wilc_mac_open_success_initialized e ndev s hr
    · have f := (wilc_mac_open_frame (fun _ => false) (fun _ _ => rfl) e ndev s).2.2.1 hr
      rw [f] at h
      exact wilc_mac_open_failure_of_initialized e hv ndev s hn (hI h) hr

theorem open_count_implies_initialized_witness :
    (0 < opened_zero.open_ifcs → opened_zero.initialized = true) ∧
    env_open_ok.mac_add_valid = true ∧ (opened_zero.vif 1).name ≠ .other ∧
    0 < (wilc_mac_open env_open_ok 1 opened_zero).2.open_ifcs ∧
    (wilc_mac_open env_open_ok 1 opened_zero).2.initialized = true :=
  ⟨by decide, rfl, by decide, by decide,
    (open_count_implies_initialized env_open_ok 1 opened_zero (by decide)).2.2 rfl (by decide)
      (by decide)⟩

/-- Claim C22, evaluated on a device with interface 0 opened (open count
1, initialised, no recovery in progress): an open call on interface 1 that
reads back an invalid address fails with `-EINVAL` and leaves the open count
at 1 and interface 0 opened, but the device is no longer initialised. -/
theorem failed_open_tears_down_open_device :
    opened_zero.open_ifcs = 1 ∧ opened_zero.initialized = true ∧
    opened_zero.vif0.mac_opened = true ∧ opened_zero.recovery_on = 0 ∧
    (wilc_mac_open env_open_bad_mac 1 opened_zero).1 = -EINVAL ∧
    (wilc_mac_open env_open_bad_mac 1 opened_zero).2.open_ifcs = 1 ∧
    (wilc_mac_open env_open_bad_mac 1 opened_zero).2.vif0.mac_opened = true ∧
    (wilc_mac_open env_open_bad_mac 1 opened_zero).2.initialized = false := by
  decide

/-! ## Interfaces opened by the recovery cycle -/

theorem setVif_vif_ne (s : Wilc) (i j : Fin 2) (v : Vif) (h : j ≠ i) :
    (s.setVif i v).vif j = s.vif j := by
  fin_cases i <;> fin_cases j <;> first | rfl | exact absurd rfl h

theorem netif_wake_queue_vif_ne (i j : Fin 2) (s : Wilc) (h : j ≠ i) :
    (netif_wake_queue i s).vif j = s.vif j := by
  fin_cases i <;> fin_cases j <;> first | rfl | exact absurd rfl h

theorem set_open_ifcs_vif (s : Wilc) (n : Int) (j : Fin 2) :
    Wilc.vif { s with open_ifcs := n } j = s.vif j := rfl

theorem set_wait_for_recovery_vif (s : Wilc) (n : Int) (j : Fin 2) :
    Wilc.vif { s with wait_for_recovery := n } j = s.vif j := rfl

theorem vif_of_frame {p : Action → Bool} {s t : Wilc} (f : LifecycleFrame p s t) (j : Fin 2) :
    t.vif j = s.vif j := by
  fin_cases j
  · exact f.2.2.1
  · exact f.2.2.2.1

theorem wilc_mac_open_address_flags (e : OpenEnv) (ndev : Fin 2) (s : Wilc) :
    OpenedFlags ndev s (wilc_mac_open_address e ndev s) := by
  intro h
  unfold wilc_mac_open_address at h ⊢
  simp only [] at h ⊢
  split_ifs at h ⊢
  · exact absurd h neg_EINVAL_ne_zero
  · refine ⟨by rw [setVif_vif_same], fun j hj => ?_⟩
    rw [setVif_vif_ne _ _ _ _ hj, set_open_ifcs_vif, netif_wake_queue_vif_ne _ _ _ hj]
    simp only [log_vif]

theorem wilc_mac_open_name_flags (e : OpenEnv) (ndev : Fin 2) (s : Wilc) :
    OpenedFlags ndev s (wilc_mac_open_name e ndev s) := by
  intro h
  unfold wilc_mac_open_name at h ⊢
  simp only [] at h ⊢
  split at h
  · obtain ⟨a, b⟩ := wilc_mac_open_address_flags e ndev _ h
    exact ⟨a, fun j hj => (b j hj).trans
      ((setVif_vif_ne _ _ _ _ hj).trans (set_wait_for_recovery_vif s 0 j))⟩
  · obtain ⟨a, b⟩ := wilc_mac_open_address_flags e ndev _ h
    exact ⟨a, fun j hj => (b j hj).trans
      ((setVif_vif_ne _ _ _ _ hj).trans (set_wait_for_recovery_vif s 0 j))⟩
  · exact absurd h neg_ENODEV_ne_zero

theorem wilc_mac_open_bringup_flags (e : OpenEnv) (ndev : Fin 2) (s : Wilc) :
    OpenedFlags ndev s (wilc_mac_open_bringup e ndev s) := by
  intro h
  have f := wilc_wlan_initialize_frame _ frame_no_selection e.init s
  unfold wilc_mac_open_bringup at h ⊢
  simp only [] at h ⊢
  by_cases hr : ( wilc_wlan_initialize e.init s).1 < 0
  · rw [if_pos hr] at h
    exact absurd h (ne_of_lt hr)
  · rw [if_neg hr] at h ⊢
    obtain ⟨a, b⟩ := wilc_mac_open_name_flags e ndev _ h
    exact ⟨a, fun j hj => (b j hj).trans (vif_of_frame f j)⟩

/-- A successful open sets the opened flag of its interface and leaves the
other interface as it was. -/
theorem wilc_mac_open_flags (e : OpenEnv) (ndev : Fin 2) (s : Wilc) :
    OpenedFlags ndev s (wilc_mac_open e ndev s) := by
  intro h
  have hb : ∀ x : Wilc, (∀ j, x.vif j = s.vif j) → (wilc_mac_open_bringup e ndev x).1 = 0 →
      ((wilc_mac_open_bringup e ndev x).2.vif ndev).mac_opened = true ∧
      ∀ j, j ≠ ndev → (wilc_mac_open_bringup e ndev x).2.vif j = s.vif j := fun x hx h0 =>
    ⟨(wilc_mac_open_bringup_flags e ndev x h0).1,
      fun j hj => ((wilc_mac_open_bringup_flags e ndev x h0).2 j hj).trans (hx j)⟩
  unfold wilc_mac_open at h ⊢
  simp only [] at h ⊢
  by_cases hd : s.dev = true
  · rw [if_neg (by rw [hd]; decide)] at h ⊢
    by_cases ho : s.open_ifcs = 0
    · rw [if_pos ho] at h ⊢
      by_cases hrec : (s.log Action.wilc_bt_power_up).recovery_on = 0
      · rw [if_pos hrec] at h ⊢
        by_cases hh : e.init_host_int_ret < 0
        · rw [if_pos hh] at h
          exact absurd h (ne_of_lt hh)
        · rw [if_neg hh] at h ⊢
          exact hb _ (fun _ => rfl) h
      · rw [if_neg hrec] at h ⊢
        exact hb _ (fun _ => rfl) h
    · rw [if_neg ho] at h ⊢
      by_cases hrec : s.recovery_on = 0
      · rw [if_pos hrec] at h ⊢
        by_cases hh : e.init_host_int_ret < 0
        · rw [if_pos hh] at h
          exact absurd h (ne_of_lt hh)
        · rw [if_neg hh] at h ⊢
          exact hb _ (fun _ => rfl) h
      · rw [if_neg hrec] at h ⊢
        exact hb _ (fun _ => rfl) h
  · rw [if_pos (by simpa using hd)] at h
    exact absurd h neg_ENODEV_ne_zero

theorem reopen_ifc_first_success (ifc : Fin 2) (r : Recovery) (e : OpenEnv)
    (es : List OpenEnv) (hrest : r.rest = e :: es) (ht : r.timeout ≠ 0)
    (hs : (wilc_mac_open e ifc r.wl).1 = 0) :
    (reopen_ifc ifc r).wl = (wilc_mac_open e ifc r.wl).2 ∧
    (reopen_ifc ifc r).timeout = r.timeout ∧ (reopen_ifc ifc r).rest = es ∧
    (reopen_ifc ifc r).calls = r.calls ++ [IfcCall.wilc_mac_open ifc] ∧
    (reopen_ifc ifc r).done = true := by
  have hl : reopen_loop ifc r.rest r.timeout r.calls r.wl =
      { wl := (wilc_mac_open e ifc r.wl).2, timeout := r.timeout, rest := es,
        calls := r.calls ++ [IfcCall.wilc_mac_open ifc], done := true } := by
    rw [hrest]
    unfold reopen_loop
    simp only []
    rw [if_neg (by rw [hs]; decide)]
  unfold reopen_ifc
  simp only []
  rw [hl, if_neg (fun h => ht h.2)]
  exact ⟨rfl, rfl, rfl, rfl, rfl⟩

theorem handle_pwrsave_for_IP_default_flags (vif : Fin 2) (s : Wilc) :
    (handle_pwrsave_for_IP vif .IP_STATE_DEFAULT s).open_ifcs = s.open_ifcs ∧
    (handle_pwrsave_for_IP vif .IP_STATE_DEFAULT s).vif0.mac_opened = s.vif0.mac_opened ∧
    (handle_pwrsave_for_IP vif .IP_STATE_DEFAULT s).vif1.mac_opened = s.vif1.mac_opened := by
  fin_cases vif <;> exact ⟨rfl, rfl, rfl⟩

/-- The disconnection block leaves the open count and the opened flags
alone. -/
theorem recovery_disconnect_flags (vif : Fin 2) (s : Wilc) :
    (recovery_disconnect vif s).open_ifcs = s.open_ifcs ∧
    (recovery_disconnect vif s).vif0.mac_opened = s.vif0.mac_opened ∧
    (recovery_disconnect vif s).vif1.mac_opened = s.vif1.mac_opened := by
  unfold recovery_disconnect
  by_cases hc : s.hif_drv.hif_state = .HOST_IF_CONNECTED
  · rw [if_pos hc]
    simp only []
    by_cases hs : s.hif_drv.scan_result = true <;> by_cases hr : s.hif_drv.conn_result = true
    · simp only [hs, hr, if_true, log_hif_drv, log_open_ifcs, log_vif0, log_vif1,
        (handle_pwrsave_for_IP_default_flags vif _).1,
        (handle_pwrsave_for_IP_default_flags vif _).2.1,
        (handle_pwrsave_for_IP_default_flags vif _).2.2, and_self]
    · simp only [hs, hr, if_true, if_false, log_hif_drv, log_open_ifcs, log_vif0, log_vif1,
        Bool.false_eq_true, and_self]
    · simp only [hs, hr, if_true, if_false, log_hif_drv, log_open_ifcs, log_vif0, log_vif1,
        Bool.false_eq_true, (handle_pwrsave_for_IP_default_flags vif _).1,
        (handle_pwrsave_for_IP_default_flags vif _).2.1,
        (handle_pwrsave_for_IP_default_flags vif _).2.2, and_self]
    · simp only [hs, hr, if_true, if_false, log_hif_drv, log_open_ifcs, log_vif0, log_vif1,
        Bool.false_eq_true, and_self]
  · rw [if_neg hc]
    exact ⟨rfl, rfl, rfl⟩

theorem debug_thread_close_all_count (envs : List OpenEnv) (s : Wilc) :
    (debug_thread_close_all envs s).wl.open_ifcs =
      (if 2 ≤ s.open_ifcs then s.open_ifcs - 2 else if s.open_ifcs = 1 then 0
        else s.open_ifcs) := by
  have c0 := (wilc_mac_close_count 0
    { s with cfg_packet_timeout := 0, recovery_on := 1, wait_for_recovery := 1 }).1
  have c1 := (wilc_mac_close_count 1 (wilc_mac_close 0
    { s with cfg_packet_timeout := 0, recovery_on := 1, wait_for_recovery := 1 }).2).1
  unfold debug_thread_close_all
  simp only []
  rw [c1, c0]
  show (if 0 < (if 0 < s.open_ifcs then s.open_ifcs - 1 else s.open_ifcs) then
      (if 0 < s.open_ifcs then s.open_ifcs - 1 else s.open_ifcs) - 1
    else (if 0 < s.open_ifcs then s.open_ifcs - 1 else s.open_ifcs)) = _
  split_ifs <;> omega

/-- A recovery cycle in which the first attempt on each interface succeeds
ends with both interfaces opened and with two added to what the two close
calls left of the open count, whatever was open before the cycle. -/
theorem recovery_reopens_every_interface (vif : Fin 2) (e1 e0 : OpenEnv)
    (rest : List OpenEnv) (s : Wilc)
    (h1 : (wilc_mac_open e1 1 (debug_thread_close_all (e1 :: e0 :: rest) s).wl).1 = 0)
    (h0 : (wilc_mac_open e0 0
      (wilc_mac_open e1 1 (debug_thread_close_all (e1 :: e0 :: rest) s).wl).2).1 = 0) :
    (debug_thread_recover vif (e1 :: e0 :: rest) s).done = true ∧
    (debug_thread_recover vif (e1 :: e0 :: rest) s).calls =
      [IfcCall.wilc_mac_close 0, IfcCall.wilc_mac_close 1, IfcCall.wilc_mac_open 1,
        IfcCall.wilc_mac_open 0] ∧
    (debug_thread_recover vif (e1 :: e0 :: rest) s).wl.vif0.mac_opened = true ∧
    (debug_thread_recover vif (e1 :: e0 :: rest) s).wl.vif1.mac_opened = true ∧
    (debug_thread_recover vif (e1 :: e0 :: rest) s).wl.open_ifcs =
      (if 2 ≤ s.open_ifcs then s.open_ifcs else if s.open_ifcs = 1 then 2
        else s.open_ifcs + 2) := by
  have hc := debug_thread_close_all_count (e1 :: e0 :: rest) s
  have hrest : (debug_thread_close_all (e1 :: e0 :: rest) s).rest = e1 :: e0 :: rest := rfl
  have ht : (debug_thread_close_all (e1 :: e0 :: rest) s).timeout = 10 := rfl
  have hcalls : (debug_thread_close_all (e1 :: e0 :: rest) s).calls =
      [IfcCall.wilc_mac_close 0, IfcCall.wilc_mac_close 1] := rfl
  unfold debug_thread_recover
  generalize debug_thread_close_all (e1 :: e0 :: rest) s = r at h1 h0 hc hrest ht hcalls ⊢
  obtain ⟨w1, t1, r1, c1, d1⟩ := reopen_ifc_first_success 1 r e1 (e0 :: rest) hrest
    (by rw [ht]; decide) h1
  rw [← w1] at h0
  obtain ⟨w0, t0, r0, c0, d0⟩ := reopen_ifc_first_success 0 (reopen_ifc 1 r) e0 rest r1
    (by rw [t1, ht]; decide) h0
  have hdone : (debug_thread_reopen_all vif r).done = true := by
    unfold debug_thread_reopen_all
    simp only []
    rw [if_neg (by rw [d1]; decide), if_neg (by rw [d0]; decide)]
    exact d0
  have hcl : (debug_thread_reopen_all vif r).calls = (reopen_ifc 0 (reopen_ifc 1 r)).calls := by
    unfold debug_thread_reopen_all
    simp only []
    rw [if_neg (by rw [d1]; decide), if_neg (by rw [d0]; decide)]
  have hwl : (debug_thread_reopen_all vif r).wl.vif0.mac_opened =
        (recovery_disconnect vif (reopen_ifc 0 (reopen_ifc 1 r)).wl).vif0.mac_opened ∧
      (debug_thread_reopen_all vif r).wl.vif1.mac_opened =
        (recovery_disconnect vif (reopen_ifc 0 (reopen_ifc 1 r)).wl).vif1.mac_opened ∧
      (debug_thread_reopen_all vif r).wl.open_ifcs =
        (recovery_disconnect vif (reopen_ifc 0 (reopen_ifc 1 r)).wl).open_ifcs := by
    unfold debug_thread_reopen_all
    simp only []
    rw [if_neg (by rw [d1]; decide), if_neg (by rw [d0]; decide)]
    exact ⟨rfl, rfl, rfl⟩
  have fd := recovery_disconnect_flags vif (reopen_ifc 0 (reopen_ifc 1 r)).wl
  have f1 := wilc_mac_open_flags e1 1 r.wl h1
  rw [← w1] at f1
  have f0 := wilc_mac_open_flags e0 0 (reopen_ifc 1 r).wl h0
  rw [← w0] at f0
  have o1 := (wilc_mac_open_frame (fun _ => false) (fun _ _ => rfl) e1 1 r.wl).2.1 h1
  rw [← w1] at o1
  have o0 := (wilc_mac_open_frame (fun _ => false) (fun _ _ => rfl) e0 0
    (reopen_ifc 1 r).wl).2.1 h0
  rw [← w0] at o0
  refine ⟨hdone, ?_, ?_, ?_, ?_⟩
  · rw [hcl, c0, c1, hcalls]
    rfl
  · rw [hwl.1, fd.2.1]
    exact f0.1
  · rw [hwl.2.1, fd.2.2]
    have e := f0.2 1 (by decide)
    rw [vif_one, vif_one] at e
    rw [e]
    exact f1.1
  · rw [hwl.2.2, fd.1, o0, o1, hc]
    split_ifs <;> omega

theorem recovery_reopens_every_interface_witness :
    opened_zero.open_ifcs = 1 ∧ opened_zero.vif1.mac_opened = false ∧
    (debug_thread_recover 0 [env_open_ok, env_open_ok] opened_zero).wl.vif1.mac_opened = true ∧
    (debug_thread_recover 0 [env_open_ok, env_open_ok] opened_zero).wl.open_ifcs = 2 :=
  ⟨by decide, by decide,
    (recovery_reopens_every_interface 0 env_open_ok env_open_ok [] opened_zero (by decide)
      (by decide)).2.2.2.1,
    (recovery_reopens_every_interface 0 env_open_ok env_open_ok [] opened_zero (by decide)
      (by decide)).2.2.2.2⟩

set_option maxRecDepth 100000 in
/-- Claim C23, evaluated on a device with interface 0 opened and interface
1 closed: a recovery cycle in which both reopen attempts succeed ends with
an open count of 2 and with interface 1 opened. -/
theorem recovery_opens_closed_interface :
    opened_zero.open_ifcs = 1 ∧ opened_zero.vif0.mac_opened = true ∧
    opened_zero.vif1.mac_opened = false ∧
    (debug_thread_recover 0 [env_open_ok, env_open_ok] opened_zero).done = true ∧
    (debug_thread_recover 0 [env_open_ok, env_open_ok] opened_zero).calls =
      [IfcCall.wilc_mac_close 0, IfcCall.wilc_mac_close 1, IfcCall.wilc_mac_open 1,
        IfcCall.wilc_mac_open 0] ∧
    (debug_thread_recover 0 [env_open_ok, env_open_ok] opened_zero).wl.open_ifcs = 2 ∧
    (debug_thread_recover 0 [env_open_ok, env_open_ok] opened_zero).wl.vif0.mac_opened = true ∧
    (debug_thread_recover 0 [env_open_ok, env_open_ok] opened_zero).wl.vif1.mac_opened = true := by
  decide

/-! ## Order in which the recovery cycle acts on the interfaces -/

theorem isIfcStep_lifecycle : ∀ a : Action, a.isLifecycle = true → a.isIfcStep = false := by
  intro a h
  cases a with
  | ifc c => cases c <;> first | rfl | exact absurd h Bool.false_ne_true
  | _ => first | rfl | exact absurd h Bool.false_ne_true

theorem ifc_steps_refl (q : Action → Prop) (s : Wilc) : IfcSteps q s s :=
  ⟨[], by simp, fun _ h => absurd h (List.not_mem_nil _)⟩

theorem ifc_steps_trans {q : Action → Prop} {s t u : Wilc} (h1 : IfcSteps q s t)
    (h2 : IfcSteps q t u) : IfcSteps q s u := by
  obtain ⟨o1, e1, q1⟩ := h1
  obtain ⟨o2, e2, q2⟩ := h2
  refine ⟨o1 ++ o2, by rw [e2, e1, List.append_assoc], fun a ha => ?_⟩
  rcases List.mem_append.mp ha with h | h
  · exact q1 a h
  · exact q2 a h

theorem ifc_steps_of_trace {q : Action → Prop} {s t : Wilc} (h : t.trace = s.trace) :
    IfcSteps q s t :=
  ⟨[], by rw [h]; simp, fun _ h => absurd h (List.not_mem_nil _)⟩

theorem ifc_steps_of_frame {q : Action → Prop} {s t : Wilc}
    (f : LifecycleFrame Action.isIfcStep s t) : IfcSteps q s t :=
  ⟨[], by rw [f.1]; simp, fun _ h => absurd h (List.not_mem_nil _)⟩

theorem ifc_steps_log {q : Action → Prop} (s : Wilc) (a : Action) (hp : a.isIfcStep = true)
    (hq : q a) : IfcSteps q s (s.log a) :=
  ⟨[a], by rw [log_trace, List.filter_append]; simp [hp], fun b hb => by
    rw [List.mem_singleton] at hb; rw [hb]; exact hq⟩

theorem ifc_steps_skip {q : Action → Prop} (s : Wilc) (a : Action) (hp : a.isIfcStep = false) :
    IfcSteps q s (s.log a) :=
  ⟨[], by rw [log_trace, List.filter_append]; simp [hp], fun _ h =>
    absurd h (List.not_mem_nil _)⟩

theorem wilc_mac_open_abort_steps (ndev : Fin 2) (s : Wilc) :
    IfcSteps (fun a => a.openedIfc = some ndev) s (wilc_mac_open_abort ndev s) :=
  ifc_steps_trans (ifc_steps_log s (.wilc_deinit_host_int ndev) rfl rfl)
    (ifc_steps_of_frame (wilc_wlan_deinitialize_frame _ isIfcStep_lifecycle _))

theorem wilc_mac_open_address_steps (e : OpenEnv) (ndev : Fin 2) (s : Wilc) :
    IfcSteps (fun a => a.openedIfc = some ndev) s (wilc_mac_open_address e ndev s).2 := by
  have h3 : IfcSteps (fun a => a.openedIfc = some ndev) s
      (((s.log (.wilc_set_wfi_drv_handler ndev)).log (.wilc_set_operation_mode ndev)).log
        (.wilc_get_mac_address ndev)) :=
    ifc_steps_trans (ifc_steps_trans (ifc_steps_log s (.wilc_set_wfi_drv_handler ndev) rfl rfl)
      (ifc_steps_log _ (.wilc_set_operation_mode ndev) rfl rfl))
      (ifc_steps_log _ (.wilc_get_mac_address ndev) rfl rfl)
  unfold wilc_mac_open_address
  simp only []
  split_ifs
  · exact ifc_steps_trans h3 (wilc_mac_open_abort_steps ndev _)
  · have h5 := ifc_steps_trans (ifc_steps_trans h3
      (ifc_steps_log _ (.wilc_mgmt_frame_register ndev 0) rfl rfl))
      (ifc_steps_log _ (.wilc_mgmt_frame_register ndev 1) rfl rfl)
    have h6 : ∀ x : Wilc, IfcSteps (fun a => a.openedIfc = some ndev) x
        (netif_wake_queue ndev x) := fun x =>
      ⟨[Action.netif_wake_queue ndev], by rw [netif_wake_queue_trace, List.filter_append]; rfl,
        fun b hb => by rw [List.mem_singleton] at hb; rw [hb]; rfl⟩
    exact ifc_steps_trans (ifc_steps_trans h5 (h6 _)) (ifc_steps_of_trace (by rw [setVif_trace]))

theorem wilc_mac_open_name_steps (e : OpenEnv) (ndev : Fin 2) (s : Wilc) :
    IfcSteps (fun a => a.openedIfc = some ndev) s (wilc_mac_open_name e ndev s).2 := by
  unfold wilc_mac_open_name
  simp only []
  split
  · exact ifc_steps_trans (ifc_steps_of_trace (by rw [setVif_trace]))
      (wilc_mac_open_address_steps e ndev _)
  · exact ifc_steps_trans (ifc_steps_of_trace (by rw [setVif_trace]))
      (wilc_mac_open_address_steps e ndev _)
  · exact ifc_steps_trans (ifc_steps_of_trace rfl) (wilc_mac_open_abort_steps ndev _)

theorem wilc_mac_open_bringup_steps (e : OpenEnv) (ndev : Fin 2) (s : Wilc) :
    IfcSteps (fun a => a.openedIfc = some ndev) s (wilc_mac_open_bringup e ndev s).2 := by
  have f : IfcSteps (fun a => a.openedIfc = some ndev) s ( wilc_wlan_initialize e.init s).2 :=
    ifc_steps_of_frame (wilc_wlan_initialize_frame _ isIfcStep_lifecycle e.init s)
  unfold wilc_mac_open_bringup
  simp only []
  split_ifs
  · exact ifc_steps_trans f (ifc_steps_log _ (.wilc_deinit_host_int ndev) rfl rfl)
  · exact f
  · exact ifc_steps_trans f (wilc_mac_open_name_steps e ndev _)

/-- Every call that `wilc_mac_open` makes on an interface is a call on the
interface it is called on. -/
theorem wilc_mac_open_steps (e : OpenEnv) (ndev : Fin 2) (s : Wilc) :
    IfcSteps (fun a => a.openedIfc = some ndev) s (wilc_mac_open e ndev s).2 := by
  have hb : ∀ x : Wilc, IfcSteps (fun a => a.openedIfc = some ndev) s x →
      IfcSteps (fun a => a.openedIfc = some ndev) s (wilc_mac_open_bringup e ndev x).2 :=
    fun x hx => ifc_steps_trans hx (wilc_mac_open_bringup_steps e ndev x)
  have hp : IfcSteps (fun a => a.openedIfc = some ndev) s (s.log .wilc_bt_power_up) :=
    ifc_steps_skip s _ rfl
  unfold wilc_mac_open
  simp only []
  by_cases hd : s.dev = true
  · rw [if_neg (by rw [hd]; decide)]
    by_cases ho : s.open_ifcs = 0
    · rw [if_pos ho]
      by_cases hrec : (s.log Action.wilc_bt_power_up).recovery_on = 0
      · rw [if_pos hrec]
        by_cases hh : e.init_host_int_ret < 0
        · rw [if_pos hh]
          exact ifc_steps_trans hp (ifc_steps_log _ (.wilc_init_host_int ndev) rfl rfl)
        · rw [if_neg hh]
          exact hb _ (ifc_steps_trans hp (ifc_steps_log _ (.wilc_init_host_int ndev) rfl rfl))
      · rw [if_neg hrec]
        exact hb _ hp
    · rw [if_neg ho]
      by_cases hrec : s.recovery_on = 0
      · rw [if_pos hrec]
        by_cases hh : e.init_host_int_ret < 0
        · rw [if_pos hh]
          exact ifc_steps_log _ (.wilc_init_host_int ndev) rfl rfl
        · rw [if_neg hh]
          exact hb _ (ifc_steps_log _ (.wilc_init_host_int ndev) rfl rfl)
      · rw [if_neg hrec]
        exact hb _ (ifc_steps_refl _ s)
  · rw [if_pos (by simpa using hd)]
    exact ifc_steps_refl _ s

/-- During a recovery cycle a close call makes one call on an interface:
`netif_stop_queue` on its own interface, and only when the open count is
positive. -/
theorem wilc_mac_close_steps (ndev : Fin 2) (s : Wilc) (hr : s.recovery_on ≠ 0) :
    (wilc_mac_close ndev s).2.trace.filter Action.isIfcStep =
      s.trace.filter Action.isIfcStep ++
        (if 0 < s.open_ifcs then [Action.netif_stop_queue ndev] else []) := by
  have hd : ∀ x : Wilc, ( wilc_wlan_deinitialize { x with close := 1 }).trace.filter
      Action.isIfcStep = x.trace.filter Action.isIfcStep :=
    fun x => (wilc_wlan_deinitialize_frame _ isIfcStep_lifecycle { x with close := 1 }).1
  have hs : ∀ x : Wilc, (netif_stop_queue ndev x).trace.filter Action.isIfcStep =
      x.trace.filter Action.isIfcStep ++ [Action.netif_stop_queue ndev] := fun x => by
    rw [netif_stop_queue_trace, List.filter_append]
    rfl
  unfold wilc_mac_close
  simp only []
  split_ifs with h1 h2 h3 h3
  · rw [netif_stop_queue_recovery_on] at h2
    exact absurd h2 hr
  · rw [netif_stop_queue_recovery_on] at h2
    exact absurd h2 hr
  · rw [setVif_trace, hd, hs]
  · rw [setVif_trace, hs]
  · rw [List.append_nil]

theorem reopen_loop_steps (ifc : Fin 2) (envs : List OpenEnv) :
    ∀ (t : Int) (calls : List IfcCall) (s : Wilc),
      IfcSteps (fun a => a.openedIfc = some ifc) s (reopen_loop ifc envs t calls s).wl := by
  induction envs with
  | nil => intro t calls s; exact ifc_steps_refl _ s
  | cons e es ih =>
    intro t calls s
    have f := wilc_mac_open_steps e ifc s
    unfold reopen_loop
    simp only []
    split_ifs
    · exact ifc_steps_trans (ifc_steps_trans f (ifc_steps_skip _ (.msleep 100) rfl)) (ih _ _ _)
    · exact f
    · exact f

theorem reopen_ifc_steps (ifc : Fin 2) (r : Recovery) :
    IfcSteps (fun a => a.openedIfc = some ifc) r.wl (reopen_ifc ifc r).wl := by
  have f := reopen_loop_steps ifc r.rest r.timeout r.calls r.wl
  unfold reopen_ifc
  simp only []
  split_ifs
  · exact ifc_steps_trans f (ifc_steps_skip _ (.print_couldnt_restart (ifc.val + 1)) rfl)
  · exact f

theorem recovery_disconnect_steps (vif : Fin 2) (s : Wilc) :
    (recovery_disconnect vif s).trace.filter Action.isIfcStep =
      s.trace.filter Action.isIfcStep := by
  unfold recovery_disconnect
  by_cases hc : s.hif_drv.hif_state = .HOST_IF_CONNECTED
  · rw [if_pos hc]
    simp only []
    by_cases hs : s.hif_drv.scan_result = true <;> by_cases hr : s.hif_drv.conn_result = true
    · simp only [hs, hr, if_true, log_hif_drv, log_trace,
        (handle_pwrsave_for_IP_default vif _).1, List.filter_append]
      simp [Action.isIfcStep, Action.closedIfc, Action.openedIfc]
    · simp only [hs, hr, if_true, if_false, log_hif_drv, log_trace, List.filter_append,
        Bool.false_eq_true]
      simp [Action.isIfcStep, Action.closedIfc, Action.openedIfc]
    · simp only [hs, hr, if_true, if_false, log_hif_drv, log_trace,
        (handle_pwrsave_for_IP_default vif _).1, List.filter_append, Bool.false_eq_true]
      simp [Action.isIfcStep, Action.closedIfc, Action.openedIfc]
    · simp only [hs, hr, if_true, if_false, log_hif_drv, log_trace, List.filter_append,
        Bool.false_eq_true]
      simp [Action.isIfcStep, Action.closedIfc, Action.openedIfc]
  · rw [if_neg hc]

/-- The two close calls of the recovery cycle: interface 0 is stopped
first, when an interface is counted as open, and interface 1 after it, when
a second one is. -/
theorem debug_thread_close_all_steps (envs : List OpenEnv) (s : Wilc) :
    (debug_thread_close_all envs s).wl.trace.filter Action.isIfcStep =
      s.trace.filter Action.isIfcStep ++
        (if 0 < s.open_ifcs then [Action.netif_stop_queue 0] else []) ++
        (if 1 < s.open_ifcs then [Action.netif_stop_queue 1] else []) := by
  have one_ne : (1 : Int) ≠ 0 := by decide
  have c0 := wilc_mac_close_steps 0
    { s with cfg_packet_timeout := 0, recovery_on := 1, wait_for_recovery := 1 } one_ne
  have r0 := (wilc_mac_close_frame (fun _ => false) (fun _ _ => rfl) 0
    { s with cfg_packet_timeout := 0, recovery_on := 1, wait_for_recovery := 1 }).2.2.1
  have n0 := (wilc_mac_close_count 0
    { s with cfg_packet_timeout := 0, recovery_on := 1, wait_for_recovery := 1 }).1
  have c1 := wilc_mac_close_steps 1 (wilc_mac_close 0
    { s with cfg_packet_timeout := 0, recovery_on := 1, wait_for_recovery := 1 }).2
    (by rw [r0]; exact one_ne)
  unfold debug_thread_close_all
  simp only []
  rw [c1, c0, n0]
  have e : (0 < (if 0 < s.open_ifcs then s.open_ifcs - 1 else s.open_ifcs)) ↔
      1 < s.open_ifcs := by
    split_ifs <;> omega
  show _ ++ _ ++ (if 0 < (if 0 < s.open_ifcs then s.open_ifcs - 1 else s.open_ifcs) then _
    else _) = _
  simp only [e]

/-- Claim C14: of the calls that `wilc_mac_close` and `wilc_mac_open` make
on the interface they are called on, a recovery cycle adds to the recorded
calls of the device, in this order: `netif_stop_queue` on interface 0 (when
an interface is counted as open), `netif_stop_queue` on interface 1 (when a
second one is), then only calls of `wilc_mac_open` on interface 1, then only
calls of `wilc_mac_open` on interface 0.  So interface 0 is closed before
interface 1, every close comes before every reopen, and interface 1 is
reopened before interface 0. -/
theorem recovery_closes_ascending_reopens_descending (vif : Fin 2) (envs : List OpenEnv)
    (s : Wilc) :
    ∃ o1 o0 : List Action,
      (debug_thread_recover vif envs s).wl.trace.filter Action.isIfcStep =
        s.trace.filter Action.isIfcStep ++
          (if 0 < s.open_ifcs then [Action.netif_stop_queue 0] else []) ++
          (if 1 < s.open_ifcs then [Action.netif_stop_queue 1] else []) ++ o1 ++ o0 ∧
      (∀ a ∈ o1, a.openedIfc = some 1) ∧ (∀ a ∈ o0, a.openedIfc = some 0) := by
  have hc := debug_thread_close_all_steps envs s
  unfold debug_thread_recover
  generalize debug_thread_close_all envs s = r at hc ⊢
  obtain ⟨o1, e1, q1⟩ := reopen_ifc_steps 1 r
  obtain ⟨o0, e0, q0⟩ := reopen_ifc_steps 0 (reopen_ifc 1 r)
  unfold debug_thread_reopen_all
  simp only []
  by_cases hA : (reopen_ifc 1 r).done = true
  · rw [if_neg (by rw [hA]; decide)]
    by_cases hB : (reopen_ifc 0 (reopen_ifc 1 r)).done = true
    · rw [if_neg (by rw [hB]; decide)]
      refine ⟨o1, o0, ?_, q1, q0⟩
      show (recovery_disconnect vif (reopen_ifc 0 (reopen_ifc 1 r)).wl).trace.filter
        Action.isIfcStep = _
      rw [recovery_disconnect_steps, e0, e1, hc]
    · rw [if_pos (by simpa using hB)]
      exact ⟨o1, o0, by rw [e0, e1, hc], q1, q0⟩
  · rw [if_pos (by simpa using hA)]
    exact ⟨o1, [], by rw [e1, hc, List.append_nil], q1, fun _ h => absurd h (List.not_mem_nil _)⟩

set_option maxRecDepth 100000 in
/-- Claim C14 on a device with both interfaces opened, both reopen attempts
succeeding: the calls on the interfaces are the stop of interface 0, the
stop of interface 1, the six calls of the open of interface 1 and the six
calls of the open of interface 0. -/
theorem recovery_closes_ascending_reopens_descending_witness :
    (∃ o1 o0 : List Action,
      (debug_thread_recover 0 [env_open_ok, env_open_ok] both_opened).wl.trace.filter
          Action.isIfcStep =
        both_opened.trace.filter Action.isIfcStep ++ [Action.netif_stop_queue 0] ++
          [Action.netif_stop_queue 1] ++ o1 ++ o0 ∧
      (∀ a ∈ o1, a.openedIfc = some 1) ∧ (∀ a ∈ o0, a.openedIfc = some 0)) ∧
    (debug_thread_recover 0 [env_open_ok, env_open_ok] both_opened).wl.trace.filter
        Action.isIfcStep =
      both_opened.trace.filter Action.isIfcStep ++
        [Action.netif_stop_queue 0, Action.netif_stop_queue 1,
          Action.wilc_set_wfi_drv_handler 1, Action.wilc_set_operation_mode 1,
          Action.wilc_get_mac_address 1, Action.wilc_mgmt_frame_register 1 0,
          Action.wilc_mgmt_frame_register 1 1, Action.netif_wake_queue 1,
          Action.wilc_set_wfi_drv_handler 0, Action.wilc_set_operation_mode 0,
          Action.wilc_get_mac_address 0, Action.wilc_mgmt_frame_register 0 0,
          Action.wilc_mgmt_frame_register 0 1, Action.netif_wake_queue 0] :=
  ⟨recovery_closes_ascending_reopens_descending 0 [env_open_ok, env_open_ok] both_opened,
    by decide⟩

end WilcNetdev
